import Mathlib

/-!
# Undo/redo linkage maintenance of `GNEChange`

A verification development over `src/netedit/changes/GNEChange.cpp`: the state of the
change command, its two constructors, the fourteen template specialisations of
`addElementInParentsAndChildren` and `removeElementFromParentsAndChildren`, and the
properties of the parent/child relationship store that they maintain.

Elements are referred to by a kind and an identifier (the C++ code uses typed
pointers `GNEEdge*`, `GNELane*`, ...).

The linkage operations are written once, over an arbitrary interpretation
`run : Call → σ → σ` of the primitive calls `addChildElement`, `removeChildElement`,
`addParentEdge`, ..., `removeParentGenericData`, whose definitions
(`GNEHierarchicalParentElements`, `GNEHierarchicalChildElements`) are not part of the
sources. Interpreting a call by appending it to a log gives the calls an operation
issues; interpreting it by `exec` gives its effect on the relationship store.

The declarations of the members `myParentEdges`, ..., `myChildGenericDatas` are in
`GNEChange.h`, which is not part of the sources either. A command is represented by
the sequences that its members denote when an operation starts. No loop of an
operation writes to the collection it walks: the parent loops walk parent collections
and write to child collections, the child loops walk child collections and write to
parent collections, or to child collections of another kind. If the members are
references to live collections, the sequences an operation walks are therefore those
of its start, unless the element whose child collections are captured is itself one
of the captured parents; the result on sequences of operations run one after the
other assumes that the element is not its own parent. `GNEChangeRef` is the command
with its members as references, as the spec describes them; its operations walk the
live sequences loop by loop and agree with the operations on `GNEChange` whenever the
originating elements are not among the captured references.

The second part covers `src/netedit/GNEAttributeCarrier.h`: `canParse<T>`,
`isPositive<T>` and `parseAttributeFromXML<T>`. Exceptions are results (`Except`), the
reference parameter `abort` is an argument and a component of the outcome, and the
functions that the header only declares are parameters.
-/

namespace Netedit

/-- The seven element categories that can be parents or children of each other. -/
inductive Kind where
  | Edge
  | Lane
  | Additional
  | Shape
  | TAZElement
  | DemandElement
  | GenericData
deriving DecidableEq, Repr

/-- The kinds in the order in which every operation of `GNEChange.cpp` walks its
parent collections and then its child collections. -/
def Kind.all : List Kind :=
  [.Edge, .Lane, .Additional, .Shape, .TAZElement, .DemandElement, .GenericData]

/-- A typed element reference: `⟨.Edge, 3⟩` stands for a `GNEEdge*`. -/
structure Elem where
  kind : Kind
  id : Nat
deriving DecidableEq, Repr

/-- The four families of primitive updates called by the linkage operations.
`addParent` with an argument of kind `Edge` is `addParentEdge`, with an argument of
kind `Lane` it is `addParentLane`, and so on; `addChildElement` and
`removeChildElement` are overloaded on the type of their argument. -/
inductive Op where
  | addChildElement
  | removeChildElement
  | addParent
  | removeParent
deriving DecidableEq, Repr

/-- One primitive call `target->op(arg)`. -/
structure Call where
  target : Elem
  op : Op
  arg : Elem
deriving DecidableEq, Repr

/-- The call `target->addChildElement(x)`. -/
def addChildElement (target x : Elem) : Call := ⟨target, .addChildElement, x⟩
/-- The call `target->removeChildElement(x)`. -/
def removeChildElement (target x : Elem) : Call := ⟨target, .removeChildElement, x⟩
/-- The call `target->addParentEdge(edge)`. -/
def addParentEdge (target : Elem) (edge : Nat) : Call := ⟨target, .addParent, ⟨.Edge, edge⟩⟩
/-- The call `target->addParentLane(lane)`. -/
def addParentLane (target : Elem) (lane : Nat) : Call := ⟨target, .addParent, ⟨.Lane, lane⟩⟩
/-- The call `target->addParentAdditional(additional)`. -/
def addParentAdditional (target : Elem) (additional : Nat) : Call :=
  ⟨target, .addParent, ⟨.Additional, additional⟩⟩
/-- The call `target->addParentShape(shape)`. -/
def addParentShape (target : Elem) (shape : Nat) : Call := ⟨target, .addParent, ⟨.Shape, shape⟩⟩
/-- The call `target->addParentTAZElement(TAZElement)`. -/
def addParentTAZElement (target : Elem) (TAZElement : Nat) : Call :=
  ⟨target, .addParent, ⟨.TAZElement, TAZElement⟩⟩
/-- The call `target->addParentDemandElement(demandElement)`. -/
def addParentDemandElement (target : Elem) (demandElement : Nat) : Call :=
  ⟨target, .addParent, ⟨.DemandElement, demandElement⟩⟩
/-- The call `target->addParentGenericData(genericData)`. -/
def addParentGenericData (target : Elem) (genericData : Nat) : Call :=
  ⟨target, .addParent, ⟨.GenericData, genericData⟩⟩
/-- The call `target->removeParentEdge(edge)`. -/
def removeParentEdge (target : Elem) (edge : Nat) : Call := ⟨target, .removeParent, ⟨.Edge, edge⟩⟩
/-- The call `target->removeParentLane(lane)`. -/
def removeParentLane (target : Elem) (lane : Nat) : Call := ⟨target, .removeParent, ⟨.Lane, lane⟩⟩
/-- The call `target->removeParentAdditional(additional)`. -/
def removeParentAdditional (target : Elem) (additional : Nat) : Call :=
  ⟨target, .removeParent, ⟨.Additional, additional⟩⟩
/-- The call `target->removeParentShape(shape)`. -/
def removeParentShape (target : Elem) (shape : Nat) : Call :=
  ⟨target, .removeParent, ⟨.Shape, shape⟩⟩
/-- The call `target->removeParentTAZElement(TAZElement)`. -/
def removeParentTAZElement (target : Elem) (TAZElement : Nat) : Call :=
  ⟨target, .removeParent, ⟨.TAZElement, TAZElement⟩⟩
/-- The call `target->removeParentDemandElement(demandElement)`. -/
def removeParentDemandElement (target : Elem) (demandElement : Nat) : Call :=
  ⟨target, .removeParent, ⟨.DemandElement, demandElement⟩⟩
/-- The call `target->removeParentGenericData(genericData)`. -/
def removeParentGenericData (target : Elem) (genericData : Nat) : Call :=
  ⟨target, .removeParent, ⟨.GenericData, genericData⟩⟩

/-- The state of a `GNEChange`: the direction flag and the seven parent and seven
child sequences bound by the constructors (`GNEChange.cpp`, lines 56-89). -/
structure GNEChange where
  myForward : Bool
  myParentEdges : List Nat
  myParentLanes : List Nat
  myParentAdditionals : List Nat
  myParentShapes : List Nat
  myParentTAZElements : List Nat
  myParentDemandElements : List Nat
  myParentGenericDatas : List Nat
  myChildEdges : List Nat
  myChildLanes : List Nat
  myChildAdditionals : List Nat
  myChildShapes : List Nat
  myChildTAZElements : List Nat
  myChildDemandElements : List Nat
  myChildGenericDatas : List Nat
deriving DecidableEq, Repr

/-- The captured parent sequence of a given kind. -/
def GNEChange.myParent (c : GNEChange) : Kind → List Nat
  | .Edge => c.myParentEdges
  | .Lane => c.myParentLanes
  | .Additional => c.myParentAdditionals
  | .Shape => c.myParentShapes
  | .TAZElement => c.myParentTAZElements
  | .DemandElement => c.myParentDemandElements
  | .GenericData => c.myParentGenericDatas

/-- The captured child sequence of a given kind. -/
def GNEChange.myChild (c : GNEChange) : Kind → List Nat
  | .Edge => c.myChildEdges
  | .Lane => c.myChildLanes
  | .Additional => c.myChildAdditionals
  | .Shape => c.myChildShapes
  | .TAZElement => c.myChildTAZElements
  | .DemandElement => c.myChildDemandElements
  | .GenericData => c.myChildGenericDatas

/-- Source: `GNEChange::GNEChange(bool forward)`; every sequence is bound to the
static empty vector of its type. -/
def GNEChange.ofForward (forward : Bool) : GNEChange :=
  { myForward := forward
    myParentEdges := []
    myParentLanes := []
    myParentAdditionals := []
    myParentShapes := []
    myParentTAZElements := []
    myParentDemandElements := []
    myParentGenericDatas := []
    myChildEdges := []
    myChildLanes := []
    myChildAdditionals := []
    myChildShapes := []
    myChildTAZElements := []
    myChildDemandElements := []
    myChildGenericDatas := [] }

/-- The hierarchical relationship store: for every element and every kind, the
ordered sequence of its parents of that kind and of its children of that kind. -/
structure Store where
  parents : Elem → Kind → List Nat
  children : Elem → Kind → List Nat

/-- The store in which no element has a parent or a child. -/
def Store.empty : Store := ⟨fun _ _ => [], fun _ _ => []⟩

/-- Source: `GNEChange::GNEChange(GNEHierarchicalParentElements* parents,
GNEHierarchicalChildElements* childs, bool forward)`, where `parents` and `childs`
are the hierarchical parts of two elements of the store `s`: each member is bound
to the getter of the same kind. -/
def GNEChange.ofHierarchical (s : Store) (parents childs : Elem) (forward : Bool) : GNEChange :=
  { myForward := forward
    myParentEdges := s.parents parents .Edge
    myParentLanes := s.parents parents .Lane
    myParentAdditionals := s.parents parents .Additional
    myParentShapes := s.parents parents .Shape
    myParentTAZElements := s.parents parents .TAZElement
    myParentDemandElements := s.parents parents .DemandElement
    myParentGenericDatas := s.parents parents .GenericData
    myChildEdges := s.children childs .Edge
    myChildLanes := s.children childs .Lane
    myChildAdditionals := s.children childs .Additional
    myChildShapes := s.children childs .Shape
    myChildTAZElements := s.children childs .TAZElement
    myChildDemandElements := s.children childs .DemandElement
    myChildGenericDatas := s.children childs .GenericData }

/-- Modelled from the spec: `GNEHierarchicalChildElements::addChildElement`, which is
not part of the sources. It records `x` as a child of `target`, kind-tagged with the
kind of `x`; sequences are kept in insertion order, so `x` is put last. -/
def Store.addChildElement (s : Store) (target x : Elem) : Store :=
  { s with children := fun e k =>
      if e = target ∧ k = x.kind then s.children e k ++ [x.id] else s.children e k }

/-- Modelled from the spec: `GNEHierarchicalChildElements::removeChildElement`, which
is not part of the sources. It is the mirror of `addChildElement`: it takes `x` out of
the child sequence of `target` of the kind of `x`. The spec does not say which
occurrence goes when `x` occurs several times; the first one is taken here, and the
sequence is left as it is when `x` does not occur. -/
def Store.removeChildElement (s : Store) (target x : Elem) : Store :=
  { s with children := fun e k =>
      if e = target ∧ k = x.kind then (s.children e k).erase x.id else s.children e k }

/-- Modelled from the spec: `GNEHierarchicalParentElements::addParentEdge`,
`addParentLane`, ..., `addParentGenericData`, which are not part of the sources. Each
records `x` as a parent of `target`, kind-tagged with the kind of `x`, in insertion
order. -/
def Store.addParent (s : Store) (target x : Elem) : Store :=
  { s with parents := fun e k =>
      if e = target ∧ k = x.kind then s.parents e k ++ [x.id] else s.parents e k }

/-- Modelled from the spec: `GNEHierarchicalParentElements::removeParentEdge`,
`removeParentLane`, ..., `removeParentGenericData`, which are not part of the sources.
Each is the mirror of the `addParent` operation of its kind: it takes `x` out of the
parent sequence of `target` of the kind of `x` (first occurrence, nothing when `x`
does not occur). -/
def Store.removeParent (s : Store) (target x : Elem) : Store :=
  { s with parents := fun e k =>
      if e = target ∧ k = x.kind then (s.parents e k).erase x.id else s.parents e k }

/-- The effect of one primitive call on the relationship store. -/
def exec (k : Call) (s : Store) : Store :=
  match k.op with
  | .addChildElement => s.addChildElement k.target k.arg
  | .removeChildElement => s.removeChildElement k.target k.arg
  | .addParent => s.addParent k.target k.arg
  | .removeParent => s.removeParent k.target k.arg

/-- Recording interpretation of a primitive call: the call is appended to the log. -/
def record (k : Call) (log : List Call) : List Call := log ++ [k]

/-! ## The fourteen linkage operations -/

/-- Source: `GNEChange::addElementInParentsAndChildren(GNEEdge* edge)`. -/
def addElementInParentsAndChildren_GNEEdge {σ : Type} (run : Call → σ → σ) (c : GNEChange) (edge : Nat)
    (s : σ) : σ :=
  let s := c.myParentEdges.foldl
    (fun s parent => run (addChildElement ⟨.Edge, parent⟩ ⟨.Edge, edge⟩) s) s
  let s := c.myParentLanes.foldl
    (fun s parent => run (addChildElement ⟨.Lane, parent⟩ ⟨.Edge, edge⟩) s) s
  let s := c.myParentAdditionals.foldl
    (fun s parent => run (addChildElement ⟨.Additional, parent⟩ ⟨.Edge, edge⟩) s) s
  let s := c.myParentShapes.foldl
    (fun s parent => run (addChildElement ⟨.Shape, parent⟩ ⟨.Edge, edge⟩) s) s
  let s := c.myParentTAZElements.foldl
    (fun s parent => run (addChildElement ⟨.TAZElement, parent⟩ ⟨.Edge, edge⟩) s) s
  let s := c.myParentDemandElements.foldl
    (fun s parent => run (addChildElement ⟨.DemandElement, parent⟩ ⟨.Edge, edge⟩) s) s
  let s := c.myParentGenericDatas.foldl
    (fun s parent => run (addChildElement ⟨.GenericData, parent⟩ ⟨.Edge, edge⟩) s) s
  let s := c.myChildEdges.foldl
    (fun s child => run (addParentEdge ⟨.Edge, child⟩ edge) s) s
  let s := c.myChildLanes.foldl
    (fun s child => run (addParentEdge ⟨.Lane, child⟩ edge) s) s
  let s := c.myChildAdditionals.foldl
    (fun s child => run (addParentEdge ⟨.Additional, child⟩ edge) s) s
  let s := c.myChildShapes.foldl
    (fun s child => run (addParentEdge ⟨.Shape, child⟩ edge) s) s
  let s := c.myChildTAZElements.foldl
    (fun s child => run (addParentEdge ⟨.TAZElement, child⟩ edge) s) s
  let s := c.myChildDemandElements.foldl
    (fun s child => run (addParentEdge ⟨.DemandElement, child⟩ edge) s) s
  c.myChildGenericDatas.foldl
    (fun s child => run (addParentEdge ⟨.GenericData, child⟩ edge) s) s

/-- Source: `GNEChange::removeElementFromParentsAndChildren(GNEEdge* edge)`. -/
def removeElementFromParentsAndChildren_GNEEdge {σ : Type} (run : Call → σ → σ) (c : GNEChange) (edge : Nat)
    (s : σ) : σ :=
  let s := c.myParentEdges.foldl
    (fun s parent => run (removeChildElement ⟨.Edge, parent⟩ ⟨.Edge, edge⟩) s) s
  let s := c.myParentLanes.foldl
    (fun s parent => run (removeChildElement ⟨.Lane, parent⟩ ⟨.Edge, edge⟩) s) s
  let s := c.myParentAdditionals.foldl
    (fun s parent => run (removeChildElement ⟨.Additional, parent⟩ ⟨.Edge, edge⟩) s) s
  let s := c.myParentShapes.foldl
    (fun s parent => run (removeChildElement ⟨.Shape, parent⟩ ⟨.Edge, edge⟩) s) s
  let s := c.myParentTAZElements.foldl
    (fun s parent => run (removeChildElement ⟨.TAZElement, parent⟩ ⟨.Edge, edge⟩) s) s
  let s := c.myParentDemandElements.foldl
    (fun s parent => run (removeChildElement ⟨.DemandElement, parent⟩ ⟨.Edge, edge⟩) s) s
  let s := c.myParentGenericDatas.foldl
    (fun s parent => run (removeChildElement ⟨.GenericData, parent⟩ ⟨.Edge, edge⟩) s) s
  let s := c.myChildEdges.foldl
    (fun s child => run (removeParentEdge ⟨.Edge, child⟩ edge) s) s
  let s := c.myChildLanes.foldl
    (fun s child => run (removeParentEdge ⟨.Lane, child⟩ edge) s) s
  let s := c.myChildAdditionals.foldl
    (fun s child => run (removeParentEdge ⟨.Additional, child⟩ edge) s) s
  let s := c.myChildShapes.foldl
    (fun s child => run (removeParentEdge ⟨.Shape, child⟩ edge) s) s
  let s := c.myChildTAZElements.foldl
    (fun s child => run (removeParentEdge ⟨.TAZElement, child⟩ edge) s) s
  let s := c.myChildDemandElements.foldl
    (fun s child => run (removeParentEdge ⟨.DemandElement, child⟩ edge) s) s
  c.myChildGenericDatas.foldl
    (fun s child => run (removeParentEdge ⟨.GenericData, child⟩ edge) s) s

/-- Source: `GNEChange::addElementInParentsAndChildren(GNELane* lane)`. -/
def addElementInParentsAndChildren_GNELane {σ : Type} (run : Call → σ → σ) (c : GNEChange) (lane : Nat)
    (s : σ) : σ :=
  let s := c.myParentEdges.foldl
    (fun s parent => run (addChildElement ⟨.Edge, parent⟩ ⟨.Lane, lane⟩) s) s
  let s := c.myParentLanes.foldl
    (fun s parent => run (addChildElement ⟨.Lane, parent⟩ ⟨.Lane, lane⟩) s) s
  let s := c.myParentAdditionals.foldl
    (fun s parent => run (addChildElement ⟨.Additional, parent⟩ ⟨.Lane, lane⟩) s) s
  let s := c.myParentShapes.foldl
    (fun s parent => run (addChildElement ⟨.Shape, parent⟩ ⟨.Lane, lane⟩) s) s
  let s := c.myParentTAZElements.foldl
    (fun s parent => run (addChildElement ⟨.TAZElement, parent⟩ ⟨.Lane, lane⟩) s) s
  let s := c.myParentDemandElements.foldl
    (fun s parent => run (addChildElement ⟨.DemandElement, parent⟩ ⟨.Lane, lane⟩) s) s
  let s := c.myParentGenericDatas.foldl
    (fun s parent => run (addChildElement ⟨.GenericData, parent⟩ ⟨.Lane, lane⟩) s) s
  let s := c.myChildEdges.foldl
    (fun s child => run (addParentLane ⟨.Edge, child⟩ lane) s) s
  let s := c.myChildLanes.foldl
    (fun s child => run (addParentLane ⟨.Lane, child⟩ lane) s) s
  let s := c.myChildAdditionals.foldl
    (fun s child => run (addParentLane ⟨.Additional, child⟩ lane) s) s
  let s := c.myChildShapes.foldl
    (fun s child => run (addParentLane ⟨.Shape, child⟩ lane) s) s
  let s := c.myChildTAZElements.foldl
    (fun s child => run (addParentLane ⟨.TAZElement, child⟩ lane) s) s
  let s := c.myChildDemandElements.foldl
    (fun s child => run (addParentLane ⟨.DemandElement, child⟩ lane) s) s
  c.myChildGenericDatas.foldl
    (fun s child => run (addParentLane ⟨.GenericData, child⟩ lane) s) s

/-- Source: `GNEChange::removeElementFromParentsAndChildren(GNELane* lane)`. -/
def removeElementFromParentsAndChildren_GNELane {σ : Type} (run : Call → σ → σ) (c : GNEChange) (lane : Nat)
    (s : σ) : σ :=
  let s := c.myParentEdges.foldl
    (fun s parent => run (removeChildElement ⟨.Edge, parent⟩ ⟨.Lane, lane⟩) s) s
  let s := c.myParentLanes.foldl
    (fun s parent => run (removeChildElement ⟨.Lane, parent⟩ ⟨.Lane, lane⟩) s) s
  let s := c.myParentAdditionals.foldl
    (fun s parent => run (removeChildElement ⟨.Additional, parent⟩ ⟨.Lane, lane⟩) s) s
  let s := c.myParentShapes.foldl
    (fun s parent => run (removeChildElement ⟨.Shape, parent⟩ ⟨.Lane, lane⟩) s) s
  let s := c.myParentTAZElements.foldl
    (fun s parent => run (removeChildElement ⟨.TAZElement, parent⟩ ⟨.Lane, lane⟩) s) s
  let s := c.myParentDemandElements.foldl
    (fun s parent => run (removeChildElement ⟨.DemandElement, parent⟩ ⟨.Lane, lane⟩) s) s
  let s := c.myParentGenericDatas.foldl
    (fun s parent => run (removeChildElement ⟨.GenericData, parent⟩ ⟨.Lane, lane⟩) s) s
  let s := c.myChildEdges.foldl
    (fun s child => run (removeParentLane ⟨.Edge, child⟩ lane) s) s
  let s := c.myChildLanes.foldl
    (fun s child => run (removeParentLane ⟨.Lane, child⟩ lane) s) s
  let s := c.myChildAdditionals.foldl
    (fun s child => run (removeParentLane ⟨.Additional, child⟩ lane) s) s
  let s := c.myChildShapes.foldl
    (fun s child => run (removeParentLane ⟨.Shape, child⟩ lane) s) s
  let s := c.myChildTAZElements.foldl
    (fun s child => run (removeParentLane ⟨.TAZElement, child⟩ lane) s) s
  let s := c.myChildDemandElements.foldl
    (fun s child => run (removeParentLane ⟨.DemandElement, child⟩ lane) s) s
  c.myChildGenericDatas.foldl
    (fun s child => run (removeParentLane ⟨.GenericData, child⟩ lane) s) s

/-- Source: `GNEChange::addElementInParentsAndChildren(GNEShape* shape)`. -/
def addElementInParentsAndChildren_GNEShape {σ : Type} (run : Call → σ → σ) (c : GNEChange) (shape : Nat)
    (s : σ) : σ :=
  let s := c.myParentEdges.foldl
    (fun s parent => run (addChildElement ⟨.Edge, parent⟩ ⟨.Shape, shape⟩) s) s
  let s := c.myParentLanes.foldl
    (fun s parent => run (addChildElement ⟨.Lane, parent⟩ ⟨.Shape, shape⟩) s) s
  let s := c.myParentAdditionals.foldl
    (fun s parent => run (addChildElement ⟨.Additional, parent⟩ ⟨.Shape, shape⟩) s) s
  let s := c.myParentShapes.foldl
    (fun s parent => run (addChildElement ⟨.Shape, parent⟩ ⟨.Shape, shape⟩) s) s
  let s := c.myParentTAZElements.foldl
    (fun s parent => run (addChildElement ⟨.TAZElement, parent⟩ ⟨.Shape, shape⟩) s) s
  let s := c.myParentDemandElements.foldl
    (fun s parent => run (addChildElement ⟨.DemandElement, parent⟩ ⟨.Shape, shape⟩) s) s
  let s := c.myParentGenericDatas.foldl
    (fun s parent => run (addChildElement ⟨.GenericData, parent⟩ ⟨.Shape, shape⟩) s) s
  let s := c.myChildEdges.foldl
    (fun s child => run (addParentShape ⟨.Edge, child⟩ shape) s) s
  let s := c.myChildLanes.foldl
    (fun s child => run (addParentShape ⟨.Lane, child⟩ shape) s) s
  let s := c.myChildAdditionals.foldl
    (fun s child => run (addParentShape ⟨.Additional, child⟩ shape) s) s
  let s := c.myChildShapes.foldl
    (fun s child => run (addParentShape ⟨.Shape, child⟩ shape) s) s
  let s := c.myChildTAZElements.foldl
    (fun s child => run (addParentShape ⟨.TAZElement, child⟩ shape) s) s
  let s := c.myChildDemandElements.foldl
    (fun s child => run (addParentShape ⟨.DemandElement, child⟩ shape) s) s
  c.myChildGenericDatas.foldl
    (fun s child => run (addParentShape ⟨.GenericData, child⟩ shape) s) s

/-- Source: `GNEChange::removeElementFromParentsAndChildren(GNEShape* shape)`. -/
def removeElementFromParentsAndChildren_GNEShape {σ : Type} (run : Call → σ → σ) (c : GNEChange) (shape : Nat)
    (s : σ) : σ :=
  let s := c.myParentEdges.foldl
    (fun s parent => run (removeChildElement ⟨.Edge, parent⟩ ⟨.Shape, shape⟩) s) s
  let s := c.myParentLanes.foldl
    (fun s parent => run (removeChildElement ⟨.Lane, parent⟩ ⟨.Shape, shape⟩) s) s
  let s := c.myParentAdditionals.foldl
    (fun s parent => run (removeChildElement ⟨.Additional, parent⟩ ⟨.Shape, shape⟩) s) s
  let s := c.myParentShapes.foldl
    (fun s parent => run (removeChildElement ⟨.Shape, parent⟩ ⟨.Shape, shape⟩) s) s
  let s := c.myParentTAZElements.foldl
    (fun s parent => run (removeChildElement ⟨.TAZElement, parent⟩ ⟨.Shape, shape⟩) s) s
  let s := c.myParentDemandElements.foldl
    (fun s parent => run (removeChildElement ⟨.DemandElement, parent⟩ ⟨.Shape, shape⟩) s) s
  let s := c.myParentGenericDatas.foldl
    (fun s parent => run (removeChildElement ⟨.GenericData, parent⟩ ⟨.Shape, shape⟩) s) s
  let s := c.myChildEdges.foldl
    (fun s child => run (removeParentShape ⟨.Edge, child⟩ shape) s) s
  let s := c.myChildLanes.foldl
    (fun s child => run (removeParentShape ⟨.Lane, child⟩ shape) s) s
  let s := c.myChildAdditionals.foldl
    (fun s child => run (removeParentShape ⟨.Additional, child⟩ shape) s) s
  let s := c.myChildShapes.foldl
    (fun s child => run (removeParentShape ⟨.Shape, child⟩ shape) s) s
  let s := c.myChildTAZElements.foldl
    (fun s child => run (removeParentShape ⟨.TAZElement, child⟩ shape) s) s
  let s := c.myChildDemandElements.foldl
    (fun s child => run (removeParentShape ⟨.DemandElement, child⟩ shape) s) s
  c.myChildGenericDatas.foldl
    (fun s child => run (removeParentShape ⟨.GenericData, child⟩ shape) s) s

/-- Source: `GNEChange::addElementInParentsAndChildren(GNETAZElement* TAZElement)`. -/
def addElementInParentsAndChildren_GNETAZElement {σ : Type} (run : Call → σ → σ) (c : GNEChange) (TAZElement : Nat)
    (s : σ) : σ :=
  let s := c.myParentEdges.foldl
    (fun s parent => run (addChildElement ⟨.Edge, parent⟩ ⟨.TAZElement, TAZElement⟩) s) s
  let s := c.myParentLanes.foldl
    (fun s parent => run (addChildElement ⟨.Lane, parent⟩ ⟨.TAZElement, TAZElement⟩) s) s
  let s := c.myParentAdditionals.foldl
    (fun s parent => run (addChildElement ⟨.Additional, parent⟩ ⟨.TAZElement, TAZElement⟩) s) s
  let s := c.myParentShapes.foldl
    (fun s parent => run (addChildElement ⟨.Shape, parent⟩ ⟨.TAZElement, TAZElement⟩) s) s
  let s := c.myParentTAZElements.foldl
    (fun s parent => run (addChildElement ⟨.TAZElement, parent⟩ ⟨.TAZElement, TAZElement⟩) s) s
  let s := c.myParentDemandElements.foldl
    (fun s parent => run (addChildElement ⟨.DemandElement, parent⟩ ⟨.TAZElement, TAZElement⟩) s) s
  let s := c.myParentGenericDatas.foldl
    (fun s parent => run (addChildElement ⟨.GenericData, parent⟩ ⟨.TAZElement, TAZElement⟩) s) s
  let s := c.myChildEdges.foldl
    (fun s child => run (addParentTAZElement ⟨.Edge, child⟩ TAZElement) s) s
  let s := c.myChildLanes.foldl
    (fun s child => run (addParentTAZElement ⟨.Lane, child⟩ TAZElement) s) s
  let s := c.myChildAdditionals.foldl
    (fun s child => run (addParentTAZElement ⟨.Additional, child⟩ TAZElement) s) s
  let s := c.myChildShapes.foldl
    (fun s child => run (addParentTAZElement ⟨.Shape, child⟩ TAZElement) s) s
  let s := c.myChildTAZElements.foldl
    (fun s child => run (addParentTAZElement ⟨.TAZElement, child⟩ TAZElement) s) s
  let s := c.myChildDemandElements.foldl
    (fun s child => run (addParentTAZElement ⟨.DemandElement, child⟩ TAZElement) s) s
  c.myChildGenericDatas.foldl
    (fun s child => run (addParentTAZElement ⟨.GenericData, child⟩ TAZElement) s) s

/-- Source: `GNEChange::removeElementFromParentsAndChildren(GNETAZElement* TAZElement)`. -/
def removeElementFromParentsAndChildren_GNETAZElement {σ : Type} (run : Call → σ → σ) (c : GNEChange) (TAZElement : Nat)
    (s : σ) : σ :=
  let s := c.myParentEdges.foldl
    (fun s parent => run (removeChildElement ⟨.Edge, parent⟩ ⟨.TAZElement, TAZElement⟩) s) s
  let s := c.myParentLanes.foldl
    (fun s parent => run (removeChildElement ⟨.Lane, parent⟩ ⟨.TAZElement, TAZElement⟩) s) s
  let s := c.myParentAdditionals.foldl
    (fun s parent => run (removeChildElement ⟨.Additional, parent⟩ ⟨.TAZElement, TAZElement⟩) s) s
  let s := c.myParentShapes.foldl
    (fun s parent => run (removeChildElement ⟨.Shape, parent⟩ ⟨.TAZElement, TAZElement⟩) s) s
  let s := c.myParentTAZElements.foldl
    (fun s parent => run (removeChildElement ⟨.TAZElement, parent⟩ ⟨.TAZElement, TAZElement⟩) s) s
  let s := c.myParentDemandElements.foldl
    (fun s parent => run (removeChildElement ⟨.DemandElement, parent⟩ ⟨.TAZElement, TAZElement⟩) s) s
  let s := c.myParentGenericDatas.foldl
    (fun s parent => run (removeChildElement ⟨.GenericData, parent⟩ ⟨.TAZElement, TAZElement⟩) s) s
  let s := c.myChildEdges.foldl
    (fun s child => run (removeParentTAZElement ⟨.Edge, child⟩ TAZElement) s) s
  let s := c.myChildLanes.foldl
    (fun s child => run (removeParentTAZElement ⟨.Lane, child⟩ TAZElement) s) s
  let s := c.myChildAdditionals.foldl
    (fun s child => run (removeParentTAZElement ⟨.Additional, child⟩ TAZElement) s) s
  let s := c.myChildShapes.foldl
    (fun s child => run (removeParentTAZElement ⟨.Shape, child⟩ TAZElement) s) s
  let s := c.myChildTAZElements.foldl
    (fun s child => run (removeParentTAZElement ⟨.TAZElement, child⟩ TAZElement) s) s
  let s := c.myChildDemandElements.foldl
    (fun s child => run (removeParentTAZElement ⟨.DemandElement, child⟩ TAZElement) s) s
  c.myChildGenericDatas.foldl
    (fun s child => run (removeParentTAZElement ⟨.GenericData, child⟩ TAZElement) s) s

/-- Source: `GNEChange::addElementInParentsAndChildren(GNEAdditional* additional)`. -/
def addElementInParentsAndChildren_GNEAdditional {σ : Type} (run : Call → σ → σ) (c : GNEChange) (additional : Nat)
    (s : σ) : σ :=
  let s := c.myParentEdges.foldl
    (fun s parent => run (addChildElement ⟨.Edge, parent⟩ ⟨.Additional, additional⟩) s) s
  let s := c.myParentLanes.foldl
    (fun s parent => run (addChildElement ⟨.Lane, parent⟩ ⟨.Additional, additional⟩) s) s
  let s := c.myParentAdditionals.foldl
    (fun s parent => run (addChildElement ⟨.Additional, parent⟩ ⟨.Additional, additional⟩) s) s
  let s := c.myParentShapes.foldl
    (fun s parent => run (addChildElement ⟨.Shape, parent⟩ ⟨.Additional, additional⟩) s) s
  let s := c.myParentTAZElements.foldl
    (fun s parent => run (addChildElement ⟨.TAZElement, parent⟩ ⟨.Additional, additional⟩) s) s
  let s := c.myParentDemandElements.foldl
    (fun s parent => run (addChildElement ⟨.DemandElement, parent⟩ ⟨.Additional, additional⟩) s) s
  let s := c.myParentGenericDatas.foldl
    (fun s parent => run (addChildElement ⟨.GenericData, parent⟩ ⟨.Additional, additional⟩) s) s
  let s := c.myChildEdges.foldl
    (fun s child => run (addParentAdditional ⟨.Edge, child⟩ additional) s) s
  let s := c.myChildLanes.foldl
    (fun s child => run (addParentAdditional ⟨.Lane, child⟩ additional) s) s
  let s := c.myChildAdditionals.foldl
    (fun s child => run (addParentAdditional ⟨.Additional, child⟩ additional) s) s
  let s := c.myChildShapes.foldl
    (fun s child => run (addParentAdditional ⟨.Shape, child⟩ additional) s) s
  let s := c.myChildTAZElements.foldl
    (fun s child => run (addParentAdditional ⟨.TAZElement, child⟩ additional) s) s
  let s := c.myChildDemandElements.foldl
    (fun s child => run (addParentAdditional ⟨.DemandElement, child⟩ additional) s) s
  c.myChildGenericDatas.foldl
    (fun s child => run (addChildElement ⟨.GenericData, child⟩ ⟨.Additional, additional⟩) s) s

/-- Source: `GNEChange::removeElementFromParentsAndChildren(GNEAdditional* additional)`. -/
def removeElementFromParentsAndChildren_GNEAdditional {σ : Type} (run : Call → σ → σ) (c : GNEChange) (additional : Nat)
    (s : σ) : σ :=
  let s := c.myParentEdges.foldl
    (fun s parent => run (removeChildElement ⟨.Edge, parent⟩ ⟨.Additional, additional⟩) s) s
  let s := c.myParentLanes.foldl
    (fun s parent => run (removeChildElement ⟨.Lane, parent⟩ ⟨.Additional, additional⟩) s) s
  let s := c.myParentAdditionals.foldl
    (fun s parent => run (removeChildElement ⟨.Additional, parent⟩ ⟨.Additional, additional⟩) s) s
  let s := c.myParentShapes.foldl
    (fun s parent => run (removeChildElement ⟨.Shape, parent⟩ ⟨.Additional, additional⟩) s) s
  let s := c.myParentTAZElements.foldl
    (fun s parent => run (removeChildElement ⟨.TAZElement, parent⟩ ⟨.Additional, additional⟩) s) s
  let s := c.myParentDemandElements.foldl
    (fun s parent => run (removeChildElement ⟨.DemandElement, parent⟩ ⟨.Additional, additional⟩) s) s
  let s := c.myParentGenericDatas.foldl
    (fun s parent => run (removeChildElement ⟨.GenericData, parent⟩ ⟨.Additional, additional⟩) s) s
  let s := c.myChildEdges.foldl
    (fun s child => run (removeParentAdditional ⟨.Edge, child⟩ additional) s) s
  let s := c.myChildLanes.foldl
    (fun s child => run (removeParentAdditional ⟨.Lane, child⟩ additional) s) s
  let s := c.myChildAdditionals.foldl
    (fun s child => run (removeParentAdditional ⟨.Additional, child⟩ additional) s) s
  let s := c.myChildShapes.foldl
    (fun s child => run (removeParentAdditional ⟨.Shape, child⟩ additional) s) s
  let s := c.myChildTAZElements.foldl
    (fun s child => run (removeParentAdditional ⟨.TAZElement, child⟩ additional) s) s
  let s := c.myChildDemandElements.foldl
    (fun s child => run (removeParentAdditional ⟨.DemandElement, child⟩ additional) s) s
  c.myChildGenericDatas.foldl
    (fun s child => run (removeParentAdditional ⟨.GenericData, child⟩ additional) s) s

/-- Source: `GNEChange::addElementInParentsAndChildren(GNEDemandElement* demandElement)`. -/
def addElementInParentsAndChildren_GNEDemandElement {σ : Type} (run : Call → σ → σ) (c : GNEChange) (demandElement : Nat)
    (s : σ) : σ :=
  let s := c.myParentEdges.foldl
    (fun s parent => run (addChildElement ⟨.Edge, parent⟩ ⟨.DemandElement, demandElement⟩) s) s
  let s := c.myParentLanes.foldl
    (fun s parent => run (addChildElement ⟨.Lane, parent⟩ ⟨.DemandElement, demandElement⟩) s) s
  let s := c.myParentAdditionals.foldl
    (fun s parent => run (addChildElement ⟨.Additional, parent⟩ ⟨.DemandElement, demandElement⟩) s) s
  let s := c.myParentShapes.foldl
    (fun s parent => run (addChildElement ⟨.Shape, parent⟩ ⟨.DemandElement, demandElement⟩) s) s
  let s := c.myParentTAZElements.foldl
    (fun s parent => run (addChildElement ⟨.TAZElement, parent⟩ ⟨.DemandElement, demandElement⟩) s) s
  let s := c.myParentDemandElements.foldl
    (fun s parent => run (addChildElement ⟨.DemandElement, parent⟩ ⟨.DemandElement, demandElement⟩) s) s
  let s := c.myParentGenericDatas.foldl
    (fun s parent => run (addChildElement ⟨.GenericData, parent⟩ ⟨.DemandElement, demandElement⟩) s) s
  let s := c.myChildEdges.foldl
    (fun s child => run (addParentDemandElement ⟨.Edge, child⟩ demandElement) s) s
  let s := c.myChildLanes.foldl
    (fun s child => run (addParentDemandElement ⟨.Lane, child⟩ demandElement) s) s
  let s := c.myChildAdditionals.foldl
    (fun s child => run (addParentDemandElement ⟨.Additional, child⟩ demandElement) s) s
  let s := c.myChildShapes.foldl
    (fun s child => run (addParentDemandElement ⟨.Shape, child⟩ demandElement) s) s
  let s := c.myChildTAZElements.foldl
    (fun s child => run (addParentDemandElement ⟨.TAZElement, child⟩ demandElement) s) s
  let s := c.myChildDemandElements.foldl
    (fun s child => run (addParentDemandElement ⟨.DemandElement, child⟩ demandElement) s) s
  c.myChildGenericDatas.foldl
    (fun s child => run (addParentDemandElement ⟨.GenericData, child⟩ demandElement) s) s

/-- Source: `GNEChange::removeElementFromParentsAndChildren(GNEDemandElement* demandElement)`. -/
def removeElementFromParentsAndChildren_GNEDemandElement {σ : Type} (run : Call → σ → σ) (c : GNEChange) (demandElement : Nat)
    (s : σ) : σ :=
  let s := c.myParentEdges.foldl
    (fun s parent => run (removeChildElement ⟨.Edge, parent⟩ ⟨.DemandElement, demandElement⟩) s) s
  let s := c.myParentLanes.foldl
    (fun s parent => run (removeChildElement ⟨.Lane, parent⟩ ⟨.DemandElement, demandElement⟩) s) s
  let s := c.myParentAdditionals.foldl
    (fun s parent => run (removeChildElement ⟨.Additional, parent⟩ ⟨.DemandElement, demandElement⟩) s) s
  let s := c.myParentShapes.foldl
    (fun s parent => run (removeChildElement ⟨.Shape, parent⟩ ⟨.DemandElement, demandElement⟩) s) s
  let s := c.myParentTAZElements.foldl
    (fun s parent => run (removeChildElement ⟨.TAZElement, parent⟩ ⟨.DemandElement, demandElement⟩) s) s
  let s := c.myParentDemandElements.foldl
    (fun s parent => run (removeChildElement ⟨.DemandElement, parent⟩ ⟨.DemandElement, demandElement⟩) s) s
  let s := c.myParentGenericDatas.foldl
    (fun s parent => run (removeChildElement ⟨.GenericData, parent⟩ ⟨.DemandElement, demandElement⟩) s) s
  let s := c.myChildEdges.foldl
    (fun s child => run (removeParentDemandElement ⟨.Edge, child⟩ demandElement) s) s
  let s := c.myChildLanes.foldl
    (fun s child => run (removeParentDemandElement ⟨.Lane, child⟩ demandElement) s) s
  let s := c.myChildAdditionals.foldl
    (fun s child => run (removeParentDemandElement ⟨.Additional, child⟩ demandElement) s) s
  let s := c.myChildShapes.foldl
    (fun s child => run (removeParentDemandElement ⟨.Shape, child⟩ demandElement) s) s
  let s := c.myChildTAZElements.foldl
    (fun s child => run (removeParentDemandElement ⟨.TAZElement, child⟩ demandElement) s) s
  let s := c.myChildDemandElements.foldl
    (fun s child => run (removeParentDemandElement ⟨.DemandElement, child⟩ demandElement) s) s
  c.myChildGenericDatas.foldl
    (fun s child => run (removeParentDemandElement ⟨.GenericData, child⟩ demandElement) s) s

/-- Source: `GNEChange::addElementInParentsAndChildren(GNEGenericData* genericData)`. -/
def addElementInParentsAndChildren_GNEGenericData {σ : Type} (run : Call → σ → σ) (c : GNEChange) (genericData : Nat)
    (s : σ) : σ :=
  let s := c.myParentEdges.foldl
    (fun s parent => run (addChildElement ⟨.Edge, parent⟩ ⟨.GenericData, genericData⟩) s) s
  let s := c.myParentLanes.foldl
    (fun s parent => run (addChildElement ⟨.Lane, parent⟩ ⟨.GenericData, genericData⟩) s) s
  let s := c.myParentAdditionals.foldl
    (fun s parent => run (addChildElement ⟨.Additional, parent⟩ ⟨.GenericData, genericData⟩) s) s
  let s := c.myParentShapes.foldl
    (fun s parent => run (addChildElement ⟨.Shape, parent⟩ ⟨.GenericData, genericData⟩) s) s
  let s := c.myParentTAZElements.foldl
    (fun s parent => run (addChildElement ⟨.TAZElement, parent⟩ ⟨.GenericData, genericData⟩) s) s
  let s := c.myParentDemandElements.foldl
    (fun s parent => run (addChildElement ⟨.DemandElement, parent⟩ ⟨.GenericData, genericData⟩) s) s
  let s := c.myParentGenericDatas.foldl
    (fun s parent => run (addChildElement ⟨.GenericData, parent⟩ ⟨.GenericData, genericData⟩) s) s
  let s := c.myChildEdges.foldl
    (fun s child => run (addParentGenericData ⟨.Edge, child⟩ genericData) s) s
  let s := c.myChildLanes.foldl
    (fun s child => run (addParentGenericData ⟨.Lane, child⟩ genericData) s) s
  let s := c.myChildAdditionals.foldl
    (fun s child => run (addParentGenericData ⟨.Additional, child⟩ genericData) s) s
  let s := c.myChildShapes.foldl
    (fun s child => run (addParentGenericData ⟨.Shape, child⟩ genericData) s) s
  let s := c.myChildTAZElements.foldl
    (fun s child => run (addParentGenericData ⟨.TAZElement, child⟩ genericData) s) s
  let s := c.myChildDemandElements.foldl
    (fun s child => run (addParentGenericData ⟨.DemandElement, child⟩ genericData) s) s
  c.myChildGenericDatas.foldl
    (fun s child => run (addParentGenericData ⟨.GenericData, child⟩ genericData) s) s

/-- Source: `GNEChange::removeElementFromParentsAndChildren(GNEGenericData* genericData)`. -/
def removeElementFromParentsAndChildren_GNEGenericData {σ : Type} (run : Call → σ → σ) (c : GNEChange) (genericData : Nat)
    (s : σ) : σ :=
  let s := c.myParentEdges.foldl
    (fun s parent => run (removeChildElement ⟨.Edge, parent⟩ ⟨.GenericData, genericData⟩) s) s
  let s := c.myParentLanes.foldl
    (fun s parent => run (removeChildElement ⟨.Lane, parent⟩ ⟨.GenericData, genericData⟩) s) s
  let s := c.myParentAdditionals.foldl
    (fun s parent => run (removeChildElement ⟨.Additional, parent⟩ ⟨.GenericData, genericData⟩) s) s
  let s := c.myParentShapes.foldl
    (fun s parent => run (removeChildElement ⟨.Shape, parent⟩ ⟨.GenericData, genericData⟩) s) s
  let s := c.myParentTAZElements.foldl
    (fun s parent => run (removeChildElement ⟨.TAZElement, parent⟩ ⟨.GenericData, genericData⟩) s) s
  let s := c.myParentDemandElements.foldl
    (fun s parent => run (removeChildElement ⟨.DemandElement, parent⟩ ⟨.GenericData, genericData⟩) s) s
  let s := c.myParentGenericDatas.foldl
    (fun s parent => run (removeChildElement ⟨.GenericData, parent⟩ ⟨.GenericData, genericData⟩) s) s
  let s := c.myChildEdges.foldl
    (fun s child => run (removeParentGenericData ⟨.Edge, child⟩ genericData) s) s
  let s := c.myChildLanes.foldl
    (fun s child => run (removeParentGenericData ⟨.Lane, child⟩ genericData) s) s
  let s := c.myChildAdditionals.foldl
    (fun s child => run (removeParentGenericData ⟨.Additional, child⟩ genericData) s) s
  let s := c.myChildShapes.foldl
    (fun s child => run (removeParentGenericData ⟨.Shape, child⟩ genericData) s) s
  let s := c.myChildTAZElements.foldl
    (fun s child => run (removeParentGenericData ⟨.TAZElement, child⟩ genericData) s) s
  let s := c.myChildDemandElements.foldl
    (fun s child => run (removeParentGenericData ⟨.DemandElement, child⟩ genericData) s) s
  c.myChildGenericDatas.foldl
    (fun s child => run (removeParentGenericData ⟨.GenericData, child⟩ genericData) s) s

/-- The specialisation of `addElementInParentsAndChildren` selected by the kind of
the element. -/
def addElementInParentsAndChildren {σ : Type} (run : Call → σ → σ) :
    Kind → GNEChange → Nat → σ → σ
  | .Edge => addElementInParentsAndChildren_GNEEdge run
  | .Lane => addElementInParentsAndChildren_GNELane run
  | .Additional => addElementInParentsAndChildren_GNEAdditional run
  | .Shape => addElementInParentsAndChildren_GNEShape run
  | .TAZElement => addElementInParentsAndChildren_GNETAZElement run
  | .DemandElement => addElementInParentsAndChildren_GNEDemandElement run
  | .GenericData => addElementInParentsAndChildren_GNEGenericData run

/-- The specialisation of `removeElementFromParentsAndChildren` selected by the kind
of the element. -/
def removeElementFromParentsAndChildren {σ : Type} (run : Call → σ → σ) :
    Kind → GNEChange → Nat → σ → σ
  | .Edge => removeElementFromParentsAndChildren_GNEEdge run
  | .Lane => removeElementFromParentsAndChildren_GNELane run
  | .Additional => removeElementFromParentsAndChildren_GNEAdditional run
  | .Shape => removeElementFromParentsAndChildren_GNEShape run
  | .TAZElement => removeElementFromParentsAndChildren_GNETAZElement run
  | .DemandElement => removeElementFromParentsAndChildren_GNEDemandElement run
  | .GenericData => removeElementFromParentsAndChildren_GNEGenericData run

/-- The operation `linkAdd(X)` on the relationship store, for `X = ⟨K, x⟩`. -/
def linkAdd (K : Kind) (c : GNEChange) (x : Nat) (s : Store) : Store :=
  addElementInParentsAndChildren exec K c x s

/-- The operation `linkRemove(X)` on the relationship store, for `X = ⟨K, x⟩`. -/
def linkRemove (K : Kind) (c : GNEChange) (x : Nat) (s : Store) : Store :=
  removeElementFromParentsAndChildren exec K c x s

/-- The primitive calls issued by `linkAdd(X)`, in the order in which they are issued. -/
def linkAddCalls (K : Kind) (c : GNEChange) (x : Nat) : List Call :=
  addElementInParentsAndChildren record K c x []

/-- The primitive calls issued by `linkRemove(X)`, in the order in which they are
issued. -/
def linkRemoveCalls (K : Kind) (c : GNEChange) (x : Nat) : List Call :=
  removeElementFromParentsAndChildren record K c x []

/-! ## Scripts, closed forms and invariants used in the proofs -/

/-- The two sides of the relationship store. -/
inductive Side where
  | parent
  | child
deriving DecidableEq, Repr

/-- The sequences of one side of the store. -/
def Store.seq (s : Store) : Side → Elem → Kind → List Nat
  | .parent => s.parents
  | .child => s.children

/-- The side of the target's store that a primitive writes to. -/
def Op.side : Op → Side
  | .addChildElement => .child
  | .removeChildElement => .child
  | .addParent => .parent
  | .removeParent => .parent

/-- Whether a primitive is one of the recording ones. -/
def Op.isAdd : Op → Bool
  | .addChildElement => true
  | .addParent => true
  | .removeChildElement => false
  | .removeParent => false

/-- The mirror of a primitive: `addChildElement` becomes `removeChildElement` and
the `addParent` of a kind becomes the `removeParent` of that kind. -/
def Op.mirror : Op → Op
  | .addChildElement => .removeChildElement
  | .addParent => .removeParent
  | .removeChildElement => .removeChildElement
  | .removeParent => .removeParent

/-- The mirror of a call: same target, same argument, mirrored primitive. -/
def Call.mirror (k : Call) : Call := ⟨k.target, k.op.mirror, k.arg⟩

/-- Running a list of primitive calls on the store, first call first. -/
def execAll (l : List Call) (s : Store) : Store := l.foldl (fun s k => exec k s) s

/-- The captured parents in the order in which both operations visit them. -/
def parentTargets (c : GNEChange) : List Elem :=
  c.myParentEdges.map (Elem.mk .Edge) ++ c.myParentLanes.map (Elem.mk .Lane) ++
  c.myParentAdditionals.map (Elem.mk .Additional) ++ c.myParentShapes.map (Elem.mk .Shape) ++
  c.myParentTAZElements.map (Elem.mk .TAZElement) ++
  c.myParentDemandElements.map (Elem.mk .DemandElement) ++
  c.myParentGenericDatas.map (Elem.mk .GenericData)

/-- The captured children in the order in which both operations visit them. -/
def childTargets (c : GNEChange) : List Elem :=
  c.myChildEdges.map (Elem.mk .Edge) ++ c.myChildLanes.map (Elem.mk .Lane) ++
  c.myChildAdditionals.map (Elem.mk .Additional) ++ c.myChildShapes.map (Elem.mk .Shape) ++
  c.myChildTAZElements.map (Elem.mk .TAZElement) ++
  c.myChildDemandElements.map (Elem.mk .DemandElement) ++
  c.myChildGenericDatas.map (Elem.mk .GenericData)

/-- The primitive that `linkAdd` of an element of kind `K` calls on a captured child
of kind `C`. -/
def childAddOp (K C : Kind) : Op :=
  if K = .Additional ∧ C = .GenericData then .addChildElement else .addParent

/-- Closed form of the calls of `linkAdd`. -/
def addScript (K : Kind) (c : GNEChange) (x : Nat) : List Call :=
  (parentTargets c).map (fun p => ⟨p, .addChildElement, ⟨K, x⟩⟩) ++
  (childTargets c).map (fun ch => ⟨ch, childAddOp K ch.kind, ⟨K, x⟩⟩)

/-- Closed form of the calls of `linkRemove`. -/
def removeScript (K : Kind) (c : GNEChange) (x : Nat) : List Call :=
  (parentTargets c).map (fun p => ⟨p, .removeChildElement, ⟨K, x⟩⟩) ++
  (childTargets c).map (fun ch => ⟨ch, .removeParent, ⟨K, x⟩⟩)

/-- Removing the first occurrence of `x` from a sequence, `n` times in a row. -/
def eraseN (x : Nat) : Nat → List Nat → List Nat
  | 0, l => l
  | n + 1, l => eraseN x n (l.erase x)

/-- A call writes to the sequence of side `sd` and kind `kd` of element `e`. -/
def Call.hits (sd : Side) (e : Elem) (kd : Kind) (k : Call) : Bool :=
  decide (k.op.side = sd ∧ e = k.target ∧ kd = k.arg.kind)

/-- A captured child on which `linkAdd` of a kind-`K` element calls `addChildElement`
instead of the `addParent` operation of kind `K`. -/
def slipTarget (K : Kind) (e : Elem) : Bool :=
  decide (K = .Additional ∧ e.kind = .GenericData)

/-- How many times `linkAdd` appends to the sequence of side `sd` and kind `kd` of
element `e`. -/
def addHits (K : Kind) (c : GNEChange) (sd : Side) (e : Elem) (kd : Kind) : Nat :=
  if kd = K then
    match sd with
    | .child =>
        (parentTargets c).count e + (if slipTarget K e then (childTargets c).count e else 0)
    | .parent => if slipTarget K e then 0 else (childTargets c).count e
  else 0

/-- How many times `linkRemove` erases from the sequence of side `sd` and kind `kd`
of element `e`. -/
def removeHits (K : Kind) (c : GNEChange) (sd : Side) (e : Elem) (kd : Kind) : Nat :=
  if kd = K then
    match sd with
    | .child => (parentTargets c).count e
    | .parent => (childTargets c).count e
  else 0

/-- The symmetry invariant of the relationship store: `C` is in the child sequence of
`P` of the kind of `C` exactly when `P` is in the parent sequence of `C` of the kind of
`P`. -/
def Symmetric (s : Store) : Prop :=
  ∀ P C : Elem, C.id ∈ s.children P C.kind ↔ P.id ∈ s.parents C P.kind

/-- One call of the linkage protocol for a fixed element and command. -/
inductive LinkOp where
  | add
  | remove
deriving DecidableEq, Repr

/-- A finite sequence of `linkAdd(X)` and `linkRemove(X)` calls, first call first. -/
def runLinks (K : Kind) (c : GNEChange) (x : Nat) (ops : List LinkOp) (s : Store) : Store :=
  ops.foldl (fun s o =>
    match o with
    | .add => linkAdd K c x s
    | .remove => linkRemove K c x s) s

/-- What every sequence of `linkAdd(X)`/`linkRemove(X)` calls keeps true of the store
`t` it has reached from `s`: entries other than `x` and sequences of other kinds have
the same members, the sequences of `X` itself are the same, and `x` has only been
recorded at captured parents and children. -/
def LinkInv (K : Kind) (c : GNEChange) (x : Nat) (s t : Store) : Prop :=
  (∀ sd e kd y, (kd ≠ K ∨ y ≠ x) → (y ∈ t.seq sd e kd ↔ y ∈ s.seq sd e kd)) ∧
  (∀ sd kd, t.seq sd ⟨K, x⟩ kd = s.seq sd ⟨K, x⟩ kd) ∧
  (∀ e, x ∈ t.seq .child e K → x ∈ s.seq .child e K ∨ e ∈ parentTargets c) ∧
  (∀ e, x ∈ t.seq .parent e K → x ∈ s.seq .parent e K ∨ e ∈ childTargets c)

/-! ## Stores and commands of the scenarios -/

/-- A command whose only captured reference is the GenericData child `1`. -/
def slipChange : GNEChange := { GNEChange.ofForward true with myChildGenericDatas := [1] }

/-- A command for a route whose captured parent edges are `[1, 2, 1]`: the route
passes edge `1` twice. -/
def routeChange : GNEChange := { GNEChange.ofForward true with myParentEdges := [1, 2, 1] }

/-- The command of a lane whose only captured reference is the parent edge `1`. -/
def laneChange : GNEChange := { GNEChange.ofForward true with myParentEdges := [1] }

/-- The store in which lane `1` is the Lane child of edge `1` and edge `1` the Edge
parent of lane `1`. -/
def c1Store : Store :=
  ⟨fun e k => if e = ⟨.Lane, 1⟩ ∧ k = .Edge then [1] else [],
   fun e k => if e = ⟨.Edge, 1⟩ ∧ k = .Lane then [1] else []⟩

/-- The store before a lane is created: lane `1` records edge `1` as its Edge parent,
the edge has no child yet. -/
def c7Store : Store :=
  ⟨fun e k => if e = ⟨.Lane, 1⟩ ∧ k = .Edge then [1] else [], fun _ _ => []⟩

/-- The store in which edge `1` has the DemandElement children `[5, 6]`. -/
def c9Store : Store :=
  ⟨fun _ _ => [], fun e k => if e = ⟨.Edge, 1⟩ ∧ k = .DemandElement then [5, 6] else []⟩

/-- The store of the edge-removal scenario: DemandElement `1` references edge `1`
(on both sides) and GenericData `1` references DemandElement `1` (on both sides). -/
def c8Store : Store :=
  ⟨fun e k =>
      if e = ⟨.DemandElement, 1⟩ ∧ k = .Edge then [1]
      else if e = ⟨.GenericData, 1⟩ ∧ k = .DemandElement then [1] else [],
   fun e k =>
      if e = ⟨.Edge, 1⟩ ∧ k = .DemandElement then [1]
      else if e = ⟨.DemandElement, 1⟩ ∧ k = .GenericData then [1] else []⟩

/-- The store of the edge-removal scenario in which GenericData `1` is, besides, a
GenericData child of edge `1`. -/
def c8ChildStore : Store :=
  ⟨fun e k =>
      if e = ⟨.DemandElement, 1⟩ ∧ k = .Edge then [1]
      else if e = ⟨.GenericData, 1⟩ ∧ k = .DemandElement then [1]
      else if e = ⟨.GenericData, 1⟩ ∧ k = .Edge then [1] else [],
   fun e k =>
      if e = ⟨.Edge, 1⟩ ∧ k = .DemandElement then [1]
      else if e = ⟨.Edge, 1⟩ ∧ k = .GenericData then [1]
      else if e = ⟨.DemandElement, 1⟩ ∧ k = .GenericData then [1] else []⟩

/-- The store of the edge-removal scenario in which GenericData `1` is, besides, a
GenericData parent of edge `1`. -/
def c8ParentStore : Store :=
  ⟨fun e k =>
      if e = ⟨.DemandElement, 1⟩ ∧ k = .Edge then [1]
      else if e = ⟨.GenericData, 1⟩ ∧ k = .DemandElement then [1]
      else if e = ⟨.Edge, 1⟩ ∧ k = .GenericData then [1] else [],
   fun e k =>
      if e = ⟨.Edge, 1⟩ ∧ k = .DemandElement then [1]
      else if e = ⟨.GenericData, 1⟩ ∧ k = .Edge then [1]
      else if e = ⟨.DemandElement, 1⟩ ∧ k = .GenericData then [1] else []⟩

/-! ## Members of `GNEChange` other than the linkage operations -/

/-- Source: `const std::vector<GNEEdge*> GNEChange::myEmptyEdges = {}`. -/
def GNEChange.myEmptyEdges : List Nat := []
/-- Source: `const std::vector<GNELane*> GNEChange::myEmptyLanes = {}`. -/
def GNEChange.myEmptyLanes : List Nat := []
/-- Source: `const std::vector<GNEAdditional*> GNEChange::myEmptyAdditionals = {}`. -/
def GNEChange.myEmptyAdditionals : List Nat := []
/-- Source: `const std::vector<GNEShape*> GNEChange::myEmptyShapes = {}`. -/
def GNEChange.myEmptyShapes : List Nat := []
/-- Source: `const std::vector<GNETAZElement*> GNEChange::myEmptyTAZElements = {}`. -/
def GNEChange.myEmptyTAZElements : List Nat := []
/-- Source: `const std::vector<GNEDemandElement*> GNEChange::myEmptyDemandElements = {}`. -/
def GNEChange.myEmptyDemandElements : List Nat := []
/-- Source: `const std::vector<GNEGenericData*> GNEChange::myEmptyGenericDatas = {}`. -/
def GNEChange.myEmptyGenericDatas : List Nat := []

/-- Source: `FXuint GNEChange::size() const`. -/
def GNEChange.size (_c : GNEChange) : Nat := 1

/-- Source: `FXString GNEChange::undoName() const`. -/
def GNEChange.undoName (_c : GNEChange) : String := "Undo"

/-- Source: `FXString GNEChange::redoName() const`. -/
def GNEChange.redoName (_c : GNEChange) : String := "Redo"

/-- Source: `void GNEChange::undo() {}`: the command and everything around it (`w`, for
instance the relationship store) are returned as they are. -/
def GNEChange.undo {σ : Type} (c : GNEChange) (w : σ) : GNEChange × σ := (c, w)

/-- Source: `void GNEChange::redo() {}`. -/
def GNEChange.redo {σ : Type} (c : GNEChange) (w : σ) : GNEChange × σ := (c, w)

/-- Interpretation of a primitive call that can report an error: once a call has
failed, the calls after it are not made (a C++ exception leaves the operation, which
has no handler). -/
def runChecked {σ ε : Type} (prim : Call → σ → Except ε σ) (k : Call) (r : Except ε σ) :
    Except ε σ :=
  match r with
  | .ok s => prim k s
  | .error e => .error e

/-- The command whose only captured sequence is the child sequence of kind `C`. -/
def GNEChange.childOnly (C : Kind) (l : List Nat) : GNEChange :=
  match C with
  | .Edge => { GNEChange.ofForward true with myChildEdges := l }
  | .Lane => { GNEChange.ofForward true with myChildLanes := l }
  | .Additional => { GNEChange.ofForward true with myChildAdditionals := l }
  | .Shape => { GNEChange.ofForward true with myChildShapes := l }
  | .TAZElement => { GNEChange.ofForward true with myChildTAZElements := l }
  | .DemandElement => { GNEChange.ofForward true with myChildDemandElements := l }
  | .GenericData => { GNEChange.ofForward true with myChildGenericDatas := l }

/-! ## `GNEAttributeCarrier.h`: parsing of attribute values

The functions `parse<T>`, `isValidID`, `isValidFilename`, `allowedAttributes`,
`getTagProperties`, `hasDefaultValue`, `getDefaultValue<T>`, `toString`, the methods of
`SUMOSAXAttributes` and the vehicle-class functions are declared or used in the header
but defined elsewhere; they are parameters of the definitions below. -/

/-- What a call of `parse<T>` can throw: the three exception classes that `canParse`
catches, and any other exception. -/
inductive Thrown where
  | NumberFormatException
  | EmptyData
  | BoolFormatException
  | other (what : String)
deriving DecidableEq, Repr

/-- Source: `GNEAttributeCarrier::canParse<T>`, with `parse<T>` as a parameter. The
three handlers return `false`; an exception of another class is not caught. -/
def canParse {T : Type} (parse : String → Except Thrown T) (string : String) :
    Except Thrown Bool :=
  match parse string with
  | .ok _ => .ok true
  | .error .NumberFormatException => .ok false
  | .error .EmptyData => .ok false
  | .error .BoolFormatException => .ok false
  | .error (.other what) => .error (.other what)

/-- Source: `GNEAttributeCarrier::isPositive<T>`:
`canParse<T>(string) && parse<T>(string) > 0`, the second operand being evaluated only
when the first is true. -/
def isPositive {T : Type} [Zero T] [LT T] [DecidableRel (fun a b : T => a < b)]
    (parse : String → Except Thrown T) (string : String) : Except Thrown Bool :=
  match canParse parse string with
  | .error e => .error e
  | .ok false => .ok false
  | .ok true =>
    match parse string with
    | .ok v => .ok (decide (v > 0))
    | .error e => .error e

/-- The attribute keys that `parseAttributeFromXML` compares its argument with; the
enumeration `SumoXMLAttr` itself is declared outside the sources. -/
inductive SumoXMLAttr where
  | SUMO_ATTR_ID
  | SUMO_ATTR_VCLASS
  | SUMO_ATTR_GUISHAPE
  | SUMO_ATTR_ROUTEPROBE
  | GNE_ATTR_BLOCK_MOVEMENT
  | other (n : Nat)
deriving DecidableEq, Repr

/-- An element tag; the enumeration `SumoXMLTag` is declared outside the sources. -/
structure SumoXMLTag where
  id : Nat
deriving DecidableEq, Repr

/-- Source: `GNEAttributeCarrier::TagValues`, seen through its `const` methods. -/
structure TagValues where
  isNetElement : Bool
  isAdditional : Bool
  isShape : Bool
  canBlockMovement : Bool
  canBlockShape : Bool
  canCloseShape : Bool
  hasGEOPosition : Bool
  hasGEOShape : Bool
  hasParent : Bool
  hasDialog : Bool
deriving DecidableEq, Repr

/-- Source: `GNEAttributeCarrier::AttributeValues`, seen through its `const` methods. -/
structure AttributeValues where
  getType : String
  isInt : Bool
  isFloat : Bool
  isBool : Bool
  isString : Bool
  isProbability : Bool
  isNumerical : Bool
  isTime : Bool
  isPositive : Bool
  isColor : Bool
  isFilename : Bool
  isSVC : Bool
  isList : Bool
  isUnique : Bool
  isOptional : Bool
  isDiscrete : Bool
deriving DecidableEq, Repr

/-- The XML attributes handed to `parseAttributeFromXML`: `hasAttribute(attribute)`,
and for `get<std::string>(attribute, objectID, parsedOk, false)` the string returned
and the value of `parsedOk` after the call. -/
structure SUMOSAXAttributes where
  hasAttribute : SumoXMLAttr → Bool
  getString : SumoXMLAttr → String
  getOk : SumoXMLAttr → Bool

/-- The functions that `parseAttributeFromXML<T>` calls and that are defined outside
the sources. `allowedAttributes tag attribute` is `none` when the map
`allowedAttributes(tag)` has no entry for the attribute, in which case `at` throws.
`Dbl` stands for `double`, of which only the comparisons `< 0` and `> 1` are used, `RGB`
for `RGBColor`, `vehicleClassesString` for `toString(parseVehicleClasses(...))`. -/
structure Collaborators (T Dbl RGB : Type) where
  allowedAttributes : SumoXMLTag → SumoXMLAttr → Option AttributeValues
  getTagProperties : SumoXMLTag → TagValues
  hasDefaultValue : SumoXMLTag → SumoXMLAttr → Bool
  getDefaultValue : SumoXMLTag → SumoXMLAttr → T
  toStringValue : T → String
  toStringTag : SumoXMLTag → String
  toStringAttr : SumoXMLAttr → String
  parse : String → Except Thrown T
  parseInt : String → Except Thrown Int
  parseDouble : String → Except Thrown Dbl
  ltZero : Dbl → Bool
  gtOne : Dbl → Bool
  parseRGBColor : String → Except Thrown RGB
  isValidID : String → Bool
  isValidFilename : String → Bool
  canParseVehicleClasses : String → Bool
  vehicleClassesString : String → String

/-- The local variables `parsedOk`, `parsedAttribute` and `errorFormat` of
`parseAttributeFromXML`. -/
structure CheckState where
  parsedOk : Bool
  parsedAttribute : String
  errorFormat : String
deriving DecidableEq, Repr

/-- What a call of `parseAttributeFromXML` leaves behind: the value of the reference
parameter `abort`, the warnings written, and the value returned or the exception
thrown. -/
structure Outcome (T : Type) where
  abort : Bool
  warnings : List String
  result : Except Thrown T

/-- Source: `parseAttributeFromXML`, the local `additionalOfWarningMessage`. -/
def additionalOfWarningMessage {T Dbl RGB : Type} (env : Collaborators T Dbl RGB)
    (objectID : String) (tag : SumoXMLTag) : String :=
  if objectID != "" then env.toStringTag tag ++ " with ID \x27" ++ objectID ++ "\x27"
  else env.toStringTag tag

/-- Source: `parseAttributeFromXML`, the local `defaultValue`: the string parsed when no
valid value and no default is available. -/
def fallbackValue (av : AttributeValues) : String :=
  if av.isNumerical then "0" else if av.isColor then "BLACK" else ""

/-- Source: `parseAttributeFromXML`, the check that the string read can be converted to
`T`. -/
def checkCanParse {T Dbl RGB : Type} (env : Collaborators T Dbl RGB) (av : AttributeValues)
    (st : CheckState) : Except Thrown CheckState :=
  if st.parsedOk then do
    let ok ← canParse env.parse st.parsedAttribute
    if !ok then
      if !av.isSVC then
        pure { st with parsedOk := false, parsedAttribute := fallbackValue av }
      else
        pure { st with parsedOk := false }
    else
      pure st
  else
    pure st

/-- Source: `parseAttributeFromXML`, the extra check for ID values. -/
def checkID {T Dbl RGB : Type} (env : Collaborators T Dbl RGB) (attr : SumoXMLAttr)
    (st : CheckState) : CheckState :=
  if attr = .SUMO_ATTR_ID then
    if st.parsedAttribute.isEmpty then
      { st with errorFormat := "ID cannot be empty; ", parsedOk := false }
    else if env.isValidID st.parsedAttribute == false then
      { st with
        errorFormat := "\x27" ++ st.parsedAttribute ++ "\x27 contains invalid characters; "
        parsedOk := false }
    else st
  else st

/-- Source: `parseAttributeFromXML`, the extra checks for int values. -/
def checkInt {T Dbl RGB : Type} (env : Collaborators T Dbl RGB) (av : AttributeValues)
    (st : CheckState) : Except Thrown CheckState :=
  if av.isInt then do
    let okInt ← canParse env.parseInt st.parsedAttribute
    if okInt then do
      let parsedIntAttribute ← env.parseInt st.parsedAttribute
      if av.isPositive && decide (parsedIntAttribute < 0) then
        pure { st with errorFormat := "Cannot be negative; ", parsedOk := false }
      else
        pure st
    else do
      let okDouble ← canParse env.parseDouble st.parsedAttribute
      if okDouble then
        pure { st with errorFormat := "Float cannot be reinterpreted as int; ", parsedOk := false }
      else
        pure { st with errorFormat := "Cannot be parsed to int; ", parsedOk := false }
  else
    pure st

/-- Source: `parseAttributeFromXML`, the extra checks for float values. -/
def checkFloat {T Dbl RGB : Type} (env : Collaborators T Dbl RGB) (av : AttributeValues)
    (st : CheckState) : Except Thrown CheckState :=
  if av.isFloat then do
    let okDouble ← canParse env.parseDouble st.parsedAttribute
    if okDouble then
      if av.isPositive then do
        let d ← env.parseDouble st.parsedAttribute
        if env.ltZero d then
          pure { st with errorFormat := "Cannot be negative; ", parsedOk := false }
        else
          pure st
      else
        pure st
    else
      pure { st with errorFormat := "Cannot be parsed to float; ", parsedOk := false }
  else
    pure st

/-- Source: `parseAttributeFromXML`, the extra check for time values. -/
def checkTime {T Dbl RGB : Type} (env : Collaborators T Dbl RGB) (av : AttributeValues)
    (st : CheckState) : Except Thrown CheckState :=
  if av.isTime then do
    let okDouble ← canParse env.parseDouble st.parsedAttribute
    if okDouble then do
      let d ← env.parseDouble st.parsedAttribute
      if env.ltZero d then
        pure { st with errorFormat := "Time cannot be negative; ", parsedOk := false }
      else
        pure st
    else
      pure { st with errorFormat := "Cannot be parsed to time; ", parsedOk := false }
  else
    pure st

/-- Source: `parseAttributeFromXML`, the extra check for probability values. -/
def checkProbability {T Dbl RGB : Type} (env : Collaborators T Dbl RGB) (av : AttributeValues)
    (st : CheckState) : Except Thrown CheckState :=
  if av.isProbability then do
    let okDouble ← canParse env.parseDouble st.parsedAttribute
    if okDouble then do
      let d ← env.parseDouble st.parsedAttribute
      if env.ltZero d then
        pure { st with errorFormat := "Probability cannot be smaller than 0; ", parsedOk := false }
      else do
        let d1 ← env.parseDouble st.parsedAttribute
        if env.gtOne d1 then
          pure { st with
            errorFormat := "Probability cannot be greather than 1; ", parsedOk := false }
        else
          pure st
    else
      pure { st with errorFormat := "Cannot be parsed to probability; ", parsedOk := false }
  else
    pure st

/-- Source: `parseAttributeFromXML`, the extra check for color values. -/
def checkColor {T Dbl RGB : Type} (env : Collaborators T Dbl RGB) (av : AttributeValues)
    (st : CheckState) : Except Thrown CheckState :=
  if av.isColor then do
    let okColor ← canParse env.parseRGBColor st.parsedAttribute
    if !okColor then
      pure { st with errorFormat := "Invalid RGB format or named color; ", parsedOk := false }
    else
      pure st
  else
    pure st

/-- Source: `parseAttributeFromXML`, the extra check for filename values. -/
def checkFilename {T Dbl RGB : Type} (env : Collaborators T Dbl RGB) (av : AttributeValues)
    (st : CheckState) : CheckState :=
  if av.isFilename && (env.isValidFilename st.parsedAttribute == false) then
    { st with errorFormat := "Filename contains invalid characters; ", parsedOk := false }
  else st

/-- Source: `parseAttributeFromXML`, the extra check for SVCPermissions values. -/
def checkSVC {T Dbl RGB : Type} (env : Collaborators T Dbl RGB) (av : AttributeValues)
    (st : CheckState) : CheckState :=
  if av.isSVC then
    if env.canParseVehicleClasses st.parsedAttribute then
      { st with parsedAttribute := env.vehicleClassesString st.parsedAttribute, parsedOk := true }
    else
      { errorFormat := "List of VClasses isn\x27t valid; "
        parsedAttribute := fallbackValue av
        parsedOk := false }
  else st

/-- Source: `parseAttributeFromXML`, the two messages for vehicle classes and vehicle
shapes. -/
def checkVClassGuiShape (attr : SumoXMLAttr) (st : CheckState) : CheckState :=
  let st :=
    if (!st.parsedOk) && decide (attr = .SUMO_ATTR_VCLASS) then
      { st with errorFormat := "Is not a part of defined set of Vehicle Classes; " }
    else st
  if (!st.parsedOk) && decide (attr = .SUMO_ATTR_GUISHAPE) then
    { st with errorFormat := "Is not a part of defined set of Gui Vehicle Shapes; " }
  else st

/-- Source: `parseAttributeFromXML`, the extra check for RouteProbes. -/
def checkRouteProbe {T Dbl RGB : Type} (env : Collaborators T Dbl RGB)
    (attr : SumoXMLAttr) (st : CheckState) : CheckState :=
  if decide (attr = .SUMO_ATTR_ROUTEPROBE) && !env.isValidID st.parsedAttribute then
    { st with errorFormat := "RouteProbe ID contains invalid characters; ", parsedOk := false }
  else st

/-- Source: `parseAttributeFromXML`, all checks made on an attribute that exists in the
XML, from the call of `attrs.get` to the check for RouteProbes. -/
def checkPresent {T Dbl RGB : Type} (env : Collaborators T Dbl RGB) (attrs : SUMOSAXAttributes)
    (av : AttributeValues) (attr : SumoXMLAttr) : Except Thrown CheckState := do
  let st : CheckState :=
    { parsedOk := attrs.getOk attr
      parsedAttribute := attrs.getString attr
      errorFormat := "" }
  let st ← checkCanParse env av st
  let st := checkID env attr st
  let st ← checkInt env av st
  let st ← checkFloat env av st
  let st ← checkTime env av st
  let st ← checkProbability env av st
  let st ← checkColor env av st
  let st := checkFilename env av st
  let st := checkSVC env av st
  let st := checkVClassGuiShape attr st
  pure (checkRouteProbe env attr st)

/-- The string finally parsed, the value of `abort` and the warnings written, before
the closing `return parse<T>(parsedAttribute)`. -/
structure Resolved where
  parsedAttribute : String
  abort : Bool
  warnings : List String
deriving DecidableEq, Repr

/-- Source: `parseAttributeFromXML`, the branch `if (!parsedOk)` taken for an attribute
with an invalid format. -/
def resolveInvalid {T Dbl RGB : Type} (env : Collaborators T Dbl RGB) (av : AttributeValues)
    (objectID : String) (tag : SumoXMLTag) (attr : SumoXMLAttr) (abort : Bool)
    (st : CheckState) : Resolved :=
  if !st.parsedOk then
    if (env.getTagProperties tag).canBlockMovement
        && decide (attr = .GNE_ATTR_BLOCK_MOVEMENT) then
      { parsedAttribute := "false", abort := abort, warnings := [] }
    else if env.hasDefaultValue tag attr then
      { parsedAttribute := env.toStringValue (env.getDefaultValue tag attr)
        abort := abort
        warnings := [] }
    else
      { parsedAttribute := fallbackValue av
        abort := true
        warnings :=
          ["Format of essential " ++ av.getType ++ " attribute \x27" ++
            env.toStringAttr attr ++ "\x27 of " ++
            additionalOfWarningMessage env objectID tag ++ " is invalid; " ++
            st.errorFormat ++ env.toStringTag tag ++ " cannot be created"] }
  else
    { parsedAttribute := st.parsedAttribute, abort := abort, warnings := [] }

/-- Source: `parseAttributeFromXML`, the `else` branch taken for an attribute that does
not exist in the XML. -/
def resolveMissing {T Dbl RGB : Type} (env : Collaborators T Dbl RGB) (av : AttributeValues)
    (objectID : String) (tag : SumoXMLTag) (attr : SumoXMLAttr) (abort : Bool) :
    Resolved :=
  if (env.getTagProperties tag).canBlockMovement
      && decide (attr = .GNE_ATTR_BLOCK_MOVEMENT) then
    { parsedAttribute := "false", abort := abort, warnings := [] }
  else if env.hasDefaultValue tag attr then
    { parsedAttribute := env.toStringValue (env.getDefaultValue tag attr)
      abort := abort
      warnings := [] }
  else
    { parsedAttribute := fallbackValue av
      abort := true
      warnings :=
        ["Essential " ++ av.getType ++ " attribute \x27" ++ env.toStringAttr attr ++
          "\x27 of " ++ additionalOfWarningMessage env objectID tag ++ " is missing; " ++
          env.toStringTag tag ++ " cannot be created"] }

/-- Source: `GNEAttributeCarrier::parseAttributeFromXML<T>`. An exception thrown by a
check leaves the function before `abort` is written; the closing `parse<T>` is called
after `abort` has been written. -/
def parseAttributeFromXML {T Dbl RGB : Type} (env : Collaborators T Dbl RGB)
    (attrs : SUMOSAXAttributes) (objectID : String) (tag : SumoXMLTag)
    (attr : SumoXMLAttr) (abort : Bool) : Outcome T :=
  match env.allowedAttributes tag attr with
  | none => { abort := abort, warnings := [], result := .error (.other "std::out_of_range") }
  | some av =>
    if attrs.hasAttribute attr then
      match checkPresent env attrs av attr with
      | .error e => { abort := abort, warnings := [], result := .error e }
      | .ok st =>
        let r := resolveInvalid env av objectID tag attr abort st
        { abort := r.abort, warnings := r.warnings, result := env.parse r.parsedAttribute }
    else
      let r := resolveMissing env av objectID tag attr abort
      { abort := r.abort, warnings := r.warnings, result := env.parse r.parsedAttribute }

/-! ## Parameters of the examples for `GNEAttributeCarrier.h` -/

/-- A `parse<int>` for the examples: the strings "0", "7" and "-3" parse to their value,
the empty string throws `EmptyData`, "boom" throws an exception that `canParse` does
not catch, every other string throws `NumberFormatException`. -/
def demoParseInt (s : String) : Except Thrown Int :=
  if s = "0" then .ok 0
  else if s = "7" then .ok 7
  else if s = "-3" then .ok (-3)
  else if s = "" then .error .EmptyData
  else if s = "boom" then .error (.other "InvalidArgument")
  else .error .NumberFormatException

/-- Attribute properties for the examples: an int attribute, numerical, nothing else. -/
def demoIntAttribute : AttributeValues :=
  { getType := "int"
    isInt := true
    isFloat := false
    isBool := false
    isString := false
    isProbability := false
    isNumerical := true
    isTime := false
    isPositive := false
    isColor := false
    isFilename := false
    isSVC := false
    isList := false
    isUnique := false
    isOptional := false
    isDiscrete := false }

/-- Tag properties for the examples: the tag cannot block movement. -/
def demoTagValues : TagValues :=
  { isNetElement := false
    isAdditional := true
    isShape := false
    canBlockMovement := false
    canBlockShape := false
    canCloseShape := false
    hasGEOPosition := false
    hasGEOShape := false
    hasParent := false
    hasDialog := false }

/-- Collaborators for the examples, with `T = int`: every attribute is an int attribute,
attribute `other 1` has the default value 7, no other attribute has a default. -/
def demoCollaborators : Collaborators Int Int Unit :=
  { allowedAttributes := fun _ _ => some demoIntAttribute
    getTagProperties := fun _ => demoTagValues
    hasDefaultValue := fun _ a => decide (a = .other 1)
    getDefaultValue := fun _ _ => 7
    toStringValue := fun v => if v = 7 then "7" else "0"
    toStringTag := fun _ => "tag"
    toStringAttr := fun _ => "attr"
    parse := demoParseInt
    parseInt := demoParseInt
    parseDouble := demoParseInt
    ltZero := fun d => decide (d < 0)
    gtOne := fun d => decide (d > 1)
    parseRGBColor := fun _ => .error .NumberFormatException
    isValidID := fun _ => true
    isValidFilename := fun _ => true
    canParseVehicleClasses := fun _ => false
    vehicleClassesString := fun s => s }

/-- XML attributes for the examples: no attribute is present. -/
def demoNoAttributes : SUMOSAXAttributes :=
  { hasAttribute := fun _ => false
    getString := fun _ => ""
    getOk := fun _ => false }

/-! ## The command with its members as references -/

/-- Modelled from the spec: the member declarations of `GNEChange.h`, which is not part
of the sources. The 14 sequences are captured by reference: the members are bound to
the static empty vectors (`GNEChange(bool)`) or to the live collections of the two
hierarchical objects given to the constructor, which are those of elements of the
store. -/
inductive Capture where
  | emptyVectors
  | hierarchical (parents childs : Elem)
deriving DecidableEq, Repr

/-- The state of a `GNEChange` whose members are references: the flag and what the
members are bound to. -/
structure GNEChangeRef where
  myForward : Bool
  capture : Capture
deriving DecidableEq, Repr

/-- Source: `GNEChange::GNEChange(bool forward)`, the members being references. -/
def GNEChangeRef.ofForward (forward : Bool) : GNEChangeRef :=
  { myForward := forward, capture := .emptyVectors }

/-- Source: `GNEChange::GNEChange(GNEHierarchicalParentElements* parents,
GNEHierarchicalChildElements* childs, bool forward)`, the members being references. -/
def GNEChangeRef.ofHierarchical (parents childs : Elem) (forward : Bool) : GNEChangeRef :=
  { myForward := forward, capture := .hierarchical parents childs }

/-- The sequences that the 14 members denote in the store `s`. -/
def GNEChangeRef.members (b : GNEChangeRef) (s : Store) : GNEChange :=
  match b.capture with
  | .emptyVectors => GNEChange.ofForward b.myForward
  | .hierarchical parents childs => GNEChange.ofHierarchical s parents childs b.myForward

/-- The command whose only captured sequence is the parent sequence of kind `P`. -/
def GNEChange.parentOnly (P : Kind) (l : List Nat) : GNEChange :=
  match P with
  | .Edge => { GNEChange.ofForward true with myParentEdges := l }
  | .Lane => { GNEChange.ofForward true with myParentLanes := l }
  | .Additional => { GNEChange.ofForward true with myParentAdditionals := l }
  | .Shape => { GNEChange.ofForward true with myParentShapes := l }
  | .TAZElement => { GNEChange.ofForward true with myParentTAZElements := l }
  | .DemandElement => { GNEChange.ofForward true with myParentDemandElements := l }
  | .GenericData => { GNEChange.ofForward true with myParentGenericDatas := l }

/-- An operation run loop by loop, each loop walking the sequence that its member
denotes when the loop starts (`read`). The loop over one sequence is the operation
`op` on the command that captures that sequence only, whose 13 other loops make no
call. No loop writes to the sequence it walks. -/
def liveLoops (op : Kind → GNEChange → Nat → Store → Store) (K : Kind) (x : Nat)
    (read : Store → GNEChange) (s : Store) : Store :=
  let s := Kind.all.foldl
    (fun t P => op K (GNEChange.parentOnly P ((read t).myParent P)) x t) s
  Kind.all.foldl
    (fun t C => op K (GNEChange.childOnly C ((read t).myChild C)) x t) s

/-- The operation `linkAdd(X)` on a command whose members are references: the command
is not written to, the store is updated loop by loop. -/
def GNEChangeRef.linkAdd (b : GNEChangeRef) (K : Kind) (x : Nat) (s : Store) :
    GNEChangeRef × Store :=
  (b, liveLoops Netedit.linkAdd K x b.members s)

/-- The operation `linkRemove(X)` on a command whose members are references. -/
def GNEChangeRef.linkRemove (b : GNEChangeRef) (K : Kind) (x : Nat) (s : Store) :
    GNEChangeRef × Store :=
  (b, liveLoops Netedit.linkRemove K x b.members s)

/-- Source: `enum GNEAttributeCarrier::TAGProperty` (the enumerators). -/
inductive TAGProperty where
  | TAGPROPERTY_NETELEMENT
  | TAGPROPERTY_ADDITIONAL
  | TAGPROPERTY_SHAPE
  | TAGPROPERTY_ROUTEELEMENT
  | TAGPROPERTY_INTERNAL
  | TAGPROPERTY_BLOCKMOVEMENT
  | TAGPROPERTY_BLOCKSHAPE
  | TAGPROPERTY_CLOSESHAPE
  | TAGPROPERTY_GEOPOSITION
  | TAGPROPERTY_GEOSHAPE
  | TAGPROPERTY_DIALOG
  | TAGPROPERTY_PARENT
deriving DecidableEq, Repr

/-- Source: `enum GNEAttributeCarrier::TAGProperty` (the values of the enumerators). -/
def TAGProperty.toInt : TAGProperty → Nat
  | .TAGPROPERTY_NETELEMENT => 1
  | .TAGPROPERTY_ADDITIONAL => 2
  | .TAGPROPERTY_SHAPE => 4
  | .TAGPROPERTY_ROUTEELEMENT => 8
  | .TAGPROPERTY_INTERNAL => 16
  | .TAGPROPERTY_BLOCKMOVEMENT => 32
  | .TAGPROPERTY_BLOCKSHAPE => 64
  | .TAGPROPERTY_CLOSESHAPE => 128
  | .TAGPROPERTY_GEOPOSITION => 256
  | .TAGPROPERTY_GEOSHAPE => 512
  | .TAGPROPERTY_DIALOG => 1024
  | .TAGPROPERTY_PARENT => 2048

/-- Source: `enum GNEAttributeCarrier::AttrProperty` (the enumerators). -/
inductive AttrProperty where
  | ATTRPROPERTY_INT
  | ATTRPROPERTY_FLOAT
  | ATTRPROPERTY_BOOL
  | ATTRPROPERTY_STRING
  | ATTRPROPERTY_POSITION
  | ATTRPROPERTY_COLOR
  | ATTRPROPERTY_SVCPERMISSION
  | ATTRPROPERTY_POSITIVE
  | ATTRPROPERTY_UNIQUE
  | ATTRPROPERTY_FILENAME
  | ATTRPROPERTY_NONEDITABLE
  | ATTRPROPERTY_DISCRETE
  | ATTRPROPERTY_PROBABILITY
  | ATTRPROPERTY_TIME
  | ATTRPROPERTY_ANGLE
  | ATTRPROPERTY_LIST
  | ATTRPROPERTY_OPTIONAL
  | ATTRPROPERTY_DEFAULTVALUE
deriving DecidableEq, Repr

/-- Source: `enum GNEAttributeCarrier::AttrProperty` (the values of the enumerators;
the value 32 is not used). -/
def AttrProperty.toInt : AttrProperty → Nat
  | .ATTRPROPERTY_INT => 1
  | .ATTRPROPERTY_FLOAT => 2
  | .ATTRPROPERTY_BOOL => 4
  | .ATTRPROPERTY_STRING => 8
  | .ATTRPROPERTY_POSITION => 16
  | .ATTRPROPERTY_COLOR => 64
  | .ATTRPROPERTY_SVCPERMISSION => 128
  | .ATTRPROPERTY_POSITIVE => 256
  | .ATTRPROPERTY_UNIQUE => 512
  | .ATTRPROPERTY_FILENAME => 1024
  | .ATTRPROPERTY_NONEDITABLE => 2048
  | .ATTRPROPERTY_DISCRETE => 4096
  | .ATTRPROPERTY_PROBABILITY => 8192
  | .ATTRPROPERTY_TIME => 16384
  | .ATTRPROPERTY_ANGLE => 32768
  | .ATTRPROPERTY_LIST => 65536
  | .ATTRPROPERTY_OPTIONAL => 131072
  | .ATTRPROPERTY_DEFAULTVALUE => 262144

/-- The position of the bit of a `TAGProperty` enumerator. -/
def TAGProperty.bit : TAGProperty → Nat
  | .TAGPROPERTY_NETELEMENT => 0
  | .TAGPROPERTY_ADDITIONAL => 1
  | .TAGPROPERTY_SHAPE => 2
  | .TAGPROPERTY_ROUTEELEMENT => 3
  | .TAGPROPERTY_INTERNAL => 4
  | .TAGPROPERTY_BLOCKMOVEMENT => 5
  | .TAGPROPERTY_BLOCKSHAPE => 6
  | .TAGPROPERTY_CLOSESHAPE => 7
  | .TAGPROPERTY_GEOPOSITION => 8
  | .TAGPROPERTY_GEOSHAPE => 9
  | .TAGPROPERTY_DIALOG => 10
  | .TAGPROPERTY_PARENT => 11

/-- The position of the bit of an `AttrProperty` enumerator. -/
def AttrProperty.bit : AttrProperty → Nat
  | .ATTRPROPERTY_INT => 0
  | .ATTRPROPERTY_FLOAT => 1
  | .ATTRPROPERTY_BOOL => 2
  | .ATTRPROPERTY_STRING => 3
  | .ATTRPROPERTY_POSITION => 4
  | .ATTRPROPERTY_COLOR => 6
  | .ATTRPROPERTY_SVCPERMISSION => 7
  | .ATTRPROPERTY_POSITIVE => 8
  | .ATTRPROPERTY_UNIQUE => 9
  | .ATTRPROPERTY_FILENAME => 10
  | .ATTRPROPERTY_NONEDITABLE => 11
  | .ATTRPROPERTY_DISCRETE => 12
  | .ATTRPROPERTY_PROBABILITY => 13
  | .ATTRPROPERTY_TIME => 14
  | .ATTRPROPERTY_ANGLE => 15
  | .ATTRPROPERTY_LIST => 16
  | .ATTRPROPERTY_OPTIONAL => 17
  | .ATTRPROPERTY_DEFAULTVALUE => 18

/-- A set of flags OR-ed into one integer, as in `A | B | C`. -/
def orFlags {α : Type} (toInt : α → Nat) (flags : List α) : Nat :=
  flags.foldl (fun acc f => acc ||| toInt f) 0

/-! ## Further definitions for `parseAttributeFromXML` -/

/-- Source: `parseAttributeFromXML`, the checks made on an attribute that exists in the
XML before the check for SVCPermissions values: the first part of `checkPresent`. -/
def checkBeforeSVC {T Dbl RGB : Type} (env : Collaborators T Dbl RGB)
    (attrs : SUMOSAXAttributes) (av : AttributeValues) (attr : SumoXMLAttr) :
    Except Thrown CheckState := do
  let st : CheckState :=
    { parsedOk := attrs.getOk attr
      parsedAttribute := attrs.getString attr
      errorFormat := "" }
  let st ← checkCanParse env av st
  let st := checkID env attr st
  let st ← checkInt env av st
  let st ← checkFloat env av st
  let st ← checkTime env av st
  let st ← checkProbability env av st
  let st ← checkColor env av st
  pure (checkFilename env av st)

/-- The value of `abort` after a sequence of calls of `parseAttributeFromXML` that share
one `abort` flag; a call is given by its XML attributes, object ID, tag and attribute. -/
def abortAfter {T Dbl RGB : Type} (env : Collaborators T Dbl RGB)
    (calls : List (SUMOSAXAttributes × String × SumoXMLTag × SumoXMLAttr)) (abort : Bool) :
    Bool :=
  calls.foldl (fun a c => (parseAttributeFromXML env c.1 c.2.1 c.2.2.1 c.2.2.2 a).abort) abort

/-! ## Further parameters of the examples -/

/-- A `parse<bool>` for the examples: "true" and "false" parse to their value, the empty
string throws `EmptyData`, every other string throws `BoolFormatException`. -/
def demoParseBool (s : String) : Except Thrown Bool :=
  if s = "true" then .ok true
  else if s = "false" then .ok false
  else if s = "" then .error .EmptyData
  else .error .BoolFormatException

/-- Attribute properties for the examples: a bool attribute without any other flag. -/
def demoFlagAttribute : AttributeValues :=
  { demoIntAttribute with getType := "bool", isInt := false, isNumerical := false, isBool := true }

/-- Attribute properties for the examples: a list of vehicle classes. -/
def demoSVCAttribute : AttributeValues :=
  { demoIntAttribute with getType := "string", isInt := false, isNumerical := false, isSVC := true }

/-- Collaborators for the examples, with `T = bool`: every attribute is a bool
attribute without default value, and every tag can block movement. -/
def demoBlockCollaborators : Collaborators Bool Int Unit :=
  { allowedAttributes := fun _ _ => some demoFlagAttribute
    getTagProperties := fun _ => { demoTagValues with canBlockMovement := true }
    hasDefaultValue := fun _ _ => false
    getDefaultValue := fun _ _ => true
    toStringValue := fun b => if b then "true" else "false"
    toStringTag := fun _ => "tag"
    toStringAttr := fun _ => "attr"
    parse := demoParseBool
    parseInt := demoParseInt
    parseDouble := demoParseInt
    ltZero := fun d => decide (d < 0)
    gtOne := fun d => decide (d > 1)
    parseRGBColor := fun _ => .error .NumberFormatException
    isValidID := fun _ => true
    isValidFilename := fun _ => true
    canParseVehicleClasses := fun _ => false
    vehicleClassesString := fun s => s }

/-- Collaborators for the examples, with `T = int`: every attribute is a list of vehicle
classes without default value; the only valid list is "passenger bus", whose canonical
form is "bus passenger". -/
def demoSVCCollaborators : Collaborators Int Int Unit :=
  { allowedAttributes := fun _ _ => some demoSVCAttribute
    getTagProperties := fun _ => demoTagValues
    hasDefaultValue := fun _ _ => false
    getDefaultValue := fun _ _ => 7
    toStringValue := fun v => if v = 7 then "7" else "0"
    toStringTag := fun _ => "tag"
    toStringAttr := fun _ => "attr"
    parse := demoParseInt
    parseInt := demoParseInt
    parseDouble := demoParseInt
    ltZero := fun d => decide (d < 0)
    gtOne := fun d => decide (d > 1)
    parseRGBColor := fun _ => .error .NumberFormatException
    isValidID := fun _ => true
    isValidFilename := fun _ => true
    canParseVehicleClasses := fun s => decide (s = "passenger bus")
    vehicleClassesString := fun _ => "bus passenger" }

/-- XML attributes for the examples: every attribute is present with the value
"maybe". -/
def demoMaybeAttributes : SUMOSAXAttributes :=
  { hasAttribute := fun _ => true
    getString := fun _ => "maybe"
    getOk := fun _ => true }

/-- XML attributes for the examples: every attribute is present with the value
"passenger bus". -/
def demoClassesAttributes : SUMOSAXAttributes :=
  { hasAttribute := fun _ => true
    getString := fun _ => "passenger bus"
    getOk := fun _ => true }

theorem add_run_eq {σ : Type} (run : Call → σ → σ) (K : Kind) (c : GNEChange) (x : Nat) (s : σ) :
    addElementInParentsAndChildren run K c x s
      = (addScript K c x).foldl (fun s k => run k s) s := by
  cases K <;>
  simp [addElementInParentsAndChildren, addElementInParentsAndChildren_GNEEdge,
    addElementInParentsAndChildren_GNELane, addElementInParentsAndChildren_GNEAdditional,
    addElementInParentsAndChildren_GNEShape, addElementInParentsAndChildren_GNETAZElement,
    addElementInParentsAndChildren_GNEDemandElement,
    addElementInParentsAndChildren_GNEGenericData, addScript, parentTargets, childTargets,
    childAddOp, List.foldl_append, List.foldl_map, addChildElement, addParentEdge,
    addParentLane, addParentAdditional, addParentShape, addParentTAZElement,
    addParentDemandElement, addParentGenericData]

theorem remove_run_eq {σ : Type} (run : Call → σ → σ) (K : Kind) (c : GNEChange) (x : Nat)
    (s : σ) :
    removeElementFromParentsAndChildren run K c x s
      = (removeScript K c x).foldl (fun s k => run k s) s := by
  cases K <;>
  simp [removeElementFromParentsAndChildren, removeElementFromParentsAndChildren_GNEEdge,
    removeElementFromParentsAndChildren_GNELane,
    removeElementFromParentsAndChildren_GNEAdditional,
    removeElementFromParentsAndChildren_GNEShape,
    removeElementFromParentsAndChildren_GNETAZElement,
    removeElementFromParentsAndChildren_GNEDemandElement,
    removeElementFromParentsAndChildren_GNEGenericData, removeScript, parentTargets,
    childTargets, List.foldl_append, List.foldl_map, removeChildElement, removeParentEdge,
    removeParentLane, removeParentAdditional, removeParentShape, removeParentTAZElement,
    removeParentDemandElement, removeParentGenericData]

theorem foldl_record (l log : List Call) :
    l.foldl (fun s k => record k s) log = log ++ l := by
  induction l generalizing log with
  | nil => simp
  | cons a t ih =>
    simp only [List.foldl_cons]
    rw [ih]
    simp [record]

theorem linkAddCalls_eq (K : Kind) (c : GNEChange) (x : Nat) :
    linkAddCalls K c x = addScript K c x := by
  simp [linkAddCalls, add_run_eq, foldl_record]

theorem linkRemoveCalls_eq (K : Kind) (c : GNEChange) (x : Nat) :
    linkRemoveCalls K c x = removeScript K c x := by
  simp [linkRemoveCalls, remove_run_eq, foldl_record]

theorem linkAdd_eq (K : Kind) (c : GNEChange) (x : Nat) (s : Store) :
    linkAdd K c x s = execAll (addScript K c x) s := by
  simp [linkAdd, add_run_eq, execAll]

theorem linkRemove_eq (K : Kind) (c : GNEChange) (x : Nat) (s : Store) :
    linkRemove K c x s = execAll (removeScript K c x) s := by
  simp [linkRemove, remove_run_eq, execAll]

theorem mem_parentTargets (c : GNEChange) (e : Elem) :
    e ∈ parentTargets c ↔ e.id ∈ c.myParent e.kind := by
  obtain ⟨k, i⟩ := e
  cases k <;> simp [parentTargets, GNEChange.myParent]

theorem mem_childTargets (c : GNEChange) (e : Elem) :
    e ∈ childTargets c ↔ e.id ∈ c.myChild e.kind := by
  obtain ⟨k, i⟩ := e
  cases k <;> simp [childTargets, GNEChange.myChild]

theorem Store.ext_seq {s t : Store} (h : ∀ sd e kd, s.seq sd e kd = t.seq sd e kd) : s = t := by
  obtain ⟨sp, sc⟩ := s
  obtain ⟨tp, tc⟩ := t
  have hp : sp = tp := by
    funext e kd
    exact h .parent e kd
  have hc : sc = tc := by
    funext e kd
    exact h .child e kd
  rw [hp, hc]

theorem exec_seq (k : Call) (s : Store) (sd : Side) (e : Elem) (kd : Kind) :
    (exec k s).seq sd e kd =
      if k.hits sd e kd then
        (if k.op.isAdd then s.seq sd e kd ++ [k.arg.id] else (s.seq sd e kd).erase k.arg.id)
      else s.seq sd e kd := by
  obtain ⟨t, op, a⟩ := k
  cases op <;> cases sd <;>
    simp [exec, Store.seq, Store.addChildElement, Store.removeChildElement, Store.addParent,
      Store.removeParent, Call.hits, Op.side, Op.isAdd]

theorem execAll_nil (s : Store) : execAll [] s = s := rfl

theorem execAll_cons (k : Call) (l : List Call) (s : Store) :
    execAll (k :: l) s = execAll l (exec k s) := rfl

theorem eraseN_succ_append (x : Nat) (n : Nat) (l : List Nat) :
    eraseN x (n + 1) l = (eraseN x n l).erase x := by
  induction n generalizing l with
  | zero => rfl
  | succ m ih =>
    show eraseN x (m + 1) (l.erase x) = (eraseN x (m + 1) l).erase x
    rw [ih (l.erase x)]
    rfl

theorem eraseN_add (x : Nat) (m n : Nat) (l : List Nat) :
    eraseN x (m + n) l = eraseN x n (eraseN x m l) := by
  induction m generalizing l with
  | zero => simp [eraseN]
  | succ k ih =>
    have : k + 1 + n = (k + n) + 1 := by omega
    rw [this]
    show eraseN x (k + n) (l.erase x) = eraseN x n (eraseN x k (l.erase x))
    exact ih (l.erase x)

/-- A script that only records the element `X` appends one `X` per hit. -/
theorem execAll_add_seq (X : Elem) (l : List Call) (s : Store)
    (h : ∀ k ∈ l, k.op.isAdd = true ∧ k.arg = X) (sd : Side) (e : Elem) (kd : Kind) :
    (execAll l s).seq sd e kd
      = s.seq sd e kd ++ List.replicate (l.countP (Call.hits sd e kd)) X.id := by
  induction l generalizing s with
  | nil => simp [execAll_nil]
  | cons k t ih =>
    have hk := h k (List.mem_cons_self _ _)
    have ht : ∀ k' ∈ t, k'.op.isAdd = true ∧ k'.arg = X :=
      fun k' hk' => h k' (List.mem_cons_of_mem _ hk')
    rw [execAll_cons, ih (exec k s) ht, exec_seq, List.countP_cons]
    by_cases hh : k.hits sd e kd = true
    · simp [hh, hk.1, hk.2, List.replicate_succ]
    · simp [hh]

/-- A script that only takes the element `X` out erases one `X` per hit. -/
theorem execAll_remove_seq (X : Elem) (l : List Call) (s : Store)
    (h : ∀ k ∈ l, k.op.isAdd = false ∧ k.arg = X) (sd : Side) (e : Elem) (kd : Kind) :
    (execAll l s).seq sd e kd
      = eraseN X.id (l.countP (Call.hits sd e kd)) (s.seq sd e kd) := by
  induction l generalizing s with
  | nil => simp [execAll_nil, eraseN]
  | cons k t ih =>
    have hk := h k (List.mem_cons_self _ _)
    have ht : ∀ k' ∈ t, k'.op.isAdd = false ∧ k'.arg = X :=
      fun k' hk' => h k' (List.mem_cons_of_mem _ hk')
    rw [execAll_cons, ih (exec k s) ht, exec_seq, List.countP_cons]
    by_cases hh : k.hits sd e kd = true
    · simp only [hh, if_true, hk.1, hk.2]
      have : List.countP (Call.hits sd e kd) t + 1 = 1 + List.countP (Call.hits sd e kd) t := by
        omega
      rw [this, eraseN_add]
      simp [eraseN]
    · simp [hh]

theorem countP_hits_map (op : Kind → Op) (X : Elem) (sd : Side) (e : Elem) (kd : Kind)
    (l : List Elem) :
    (l.map (fun t => (⟨t, op t.kind, X⟩ : Call))).countP (Call.hits sd e kd)
      = if (op e.kind).side = sd ∧ kd = X.kind then l.count e else 0 := by
  induction l with
  | nil => simp
  | cons t l ih =>
    rw [List.map_cons, List.countP_cons, ih, List.count_cons]
    by_cases het : e = t
    · subst het
      by_cases hc : (op e.kind).side = sd ∧ kd = X.kind
      · simp [Call.hits, hc]
      · simp [Call.hits, hc]
    · have hte : ¬ t = e := fun h => het h.symm
      simp [Call.hits, het, hte]

theorem countP_hits_addScript (K : Kind) (c : GNEChange) (x : Nat) (sd : Side) (e : Elem)
    (kd : Kind) :
    (addScript K c x).countP (Call.hits sd e kd) = addHits K c sd e kd := by
  unfold addScript
  rw [List.countP_append, countP_hits_map (fun _ => Op.addChildElement) ⟨K, x⟩,
    countP_hits_map (fun C => childAddOp K C) ⟨K, x⟩]
  unfold addHits childAddOp slipTarget
  by_cases hkd : kd = K
  · by_cases hs : K = Kind.Additional ∧ e.kind = Kind.GenericData
    · cases sd <;> simp [hkd, hs, Op.side]
    · cases sd <;> simp [hkd, hs, Op.side]
  · simp [hkd]

theorem countP_hits_removeScript (K : Kind) (c : GNEChange) (x : Nat) (sd : Side) (e : Elem)
    (kd : Kind) :
    (removeScript K c x).countP (Call.hits sd e kd) = removeHits K c sd e kd := by
  unfold removeScript
  rw [List.countP_append, countP_hits_map (fun _ => Op.removeChildElement) ⟨K, x⟩,
    countP_hits_map (fun _ => Op.removeParent) ⟨K, x⟩]
  unfold removeHits
  by_cases hkd : kd = K
  · cases sd <;> simp [hkd, Op.side]
  · simp [hkd]

theorem addScript_isAdd (K : Kind) (c : GNEChange) (x : Nat) :
    ∀ k ∈ addScript K c x, k.op.isAdd = true ∧ k.arg = ⟨K, x⟩ := by
  intro k hk
  simp only [addScript, List.mem_append, List.mem_map] at hk
  rcases hk with ⟨p, _, rfl⟩ | ⟨ch, _, rfl⟩
  · exact ⟨rfl, rfl⟩
  · refine ⟨?_, rfl⟩
    unfold childAddOp
    split <;> rfl

theorem removeScript_isRemove (K : Kind) (c : GNEChange) (x : Nat) :
    ∀ k ∈ removeScript K c x, k.op.isAdd = false ∧ k.arg = ⟨K, x⟩ := by
  intro k hk
  simp only [removeScript, List.mem_append, List.mem_map] at hk
  rcases hk with ⟨p, _, rfl⟩ | ⟨ch, _, rfl⟩
  · exact ⟨rfl, rfl⟩
  · exact ⟨rfl, rfl⟩

/-- Closed form of the store after `linkAdd`: every sequence gets `x` appended once
per call that writes to it. -/
theorem linkAdd_seq (K : Kind) (c : GNEChange) (x : Nat) (s : Store) (sd : Side) (e : Elem)
    (kd : Kind) :
    (linkAdd K c x s).seq sd e kd
      = s.seq sd e kd ++ List.replicate (addHits K c sd e kd) x := by
  rw [linkAdd_eq, execAll_add_seq ⟨K, x⟩ _ s (addScript_isAdd K c x), countP_hits_addScript]

/-- Closed form of the store after `linkRemove`: every sequence loses its first `x`
once per call that writes to it. -/
theorem linkRemove_seq (K : Kind) (c : GNEChange) (x : Nat) (s : Store) (sd : Side) (e : Elem)
    (kd : Kind) :
    (linkRemove K c x s).seq sd e kd = eraseN x (removeHits K c sd e kd) (s.seq sd e kd) := by
  rw [linkRemove_eq, execAll_remove_seq ⟨K, x⟩ _ s (removeScript_isRemove K c x),
    countP_hits_removeScript]

theorem count_parentTargets (c : GNEChange) (e : Elem) :
    (parentTargets c).count e = (c.myParent e.kind).count e.id := by
  obtain ⟨k, i⟩ := e
  have hinj : ∀ K : Kind, Function.Injective (Elem.mk K) := by
    intro K a b h
    injection h
  have hne : ∀ (K K' : Kind) (l : List Nat), K ≠ K' → (l.map (Elem.mk K')).count ⟨K, i⟩ = 0 := by
    intro K K' l h
    rw [List.count_eq_zero]
    intro hm
    rw [List.mem_map] at hm
    obtain ⟨a, _, ha⟩ := hm
    injection ha with h1 _
    exact h h1.symm
  cases k <;>
    simp [parentTargets, GNEChange.myParent, List.count_append,
      List.count_map_of_injective _ _ (hinj _), hne]

theorem count_childTargets (c : GNEChange) (e : Elem) :
    (childTargets c).count e = (c.myChild e.kind).count e.id := by
  obtain ⟨k, i⟩ := e
  have hinj : ∀ K : Kind, Function.Injective (Elem.mk K) := by
    intro K a b h
    injection h
  have hne : ∀ (K K' : Kind) (l : List Nat), K ≠ K' → (l.map (Elem.mk K')).count ⟨K, i⟩ = 0 := by
    intro K K' l h
    rw [List.count_eq_zero]
    intro hm
    rw [List.mem_map] at hm
    obtain ⟨a, _, ha⟩ := hm
    injection ha with h1 _
    exact h h1.symm
  cases k <;>
    simp [childTargets, GNEChange.myChild, List.count_append,
      List.count_map_of_injective _ _ (hinj _), hne]

theorem eraseN_append_replicate (x n : Nat) (L : List Nat) (h : x ∉ L) :
    eraseN x n (L ++ List.replicate n x) = L := by
  induction n with
  | zero => simp [eraseN]
  | succ m ih =>
    show eraseN x m ((L ++ List.replicate (m + 1) x).erase x) = L
    rw [List.erase_append_right _ h]
    simpa [List.replicate_succ] using ih

theorem mem_of_mem_eraseN (x y n : Nat) (L : List Nat) (h : y ∈ eraseN x n L) : y ∈ L := by
  induction n generalizing L with
  | zero => exact h
  | succ m ih => exact List.mem_of_mem_erase (ih (L.erase x) h)

theorem mem_eraseN_of_ne (x y n : Nat) (L : List Nat) (hne : y ≠ x) :
    y ∈ eraseN x n L ↔ y ∈ L := by
  induction n generalizing L with
  | zero => exact Iff.rfl
  | succ m ih =>
    show y ∈ eraseN x m (L.erase x) ↔ y ∈ L
    rw [ih (L.erase x), List.mem_erase_of_ne hne]

theorem count_childTargets_of_slip (K : Kind) (c : GNEChange) (e : Elem)
    (hslip : K = .Additional → c.myChildGenericDatas = []) (he : slipTarget K e = true) :
    (childTargets c).count e = 0 := by
  simp only [slipTarget, decide_eq_true_eq] at he
  rw [count_childTargets, he.2]
  simp [GNEChange.myChild, hslip he.1]

/-- Away from the `Additional`/`GenericData` child loop, `linkRemove` erases from a
sequence exactly as often as `linkAdd` appends to it. -/
theorem addHits_eq_removeHits (K : Kind) (c : GNEChange)
    (hslip : K = .Additional → c.myChildGenericDatas = []) (sd : Side) (e : Elem) (kd : Kind) :
    addHits K c sd e kd = removeHits K c sd e kd := by
  unfold addHits removeHits
  by_cases hkd : kd = K
  · by_cases hs : slipTarget K e = true
    · have h0 := count_childTargets_of_slip K c e hslip hs
      cases sd <;> simp [hkd, hs, h0]
    · cases sd <;> simp [hkd, hs]
  · simp [hkd]

/-- Undoing a `linkAdd` restores the store when the command does not run the
`Additional`/`GenericData` child loop and `x` is not yet recorded in the sequences
that the operation writes to. -/
theorem linkRemove_linkAdd (K : Kind) (c : GNEChange) (x : Nat) (s : Store)
    (hslip : K = .Additional → c.myChildGenericDatas = [])
    (hfresh : ∀ sd e, 0 < removeHits K c sd e K → x ∉ s.seq sd e K) :
    linkRemove K c x (linkAdd K c x s) = s := by
  apply Store.ext_seq
  intro sd e kd
  rw [linkRemove_seq, linkAdd_seq, addHits_eq_removeHits K c hslip]
  by_cases hkd : kd = K
  · subst hkd
    by_cases h0 : removeHits kd c sd e kd = 0
    · simp [h0, eraseN]
    · exact eraseN_append_replicate _ _ _ (hfresh sd e (Nat.pos_of_ne_zero h0))
  · simp [removeHits, hkd, eraseN]

/-- Away from the `Additional`/`GenericData` child loop, the calls of `linkRemove` are
the mirrored calls of `linkAdd`, target by target. -/
theorem linkRemoveCalls_eq_mirror (K : Kind) (c : GNEChange) (x : Nat)
    (hslip : K = .Additional → c.myChildGenericDatas = []) :
    linkRemoveCalls K c x = (linkAddCalls K c x).map Call.mirror := by
  rw [linkRemoveCalls_eq, linkAddCalls_eq]
  unfold removeScript addScript
  rw [List.map_append, List.map_map, List.map_map]
  congr 1
  apply List.map_congr_left
  intro ch hch
  have hns : ¬ (K = Kind.Additional ∧ ch.kind = Kind.GenericData) := by
    rintro ⟨h1, h2⟩
    rw [mem_childTargets, h2] at hch
    simp [GNEChange.myChild, hslip h1] at hch
  simp [Call.mirror, childAddOp, hns, Op.mirror]

/-- On every captured child outside the `Additional`/`GenericData` loop, `linkAdd`
calls the `addParent` operation of the kind of `X`, and `X` is then recorded as a
parent of that child. -/
theorem linkAdd_child_addParent (K : Kind) (c : GNEChange) (x : Nat) (s : Store) (C : Kind)
    (ch : Nat) (hch : ch ∈ c.myChild C) (hns : ¬ (K = .Additional ∧ C = .GenericData)) :
    (⟨⟨C, ch⟩, .addParent, ⟨K, x⟩⟩ : Call) ∈ linkAddCalls K c x ∧
      x ∈ (linkAdd K c x s).parents ⟨C, ch⟩ K := by
  have hmem : (⟨C, ch⟩ : Elem) ∈ childTargets c := (mem_childTargets c ⟨C, ch⟩).2 hch
  constructor
  · rw [linkAddCalls_eq]
    unfold addScript
    apply List.mem_append_right
    rw [List.mem_map]
    exact ⟨⟨C, ch⟩, hmem, by simp [childAddOp, hns]⟩
  · have h := linkAdd_seq K c x s .parent ⟨C, ch⟩ K
    simp only [Store.seq] at h
    rw [h]
    apply List.mem_append_right
    have hpos : 0 < addHits K c .parent ⟨C, ch⟩ K := by
      simp only [addHits, slipTarget, if_true]
      simp only [hns, decide_False, Bool.false_eq_true, if_false]
      exact List.count_pos_iff.2 hmem
    simp [List.mem_replicate, Nat.pos_iff_ne_zero.1 hpos]

theorem removeHits_pos_child (K : Kind) (c : GNEChange) (e : Elem) (kd : Kind)
    (h : removeHits K c .child e kd ≠ 0) : kd = K ∧ e ∈ parentTargets c := by
  unfold removeHits at h
  by_cases hkd : kd = K
  · simp only [hkd, if_true] at h
    exact ⟨hkd, List.count_pos_iff.1 (Nat.pos_of_ne_zero h)⟩
  · simp [hkd] at h

theorem removeHits_pos_parent (K : Kind) (c : GNEChange) (e : Elem) (kd : Kind)
    (h : removeHits K c .parent e kd ≠ 0) : kd = K ∧ e ∈ childTargets c := by
  unfold removeHits at h
  by_cases hkd : kd = K
  · simp only [hkd, if_true] at h
    exact ⟨hkd, List.count_pos_iff.1 (Nat.pos_of_ne_zero h)⟩
  · simp [hkd] at h

theorem removeHits_self (K : Kind) (c : GNEChange) (x : Nat)
    (hp : (⟨K, x⟩ : Elem) ∉ parentTargets c) (hc : (⟨K, x⟩ : Elem) ∉ childTargets c)
    (sd : Side) (kd : Kind) : removeHits K c sd ⟨K, x⟩ kd = 0 := by
  by_contra h
  cases sd with
  | parent => exact hc (removeHits_pos_parent K c _ kd h).2
  | child => exact hp (removeHits_pos_child K c _ kd h).2

theorem linkInv_refl (K : Kind) (c : GNEChange) (x : Nat) (s : Store) : LinkInv K c x s s :=
  ⟨fun _ _ _ _ _ => Iff.rfl, fun _ _ => rfl, fun _ h => Or.inl h, fun _ h => Or.inl h⟩

theorem linkInv_add (K : Kind) (c : GNEChange) (x : Nat) (s t : Store)
    (hslip : K = .Additional → c.myChildGenericDatas = [])
    (hp : (⟨K, x⟩ : Elem) ∉ parentTargets c) (hc : (⟨K, x⟩ : Elem) ∉ childTargets c)
    (h : LinkInv K c x s t) : LinkInv K c x s (linkAdd K c x t) := by
  obtain ⟨h1, h2, h3, h4⟩ := h
  have hseq : ∀ sd e kd, (linkAdd K c x t).seq sd e kd
      = t.seq sd e kd ++ List.replicate (removeHits K c sd e kd) x := by
    intro sd e kd
    rw [linkAdd_seq, addHits_eq_removeHits K c hslip]
  refine ⟨?_, ?_, ?_, ?_⟩
  · intro sd e kd y hy
    rw [hseq, ← h1 sd e kd y hy, List.mem_append, List.mem_replicate]
    constructor
    · rintro (hm | ⟨hn, rfl⟩)
      · exact hm
      · rcases hy with hy | hy
        · cases sd with
          | parent => exact absurd (removeHits_pos_parent K c e kd hn).1 hy
          | child => exact absurd (removeHits_pos_child K c e kd hn).1 hy
        · exact absurd rfl hy
    · exact fun hm => Or.inl hm
  · intro sd kd
    rw [hseq, removeHits_self K c x hp hc, ← h2 sd kd]
    simp
  · intro e hx
    rw [hseq, List.mem_append, List.mem_replicate] at hx
    rcases hx with hm | ⟨hn, _⟩
    · exact h3 e hm
    · exact Or.inr (removeHits_pos_child K c e K hn).2
  · intro e hx
    rw [hseq, List.mem_append, List.mem_replicate] at hx
    rcases hx with hm | ⟨hn, _⟩
    · exact h4 e hm
    · exact Or.inr (removeHits_pos_parent K c e K hn).2

theorem linkInv_remove (K : Kind) (c : GNEChange) (x : Nat) (s t : Store)
    (hp : (⟨K, x⟩ : Elem) ∉ parentTargets c) (hc : (⟨K, x⟩ : Elem) ∉ childTargets c)
    (h : LinkInv K c x s t) : LinkInv K c x s (linkRemove K c x t) := by
  obtain ⟨h1, h2, h3, h4⟩ := h
  refine ⟨?_, ?_, ?_, ?_⟩
  · intro sd e kd y hy
    rw [linkRemove_seq, ← h1 sd e kd y hy]
    by_cases hyx : y = x
    · subst hyx
      have hkd : kd ≠ K := by
        rcases hy with hy | hy
        · exact hy
        · exact absurd rfl hy
      simp [removeHits, hkd, eraseN]
    · exact mem_eraseN_of_ne x y _ _ hyx
  · intro sd kd
    rw [linkRemove_seq, removeHits_self K c x hp hc, ← h2 sd kd]
    rfl
  · intro e hx
    rw [linkRemove_seq] at hx
    exact h3 e (mem_of_mem_eraseN _ _ _ _ hx)
  · intro e hx
    rw [linkRemove_seq] at hx
    exact h4 e (mem_of_mem_eraseN _ _ _ _ hx)

theorem linkInv_run (K : Kind) (c : GNEChange) (x : Nat) (s : Store)
    (hslip : K = .Additional → c.myChildGenericDatas = [])
    (hp : (⟨K, x⟩ : Elem) ∉ parentTargets c) (hc : (⟨K, x⟩ : Elem) ∉ childTargets c)
    (ops : List LinkOp) (t : Store) (h : LinkInv K c x s t) :
    LinkInv K c x s (runLinks K c x ops t) := by
  induction ops generalizing t with
  | nil => exact h
  | cons o rest ih =>
    cases o with
    | add => exact ih _ (linkInv_add K c x s t hslip hp hc h)
    | remove => exact ih _ (linkInv_remove K c x s t hp hc h)

theorem runLinks_append (K : Kind) (c : GNEChange) (x : Nat) (ops₁ ops₂ : List LinkOp)
    (s : Store) :
    runLinks K c x (ops₁ ++ ops₂) s = runLinks K c x ops₂ (runLinks K c x ops₁ s) := by
  simp [runLinks, List.foldl_append]

/-! ## The claims -/

/-- The store of lane `1` and edge `1` linked on both sides is symmetric. -/
theorem c1Store_symmetric : Symmetric c1Store := by
  rintro ⟨pk, pi⟩ ⟨ck, ci⟩
  simp only [c1Store, Elem.mk.injEq]
  constructor
  · intro h
    split at h
    · rename_i hc
      obtain ⟨⟨h1, h2⟩, h3⟩ := hc
      simp only [List.mem_singleton] at h
      simp [h1, h2, h3, h]
    · simp at h
  · intro h
    split at h
    · rename_i hc
      obtain ⟨⟨h1, h2⟩, h3⟩ := hc
      simp only [List.mem_singleton] at h
      simp [h1, h2, h3, h]
    · simp at h

/-- Claim C1 (counterexample): the store in which lane `1` is the only Lane child of
edge `1` and edge `1` the only Edge parent of lane `1` is symmetric, the command of
the lane is captured from the lane's own sequences, and after `linkRemove` of the lane
the store is no longer symmetric: the edge has lost the lane, the lane still records
the edge. -/
theorem linkRemove_breaks_symmetry :
    Symmetric c1Store ∧
    GNEChange.ofHierarchical c1Store ⟨.Lane, 1⟩ ⟨.Lane, 1⟩ true = laneChange ∧
    ¬ Symmetric (runLinks .Lane laneChange 1 [.remove] c1Store) := by
  refine ⟨c1Store_symmetric, by decide, ?_⟩
  intro h
  have h1 := (h ⟨.Edge, 1⟩ ⟨.Lane, 1⟩).2 (by decide)
  revert h1
  decide

/-- Claim C1 (amended): from a symmetric store, with the command captured from the
own sequences of `X = ⟨K, x⟩`, `X` not its own parent and, for an Additional, no
GenericData child captured, after any finite sequence of `linkAdd(X)` and
`linkRemove(X)`: the iff holds for all `P` and `C` other than `X`; every link to `X`
recorded at another element is recorded at `X`; and the iff holds for all `P` and `C`
once a `linkAdd(X)` is made last. -/
theorem symmetry_of_linkAdd_linkRemove (s : Store) (K : Kind) (x : Nat) (fwd : Bool)
    (ops : List LinkOp) (hsym : Symmetric s)
    (hself : x ∉ s.parents ⟨K, x⟩ K)
    (hslip : K = .Additional → s.children ⟨K, x⟩ .GenericData = []) :
    (∀ P C : Elem, P ≠ ⟨K, x⟩ → C ≠ ⟨K, x⟩ →
      (C.id ∈ (runLinks K (GNEChange.ofHierarchical s ⟨K, x⟩ ⟨K, x⟩ fwd) x ops s).children P C.kind
        ↔ P.id ∈ (runLinks K (GNEChange.ofHierarchical s ⟨K, x⟩ ⟨K, x⟩ fwd) x ops s).parents C
            P.kind)) ∧
    (∀ P : Elem,
      x ∈ (runLinks K (GNEChange.ofHierarchical s ⟨K, x⟩ ⟨K, x⟩ fwd) x ops s).children P K →
        P.id ∈ (runLinks K (GNEChange.ofHierarchical s ⟨K, x⟩ ⟨K, x⟩ fwd) x ops s).parents
          ⟨K, x⟩ P.kind) ∧
    (∀ C : Elem,
      x ∈ (runLinks K (GNEChange.ofHierarchical s ⟨K, x⟩ ⟨K, x⟩ fwd) x ops s).parents C K →
        C.id ∈ (runLinks K (GNEChange.ofHierarchical s ⟨K, x⟩ ⟨K, x⟩ fwd) x ops s).children
          ⟨K, x⟩ C.kind) ∧
    Symmetric (runLinks K (GNEChange.ofHierarchical s ⟨K, x⟩ ⟨K, x⟩ fwd) x (ops ++ [.add]) s) := by
  generalize hcdef : GNEChange.ofHierarchical s ⟨K, x⟩ ⟨K, x⟩ fwd = c
  have hcp : ∀ k, c.myParent k = s.parents ⟨K, x⟩ k := by
    intro k
    subst hcdef
    cases k <;> rfl
  have hcc : ∀ k, c.myChild k = s.children ⟨K, x⟩ k := by
    intro k
    subst hcdef
    cases k <;> rfl
  have hselfc : x ∉ s.children ⟨K, x⟩ K := fun h => hself ((hsym ⟨K, x⟩ ⟨K, x⟩).1 h)
  have hp : (⟨K, x⟩ : Elem) ∉ parentTargets c := by
    rw [mem_parentTargets, hcp]
    exact hself
  have hc : (⟨K, x⟩ : Elem) ∉ childTargets c := by
    rw [mem_childTargets, hcc]
    exact hselfc
  have hslipc : K = .Additional → c.myChildGenericDatas = [] := by
    intro hK
    have := hcc .GenericData
    simp only [GNEChange.myChild] at this
    rw [this]
    exact hslip hK
  -- consequences of the invariant for any reachable store
  have key : ∀ t : Store, LinkInv K c x s t →
      (∀ P C : Elem, P ≠ ⟨K, x⟩ → C ≠ ⟨K, x⟩ →
        (C.id ∈ t.children P C.kind ↔ P.id ∈ t.parents C P.kind)) ∧
      (∀ P : Elem, x ∈ t.children P K → P.id ∈ t.parents ⟨K, x⟩ P.kind) ∧
      (∀ C : Elem, x ∈ t.parents C K → C.id ∈ t.children ⟨K, x⟩ C.kind) := by
    intro t ⟨h1, h2, h3, h4⟩
    have hne : ∀ E : Elem, E ≠ ⟨K, x⟩ → (E.kind ≠ K ∨ E.id ≠ x) := by
      rintro ⟨k, i⟩ hE
      by_cases hk : k = K
      · right
        intro hi
        simp only at hi
        exact hE (by rw [hk, hi])
      · exact Or.inl hk
    refine ⟨?_, ?_, ?_⟩
    · intro P C hP hC
      have a := h1 .child P C.kind C.id (hne C hC)
      have b := h1 .parent C P.kind P.id (hne P hP)
      simp only [Store.seq] at a b
      rw [a, b]
      exact hsym P C
    · intro P hx
      have a := h2 .parent P.kind
      simp only [Store.seq] at a
      rw [a]
      rcases h3 P hx with h | h
      · exact (hsym P ⟨K, x⟩).1 h
      · rw [mem_parentTargets, hcp] at h
        exact h
    · intro C hx
      have a := h2 .child C.kind
      simp only [Store.seq] at a
      rw [a]
      rcases h4 C hx with h | h
      · exact (hsym ⟨K, x⟩ C).2 h
      · rw [mem_childTargets, hcc] at h
        exact h
  have hinv : ∀ ops', LinkInv K c x s (runLinks K c x ops' s) :=
    fun ops' => linkInv_run K c x s hslipc hp hc ops' s (linkInv_refl K c x s)
  obtain ⟨k1, k2, k3⟩ := key _ (hinv ops)
  refine ⟨k1, k2, k3, ?_⟩
  obtain ⟨a1, a2, a3⟩ := key _ (hinv (ops ++ [.add]))
  obtain ⟨_, i2, _, _⟩ := hinv (ops ++ [.add])
  rw [runLinks_append] at a1 a2 a3 i2 ⊢
  generalize runLinks K c x ops s = t at a1 a2 a3 i2 ⊢
  have hrun : runLinks K c x [.add] t = linkAdd K c x t := rfl
  rw [hrun] at a1 a2 a3 i2 ⊢
  have hseq : ∀ sd e kd, (linkAdd K c x t).seq sd e kd
      = t.seq sd e kd ++ List.replicate (removeHits K c sd e kd) x := by
    intro sd e kd
    rw [linkAdd_seq, addHits_eq_removeHits K c hslipc]
  intro P C
  by_cases hC : C = ⟨K, x⟩
  · subst hC
    constructor
    · exact a2 P
    · intro h
      have b := i2 .parent P.kind
      simp only [Store.seq] at b
      rw [b, ← hcp, ← mem_parentTargets] at h
      have d := hseq .child P K
      simp only [Store.seq] at d
      show x ∈ (linkAdd K c x t).children P K
      rw [d]
      apply List.mem_append_right
      rw [List.mem_replicate]
      refine ⟨?_, rfl⟩
      simp only [removeHits, if_true]
      exact Nat.pos_iff_ne_zero.1 (List.count_pos_iff.2 h)
  · by_cases hP : P = ⟨K, x⟩
    · subst hP
      constructor
      · intro h
        have b := i2 .child C.kind
        simp only [Store.seq] at b
        rw [b, ← hcc, ← mem_childTargets] at h
        have d := hseq .parent C K
        simp only [Store.seq] at d
        show x ∈ (linkAdd K c x t).parents C K
        rw [d]
        apply List.mem_append_right
        rw [List.mem_replicate]
        refine ⟨?_, rfl⟩
        simp only [removeHits, if_true]
        exact Nat.pos_iff_ne_zero.1 (List.count_pos_iff.2 h)
      · exact a3 C
    · exact a1 P C hP hC

/-- Witness of claim C1 (amended): the symmetric store of lane `1` and edge `1`, the
lane's own command, and the calls `linkRemove; linkAdd; linkRemove`. -/
theorem symmetry_of_linkAdd_linkRemove_witness :
    Symmetric c1Store ∧ (1 : Nat) ∉ c1Store.parents ⟨.Lane, 1⟩ .Lane ∧
    ((∀ P C : Elem, P ≠ ⟨.Lane, 1⟩ → C ≠ ⟨.Lane, 1⟩ →
      (C.id ∈ (runLinks .Lane (GNEChange.ofHierarchical c1Store ⟨.Lane, 1⟩ ⟨.Lane, 1⟩ true) 1
            [.remove, .add, .remove] c1Store).children P C.kind
        ↔ P.id ∈ (runLinks .Lane (GNEChange.ofHierarchical c1Store ⟨.Lane, 1⟩ ⟨.Lane, 1⟩ true) 1
            [.remove, .add, .remove] c1Store).parents C P.kind)) ∧
    (∀ P : Elem,
      1 ∈ (runLinks .Lane (GNEChange.ofHierarchical c1Store ⟨.Lane, 1⟩ ⟨.Lane, 1⟩ true) 1
            [.remove, .add, .remove] c1Store).children P .Lane →
        P.id ∈ (runLinks .Lane (GNEChange.ofHierarchical c1Store ⟨.Lane, 1⟩ ⟨.Lane, 1⟩ true) 1
            [.remove, .add, .remove] c1Store).parents ⟨.Lane, 1⟩ P.kind) ∧
    (∀ C : Elem,
      1 ∈ (runLinks .Lane (GNEChange.ofHierarchical c1Store ⟨.Lane, 1⟩ ⟨.Lane, 1⟩ true) 1
            [.remove, .add, .remove] c1Store).parents C .Lane →
        C.id ∈ (runLinks .Lane (GNEChange.ofHierarchical c1Store ⟨.Lane, 1⟩ ⟨.Lane, 1⟩ true) 1
            [.remove, .add, .remove] c1Store).children ⟨.Lane, 1⟩ C.kind) ∧
    Symmetric (runLinks .Lane (GNEChange.ofHierarchical c1Store ⟨.Lane, 1⟩ ⟨.Lane, 1⟩ true) 1
      ([.remove, .add, .remove] ++ [.add]) c1Store)) := by
  have hsym : Symmetric c1Store := c1Store_symmetric
  exact ⟨hsym, by decide,
    symmetry_of_linkAdd_linkRemove c1Store .Lane 1 true [.remove, .add, .remove] hsym
      (by decide) (by intro h; cases h)⟩

/-- Claim C2 (failing input): for the Additional `1` and a command capturing the
GenericData child `1`, on the empty store, `linkAdd` followed by `linkRemove` leaves
the Additional in the Additional-child sequence of the GenericData, which was empty
before: `linkAdd` called `addChildElement` there and `linkRemove` called
`removeParentAdditional`. -/
theorem linkRemove_linkAdd_slip :
    Store.empty.children ⟨.GenericData, 1⟩ .Additional = [] ∧
    (linkRemove .Additional slipChange 1
      (linkAdd .Additional slipChange 1 Store.empty)).children ⟨.GenericData, 1⟩ .Additional
        = [1] := by
  decide

/-- Claim C3 (failing input): for the Additional `1` and a command capturing the
GenericData child `1`, on the empty store, `linkAdd; linkRemove; linkAdd` leaves the
Additional twice in the Additional-child sequence of the GenericData, a single
`linkAdd` once. -/
theorem linkAdd_linkRemove_linkAdd_slip :
    (linkAdd .Additional slipChange 1 Store.empty).children ⟨.GenericData, 1⟩ .Additional
        = [1] ∧
    (linkAdd .Additional slipChange 1 (linkRemove .Additional slipChange 1
      (linkAdd .Additional slipChange 1 Store.empty))).children ⟨.GenericData, 1⟩ .Additional
        = [1, 1] := by
  decide

/-- Claim C4 (failing input): for the Additional `1` and a command capturing the
GenericData child `1`, the only call of `linkAdd` is `addChildElement` on the child,
not `addParentAdditional`; afterwards the Additional is not in the child's parent
sequence of kind Additional, it is in its child sequence of kind Additional. -/
theorem linkAdd_additional_genericData_child :
    linkAddCalls .Additional slipChange 1
        = [addChildElement ⟨.GenericData, 1⟩ ⟨.Additional, 1⟩] ∧
    addParentAdditional ⟨.GenericData, 1⟩ 1 ∉ linkAddCalls .Additional slipChange 1 ∧
    (linkAdd .Additional slipChange 1 Store.empty).parents ⟨.GenericData, 1⟩ .Additional
        = [] ∧
    (linkAdd .Additional slipChange 1 Store.empty).children ⟨.GenericData, 1⟩ .Additional
        = [1] := by
  decide

/-- Claim C5: for every kind `K`, element `x`, command and store, every parent `p`
in the captured parent sequence of any kind `P` gets the call `p.addChildElement(X)`,
at least once per occurrence of `p` in that sequence, and afterwards `X` is recorded
in the child sequence of kind `K` of `p`. -/
theorem linkAdd_parents_addChildElement (K : Kind) (c : GNEChange) (x : Nat) (s : Store)
    (P : Kind) (p : Nat) (hp : p ∈ c.myParent P) :
    addChildElement ⟨P, p⟩ ⟨K, x⟩ ∈ linkAddCalls K c x ∧
    (c.myParent P).count p ≤ (linkAddCalls K c x).count (addChildElement ⟨P, p⟩ ⟨K, x⟩) ∧
    x ∈ (linkAdd K c x s).children ⟨P, p⟩ K := by
  have hmem : (⟨P, p⟩ : Elem) ∈ parentTargets c := (mem_parentTargets c ⟨P, p⟩).2 hp
  have hinj : Function.Injective (fun t : Elem => (⟨t, .addChildElement, ⟨K, x⟩⟩ : Call)) := by
    intro a b h
    injection h
  refine ⟨?_, ?_, ?_⟩
  · rw [linkAddCalls_eq]
    unfold addScript
    apply List.mem_append_left
    rw [List.mem_map]
    exact ⟨⟨P, p⟩, hmem, rfl⟩
  · rw [linkAddCalls_eq]
    unfold addScript
    rw [List.count_append]
    have h1 : List.count (addChildElement ⟨P, p⟩ ⟨K, x⟩)
        (List.map (fun t : Elem => (⟨t, .addChildElement, ⟨K, x⟩⟩ : Call)) (parentTargets c))
          = (parentTargets c).count ⟨P, p⟩ :=
      List.count_map_of_injective _ _ hinj ⟨P, p⟩
    rw [h1, count_parentTargets]
    exact Nat.le_add_right _ _
  · have h := linkAdd_seq K c x s .child ⟨P, p⟩ K
    simp only [Store.seq] at h
    rw [h]
    apply List.mem_append_right
    have hpos : 0 < addHits K c .child ⟨P, p⟩ K := by
      simp only [addHits, if_true]
      exact Nat.lt_of_lt_of_le (List.count_pos_iff.2 hmem) (Nat.le_add_right _ _)
    simp [List.mem_replicate, Nat.pos_iff_ne_zero.1 hpos]

/-- Witness of claim C5: the route `7` with captured parent edges `[1, 2, 1]`. -/
theorem linkAdd_parents_addChildElement_witness :
    (1 : Nat) ∈ routeChange.myParent .Edge ∧
    (addChildElement ⟨.Edge, 1⟩ ⟨.DemandElement, 7⟩ ∈ linkAddCalls .DemandElement routeChange 7 ∧
      (routeChange.myParent .Edge).count 1
        ≤ (linkAddCalls .DemandElement routeChange 7).count
            (addChildElement ⟨.Edge, 1⟩ ⟨.DemandElement, 7⟩) ∧
      7 ∈ (linkAdd .DemandElement routeChange 7 Store.empty).children ⟨.Edge, 1⟩
            .DemandElement) :=
  ⟨by decide,
    linkAdd_parents_addChildElement .DemandElement routeChange 7 Store.empty .Edge 1 (by decide)⟩

/-- Claim C6 (failing input): for the Additional `1` and a command capturing the
GenericData child `1`, `linkAdd` issues `addChildElement` on the child, whose mirror
is `removeChildElement`, while `linkRemove` issues `removeParentAdditional`. -/
theorem linkRemoveCalls_ne_mirror_slip :
    linkAddCalls .Additional slipChange 1
        = [addChildElement ⟨.GenericData, 1⟩ ⟨.Additional, 1⟩] ∧
    linkRemoveCalls .Additional slipChange 1
        = [removeParentAdditional ⟨.GenericData, 1⟩ 1] ∧
    linkRemoveCalls .Additional slipChange 1
        ≠ (linkAddCalls .Additional slipChange 1).map Call.mirror := by
  decide

/-- Claim C7 (counterexample): lane `1` records edge `1` as its Edge parent, the
command is the one captured from the lane, and edge `1` has no Lane child. After
`linkAdd` the edge has the Lane child `[1]`; after the following `linkRemove` the
edge has none again, and the lane still has its Edge parent `[1]`, not the empty
sequence. Had the lane not recorded the edge beforehand, its Edge parent sequence
would not be `[1]` after `linkAdd` either. -/
theorem create_lane_parents_not_emptied :
    GNEChange.ofHierarchical c7Store ⟨.Lane, 1⟩ ⟨.Lane, 1⟩ true = laneChange ∧
    c7Store.children ⟨.Edge, 1⟩ .Lane = [] ∧
    (linkAdd .Lane laneChange 1 c7Store).children ⟨.Edge, 1⟩ .Lane = [1] ∧
    (linkAdd .Lane laneChange 1 c7Store).parents ⟨.Lane, 1⟩ .Edge = [1] ∧
    (linkRemove .Lane laneChange 1 (linkAdd .Lane laneChange 1 c7Store)).children
        ⟨.Edge, 1⟩ .Lane = [] ∧
    (linkRemove .Lane laneChange 1 (linkAdd .Lane laneChange 1 c7Store)).parents
        ⟨.Lane, 1⟩ .Edge ≠ [] ∧
    (linkAdd .Lane laneChange 1 Store.empty).parents ⟨.Lane, 1⟩ .Edge ≠ [1] := by
  decide

/-- Claim C7 (amended): for an edge `e1` without Lane children and a lane `l1` that
records `e1` as its only Edge parent, with a command capturing `e1` as only parent:
after `linkAdd(l1)` the Lane children of `e1` are `[l1]` and the Edge parents of `l1`
are still `[e1]`; after the following `linkRemove(l1)` the Lane children of `e1` are
empty again and the Edge parents of `l1` are still `[e1]`. -/
theorem create_lane_scenario (s : Store) (e1 l1 : Nat) (fwd : Bool)
    (he : s.children ⟨.Edge, e1⟩ .Lane = []) (hl : s.parents ⟨.Lane, l1⟩ .Edge = [e1]) :
    (linkAdd .Lane { GNEChange.ofForward fwd with myParentEdges := [e1] } l1 s).children
        ⟨.Edge, e1⟩ .Lane = [l1] ∧
    (linkAdd .Lane { GNEChange.ofForward fwd with myParentEdges := [e1] } l1 s).parents
        ⟨.Lane, l1⟩ .Edge = [e1] ∧
    (linkRemove .Lane { GNEChange.ofForward fwd with myParentEdges := [e1] } l1
      (linkAdd .Lane { GNEChange.ofForward fwd with myParentEdges := [e1] } l1 s)).children
        ⟨.Edge, e1⟩ .Lane = [] ∧
    (linkRemove .Lane { GNEChange.ofForward fwd with myParentEdges := [e1] } l1
      (linkAdd .Lane { GNEChange.ofForward fwd with myParentEdges := [e1] } l1 s)).parents
        ⟨.Lane, l1⟩ .Edge = [e1] := by
  simp [linkAdd, linkRemove, addElementInParentsAndChildren,
    removeElementFromParentsAndChildren, addElementInParentsAndChildren_GNELane,
    removeElementFromParentsAndChildren_GNELane, GNEChange.ofForward, exec, addChildElement,
    removeChildElement, Store.addChildElement, Store.removeChildElement, he, hl]

/-- Witness of claim C7 (amended): edge `1`, lane `1` and the store in which the lane
records the edge. -/
theorem create_lane_scenario_witness :
    c7Store.children ⟨.Edge, 1⟩ .Lane = [] ∧ c7Store.parents ⟨.Lane, 1⟩ .Edge = [1] ∧
    ((linkAdd .Lane { GNEChange.ofForward true with myParentEdges := [1] } 1 c7Store).children
        ⟨.Edge, 1⟩ .Lane = [1] ∧
    (linkAdd .Lane { GNEChange.ofForward true with myParentEdges := [1] } 1 c7Store).parents
        ⟨.Lane, 1⟩ .Edge = [1] ∧
    (linkRemove .Lane { GNEChange.ofForward true with myParentEdges := [1] } 1
      (linkAdd .Lane { GNEChange.ofForward true with myParentEdges := [1] } 1 c7Store)).children
        ⟨.Edge, 1⟩ .Lane = [] ∧
    (linkRemove .Lane { GNEChange.ofForward true with myParentEdges := [1] } 1
      (linkAdd .Lane { GNEChange.ofForward true with myParentEdges := [1] } 1 c7Store)).parents
        ⟨.Lane, 1⟩ .Edge = [1]) :=
  ⟨by decide, by decide, create_lane_scenario c7Store 1 1 true (by decide) (by decide)⟩

theorem count_eraseN (x n : Nat) (L : List Nat) : (eraseN x n L).count x = L.count x - n := by
  induction n generalizing L with
  | zero => simp [eraseN]
  | succ m ih =>
    show (eraseN x m (L.erase x)).count x = L.count x - (m + 1)
    rw [ih, List.count_erase_self]
    omega

/-- Claim C8 (counterexample): in the first store GenericData `1` is a child of
DemandElement `1`, which references edge `1`, and is also a GenericData child of edge
`1`, whose command captures both children: `linkRemove` of the edge turns the Edge
parents `[1]` of the GenericData into `[]`. In the second store the GenericData is,
besides, a GenericData parent of the edge: `linkRemove` of the edge turns the Edge
children `[1]` of the GenericData into `[]`. -/
theorem linkRemove_edge_captured_genericData :
    ((1 : Nat) ∈ (GNEChange.ofHierarchical c8ChildStore ⟨.Edge, 1⟩ ⟨.Edge, 1⟩
        false).myChildDemandElements ∧
      (1 : Nat) ∈ c8ChildStore.children ⟨.DemandElement, 1⟩ .GenericData ∧
      (1 : Nat) ∈ c8ChildStore.parents ⟨.GenericData, 1⟩ .DemandElement ∧
      c8ChildStore.parents ⟨.GenericData, 1⟩ .Edge = [1] ∧
      (linkRemove .Edge (GNEChange.ofHierarchical c8ChildStore ⟨.Edge, 1⟩ ⟨.Edge, 1⟩ false) 1
        c8ChildStore).parents ⟨.GenericData, 1⟩ .Edge = [] ∧
      (linkRemove .Edge (GNEChange.ofHierarchical c8ChildStore ⟨.Edge, 1⟩ ⟨.Edge, 1⟩ false) 1
        c8ChildStore).parents ⟨.GenericData, 1⟩ .Edge
          ≠ c8ChildStore.parents ⟨.GenericData, 1⟩ .Edge) ∧
    ((1 : Nat) ∈ (GNEChange.ofHierarchical c8ParentStore ⟨.Edge, 1⟩ ⟨.Edge, 1⟩
        false).myChildDemandElements ∧
      (1 : Nat) ∈ c8ParentStore.children ⟨.DemandElement, 1⟩ .GenericData ∧
      (1 : Nat) ∈ c8ParentStore.parents ⟨.GenericData, 1⟩ .DemandElement ∧
      c8ParentStore.children ⟨.GenericData, 1⟩ .Edge = [1] ∧
      (linkRemove .Edge (GNEChange.ofHierarchical c8ParentStore ⟨.Edge, 1⟩ ⟨.Edge, 1⟩ false) 1
        c8ParentStore).children ⟨.GenericData, 1⟩ .Edge = [] ∧
      (linkRemove .Edge (GNEChange.ofHierarchical c8ParentStore ⟨.Edge, 1⟩ ⟨.Edge, 1⟩ false) 1
        c8ParentStore).children ⟨.GenericData, 1⟩ .Edge
          ≠ c8ParentStore.children ⟨.GenericData, 1⟩ .Edge) := by
  decide

/-- Claim C8 (amended): for an edge `e1` whose command captures the DemandElement `d1`
as a child and captures the GenericData `g1` neither as a GenericData parent nor as a
GenericData child, `g1` being linked as a child of `d1`: `linkRemove(e1)` takes `e1` out
of the Edge parents of `d1`, one occurrence per captured occurrence of `d1`, leaves the
GenericData children of `d1` and every sequence of `g1` unchanged, and `g1` is still
linked to `d1` on both sides. -/
theorem linkRemove_edge_scenario (s : Store) (c : GNEChange) (e1 d1 g1 : Nat)
    (hd : d1 ∈ c.myChildDemandElements)
    (hg : g1 ∉ c.myParentGenericDatas ∧ g1 ∉ c.myChildGenericDatas)
    (hgd : g1 ∈ s.children ⟨.DemandElement, d1⟩ .GenericData)
    (hdg : d1 ∈ s.parents ⟨.GenericData, g1⟩ .DemandElement) :
    (linkRemove .Edge c e1 s).parents ⟨.DemandElement, d1⟩ .Edge
        = eraseN e1 (c.myChildDemandElements.count d1) (s.parents ⟨.DemandElement, d1⟩ .Edge) ∧
    (c.myChildDemandElements.count d1 = 1 →
      (linkRemove .Edge c e1 s).parents ⟨.DemandElement, d1⟩ .Edge
        = (s.parents ⟨.DemandElement, d1⟩ .Edge).erase e1) ∧
    ((linkRemove .Edge c e1 s).parents ⟨.DemandElement, d1⟩ .Edge).count e1
        = (s.parents ⟨.DemandElement, d1⟩ .Edge).count e1 - c.myChildDemandElements.count d1 ∧
    (e1 ∈ s.parents ⟨.DemandElement, d1⟩ .Edge →
      ((linkRemove .Edge c e1 s).parents ⟨.DemandElement, d1⟩ .Edge).count e1
        < (s.parents ⟨.DemandElement, d1⟩ .Edge).count e1) ∧
    ((s.parents ⟨.DemandElement, d1⟩ .Edge).count e1 ≤ c.myChildDemandElements.count d1 →
      e1 ∉ (linkRemove .Edge c e1 s).parents ⟨.DemandElement, d1⟩ .Edge) ∧
    (linkRemove .Edge c e1 s).children ⟨.DemandElement, d1⟩ .GenericData
        = s.children ⟨.DemandElement, d1⟩ .GenericData ∧
    (∀ k, (linkRemove .Edge c e1 s).parents ⟨.GenericData, g1⟩ k
        = s.parents ⟨.GenericData, g1⟩ k) ∧
    (∀ k, (linkRemove .Edge c e1 s).children ⟨.GenericData, g1⟩ k
        = s.children ⟨.GenericData, g1⟩ k) ∧
    g1 ∈ (linkRemove .Edge c e1 s).children ⟨.DemandElement, d1⟩ .GenericData ∧
    d1 ∈ (linkRemove .Edge c e1 s).parents ⟨.GenericData, g1⟩ .DemandElement := by
  have hseq := linkRemove_seq .Edge c e1 s
  have hg0 : ∀ sd k, removeHits .Edge c sd ⟨.GenericData, g1⟩ k = 0 := by
    intro sd k
    by_contra h
    cases sd with
    | parent =>
      have := (removeHits_pos_parent .Edge c _ k h).2
      rw [mem_childTargets] at this
      exact hg.2 this
    | child =>
      have := (removeHits_pos_child .Edge c _ k h).2
      rw [mem_parentTargets] at this
      exact hg.1 this
  have hd1 : removeHits .Edge c .parent ⟨.DemandElement, d1⟩ .Edge
      = c.myChildDemandElements.count d1 := by
    simp only [removeHits, if_true]
    rw [count_childTargets]
    rfl
  have hpos : 0 < c.myChildDemandElements.count d1 := List.count_pos_iff.2 hd
  have a1 := hseq .parent ⟨.DemandElement, d1⟩ .Edge
  have a2 := hseq .child ⟨.DemandElement, d1⟩ .GenericData
  have a3 := fun k => hseq .parent ⟨.GenericData, g1⟩ k
  have a4 := fun k => hseq .child ⟨.GenericData, g1⟩ k
  simp only [Store.seq, hd1, hg0, eraseN] at a1 a3 a4
  have a2' : (linkRemove .Edge c e1 s).children ⟨.DemandElement, d1⟩ .GenericData
      = s.children ⟨.DemandElement, d1⟩ .GenericData := by
    simpa [Store.seq, removeHits, eraseN] using a2
  have hcount : ((linkRemove .Edge c e1 s).parents ⟨.DemandElement, d1⟩ .Edge).count e1
      = (s.parents ⟨.DemandElement, d1⟩ .Edge).count e1 - c.myChildDemandElements.count d1 := by
    rw [a1, count_eraseN]
  refine ⟨a1, ?_, hcount, ?_, ?_, a2', a3, a4, ?_, ?_⟩
  · intro h1
    rw [a1, h1]
    rfl
  · intro hmem
    have h1 := List.count_pos_iff.2 hmem
    rw [hcount]
    omega
  · intro hle hmem
    have h1 := List.count_pos_iff.2 hmem
    rw [hcount] at h1
    omega
  · rw [a2']
    exact hgd
  · rw [a3]
    exact hdg

/-- Witness of claim C8 (amended): the scenario store and the command captured from
edge `1`, which captures DemandElement `1` and no GenericData; the Edge parents of the
DemandElement become empty. -/
theorem linkRemove_edge_scenario_witness :
    (1 : Nat) ∈ (GNEChange.ofHierarchical c8Store ⟨.Edge, 1⟩ ⟨.Edge, 1⟩ false).myChildDemandElements ∧
    (linkRemove .Edge (GNEChange.ofHierarchical c8Store ⟨.Edge, 1⟩ ⟨.Edge, 1⟩ false) 1
        c8Store).parents ⟨.DemandElement, 1⟩ .Edge = [] ∧
    ((linkRemove .Edge (GNEChange.ofHierarchical c8Store ⟨.Edge, 1⟩ ⟨.Edge, 1⟩ false) 1
        c8Store).parents ⟨.DemandElement, 1⟩ .Edge
        = eraseN 1
            ((GNEChange.ofHierarchical c8Store ⟨.Edge, 1⟩ ⟨.Edge, 1⟩ false).myChildDemandElements.count
              1)
            (c8Store.parents ⟨.DemandElement, 1⟩ .Edge) ∧
    ((GNEChange.ofHierarchical c8Store ⟨.Edge, 1⟩ ⟨.Edge, 1⟩ false).myChildDemandElements.count 1
        = 1 →
      (linkRemove .Edge (GNEChange.ofHierarchical c8Store ⟨.Edge, 1⟩ ⟨.Edge, 1⟩ false) 1
        c8Store).parents ⟨.DemandElement, 1⟩ .Edge
        = (c8Store.parents ⟨.DemandElement, 1⟩ .Edge).erase 1) ∧
    ((linkRemove .Edge (GNEChange.ofHierarchical c8Store ⟨.Edge, 1⟩ ⟨.Edge, 1⟩ false) 1
        c8Store).parents ⟨.DemandElement, 1⟩ .Edge).count 1
        = (c8Store.parents ⟨.DemandElement, 1⟩ .Edge).count 1
          - (GNEChange.ofHierarchical c8Store ⟨.Edge, 1⟩ ⟨.Edge, 1⟩ false).myChildDemandElements.count
              1 ∧
    (1 ∈ c8Store.parents ⟨.DemandElement, 1⟩ .Edge →
      ((linkRemove .Edge (GNEChange.ofHierarchical c8Store ⟨.Edge, 1⟩ ⟨.Edge, 1⟩ false) 1
        c8Store).parents ⟨.DemandElement, 1⟩ .Edge).count 1
        < (c8Store.parents ⟨.DemandElement, 1⟩ .Edge).count 1) ∧
    ((c8Store.parents ⟨.DemandElement, 1⟩ .Edge).count 1
        ≤ (GNEChange.ofHierarchical c8Store ⟨.Edge, 1⟩ ⟨.Edge, 1⟩ false).myChildDemandElements.count
            1 →
      1 ∉ (linkRemove .Edge (GNEChange.ofHierarchical c8Store ⟨.Edge, 1⟩ ⟨.Edge, 1⟩ false) 1
        c8Store).parents ⟨.DemandElement, 1⟩ .Edge) ∧
    (linkRemove .Edge (GNEChange.ofHierarchical c8Store ⟨.Edge, 1⟩ ⟨.Edge, 1⟩ false) 1
        c8Store).children ⟨.DemandElement, 1⟩ .GenericData
        = c8Store.children ⟨.DemandElement, 1⟩ .GenericData ∧
    (∀ k, (linkRemove .Edge (GNEChange.ofHierarchical c8Store ⟨.Edge, 1⟩ ⟨.Edge, 1⟩ false) 1
        c8Store).parents ⟨.GenericData, 1⟩ k = c8Store.parents ⟨.GenericData, 1⟩ k) ∧
    (∀ k, (linkRemove .Edge (GNEChange.ofHierarchical c8Store ⟨.Edge, 1⟩ ⟨.Edge, 1⟩ false) 1
        c8Store).children ⟨.GenericData, 1⟩ k = c8Store.children ⟨.GenericData, 1⟩ k) ∧
    1 ∈ (linkRemove .Edge (GNEChange.ofHierarchical c8Store ⟨.Edge, 1⟩ ⟨.Edge, 1⟩ false) 1
        c8Store).children ⟨.DemandElement, 1⟩ .GenericData ∧
    1 ∈ (linkRemove .Edge (GNEChange.ofHierarchical c8Store ⟨.Edge, 1⟩ ⟨.Edge, 1⟩ false) 1
        c8Store).parents ⟨.GenericData, 1⟩ .DemandElement) :=
  ⟨by decide, by decide,
    linkRemove_edge_scenario c8Store
      (GNEChange.ofHierarchical c8Store ⟨.Edge, 1⟩ ⟨.Edge, 1⟩ false) 1 1 1
      (by decide) (by decide) (by decide) (by decide)⟩

/-- Claim C9 (counterexample): the route `7` captures the parent edges `[1, 2, 1]`;
edge `1` has the DemandElement children `[5, 6]` before `linkAdd` and `[5, 6, 7, 7]`
after it, not `[5, 6, 7]`. -/
theorem linkAdd_appends_per_occurrence :
    (1 : Nat) ∈ routeChange.myParent .Edge ∧
    c9Store.children ⟨.Edge, 1⟩ .DemandElement = [5, 6] ∧
    (linkAdd .DemandElement routeChange 7 c9Store).children ⟨.Edge, 1⟩ .DemandElement
        = [5, 6, 7, 7] ∧
    (linkAdd .DemandElement routeChange 7 c9Store).children ⟨.Edge, 1⟩ .DemandElement
        ≠ c9Store.children ⟨.Edge, 1⟩ .DemandElement ++ [7] := by
  decide

/-- Claim C9 (amended): for every kind `K`, element `x`, command and element `p` of
kind `P` that is not a GenericData child captured by the command of an Additional,
the child sequence of kind `K` of `p` after `linkAdd` is the sequence before it
followed by one `x` per occurrence of `p` in the captured parent sequence of kind
`P`: the existing entries keep their order and `x` comes last. -/
theorem linkAdd_children_order (K : Kind) (c : GNEChange) (x : Nat) (s : Store) (P : Kind)
    (p : Nat) (hns : ¬ (K = .Additional ∧ P = .GenericData ∧ p ∈ c.myChildGenericDatas)) :
    (linkAdd K c x s).children ⟨P, p⟩ K
      = s.children ⟨P, p⟩ K ++ List.replicate ((c.myParent P).count p) x ∧
    (∀ L : List Nat, s.children ⟨P, p⟩ K = L → (c.myParent P).count p = 1 →
      (linkAdd K c x s).children ⟨P, p⟩ K = L ++ [x]) := by
  have h := linkAdd_seq K c x s .child ⟨P, p⟩ K
  have hh : addHits K c .child ⟨P, p⟩ K = (c.myParent P).count p := by
    simp only [addHits, if_true]
    rw [count_parentTargets]
    by_cases hs : slipTarget K ⟨P, p⟩ = true
    · have hs' := hs
      simp only [slipTarget, decide_eq_true_eq] at hs'
      have h0 : (childTargets c).count ⟨P, p⟩ = 0 := by
        rw [count_childTargets, List.count_eq_zero]
        intro hm
        apply hns
        refine ⟨hs'.1, hs'.2, ?_⟩
        have : (⟨P, p⟩ : Elem).kind = .GenericData := hs'.2
        rw [this] at hm
        exact hm
      simp [hs, h0]
    · simp [hs]
  simp only [Store.seq, hh] at h
  refine ⟨h, ?_⟩
  intro L hL h1
  rw [h, hL, h1]
  rfl

/-- Witness of claim C9 (amended): edge `1` in the route command `[1, 2, 1]`. -/
theorem linkAdd_children_order_witness :
    (1 : Nat) ∈ routeChange.myParent .Edge ∧
    ((linkAdd .DemandElement routeChange 7 c9Store).children ⟨.Edge, 1⟩ .DemandElement
      = c9Store.children ⟨.Edge, 1⟩ .DemandElement
          ++ List.replicate ((routeChange.myParent .Edge).count 1) 7 ∧
    (∀ L : List Nat, c9Store.children ⟨.Edge, 1⟩ .DemandElement = L →
      (routeChange.myParent .Edge).count 1 = 1 →
      (linkAdd .DemandElement routeChange 7 c9Store).children ⟨.Edge, 1⟩ .DemandElement
        = L ++ [7])) :=
  ⟨by decide, linkAdd_children_order .DemandElement routeChange 7 c9Store .Edge 1 (by decide)⟩

/-- Claim C10: on the command built by `GNEChange(forward)`, whose 14 sequences are
empty, `linkAdd` and `linkRemove` of any element of any kind issue no primitive call
and return the state they were given, whatever the primitives do; in particular every
relationship sequence of every element of the store is unchanged. -/
theorem link_empty_noop {σ : Type} (run : Call → σ → σ) (forward : Bool) (K : Kind) (x : Nat)
    (st : σ) (s : Store) :
    linkAddCalls K (GNEChange.ofForward forward) x = [] ∧
    linkRemoveCalls K (GNEChange.ofForward forward) x = [] ∧
    addElementInParentsAndChildren run K (GNEChange.ofForward forward) x st = st ∧
    removeElementFromParentsAndChildren run K (GNEChange.ofForward forward) x st = st ∧
    linkAdd K (GNEChange.ofForward forward) x s = s ∧
    linkRemove K (GNEChange.ofForward forward) x s = s := by
  cases K <;> exact ⟨rfl, rfl, rfl, rfl, rfl, rfl⟩

/-! ## The claims on the other members of `GNEChange` and on `GNEAttributeCarrier.h` -/

theorem foldl_runChecked_ok {σ ε : Type} (prim : Call → σ → Except ε σ) (f : Call → σ → σ)
    (h : ∀ k s, prim k s = .ok (f k s)) (l : List Call) (s : σ) :
    l.foldl (fun r k => runChecked prim k r) (.ok s) = .ok (l.foldl (fun s k => f k s) s) := by
  induction l generalizing s with
  | nil => rfl
  | cons k t ih =>
    have hk : runChecked prim k (Except.ok s) = Except.ok (f k s) := h k s
    rw [List.foldl_cons, hk]
    exact ih (f k s)

/-- Both operations fail only when a primitive fails: with primitives that always
return normally, the operations return normally, with the state obtained by making the
calls one after the other. -/
theorem link_ok_of_prims_ok {σ ε : Type} (prim : Call → σ → Except ε σ) (f : Call → σ → σ)
    (h : ∀ k s, prim k s = .ok (f k s)) (K : Kind) (c : GNEChange) (x : Nat) (s : σ) :
    addElementInParentsAndChildren (runChecked prim) K c x (.ok s)
        = .ok (addElementInParentsAndChildren f K c x s) ∧
    removeElementFromParentsAndChildren (runChecked prim) K c x (.ok s)
        = .ok (removeElementFromParentsAndChildren f K c x s) := by
  rw [add_run_eq, add_run_eq, remove_run_eq, remove_run_eq]
  exact ⟨foldl_runChecked_ok prim f h _ s, foldl_runChecked_ok prim f h _ s⟩

/-- Claim C12: the command built from a hierarchical source has the forward flag it
was given, and for each of the seven kinds its parent sequence is the parent sequence
of that kind of `parents` and its child sequence is the child sequence of that kind of
`childs`. -/
theorem ofHierarchical_kind_matched (s : Store) (parents childs : Elem) (forward : Bool) :
    (GNEChange.ofHierarchical s parents childs forward).myForward = forward ∧
    (∀ k, (GNEChange.ofHierarchical s parents childs forward).myParent k = s.parents parents k) ∧
    (∀ k, (GNEChange.ofHierarchical s parents childs forward).myChild k = s.children childs k) := by
  refine ⟨rfl, ?_, ?_⟩
  · intro k
    cases k <;> rfl
  · intro k
    cases k <;> rfl

/-- Claim C13: the command built by `GNEChange(forward)` has the forward flag it was
given, and each of its seven parent sequences and seven child sequences is the static
empty vector of its type, hence empty. -/
theorem ofForward_empty (forward : Bool) :
    (GNEChange.ofForward forward).myForward = forward ∧
    (∀ k, (GNEChange.ofForward forward).myParent k = []) ∧
    (∀ k, (GNEChange.ofForward forward).myChild k = []) ∧
    GNEChange.ofForward forward =
      { myForward := forward
        myParentEdges := GNEChange.myEmptyEdges
        myParentLanes := GNEChange.myEmptyLanes
        myParentAdditionals := GNEChange.myEmptyAdditionals
        myParentShapes := GNEChange.myEmptyShapes
        myParentTAZElements := GNEChange.myEmptyTAZElements
        myParentDemandElements := GNEChange.myEmptyDemandElements
        myParentGenericDatas := GNEChange.myEmptyGenericDatas
        myChildEdges := GNEChange.myEmptyEdges
        myChildLanes := GNEChange.myEmptyLanes
        myChildAdditionals := GNEChange.myEmptyAdditionals
        myChildShapes := GNEChange.myEmptyShapes
        myChildTAZElements := GNEChange.myEmptyTAZElements
        myChildDemandElements := GNEChange.myEmptyDemandElements
        myChildGenericDatas := GNEChange.myEmptyGenericDatas } := by
  refine ⟨rfl, ?_, ?_, rfl⟩
  · intro k
    cases k <;> rfl
  · intro k
    cases k <;> rfl

/-- Claim C14: `size()` is 1 for every command, whatever its flag and its captured
sequences. -/
theorem size_eq_one (c : GNEChange) : c.size = 1 := rfl

/-- Claim C15: for every command, `undoName()` is the label "Undo" and `redoName()` the
label "Redo". -/
theorem undoName_redoName (c : GNEChange) : c.undoName = "Undo" ∧ c.redoName = "Redo" :=
  ⟨rfl, rfl⟩

/-- Claim C16: the base `undo()` and `redo()` leave the command (flag and 14 captured
sequences) and the relationship store as they are. -/
theorem undo_redo_noop (c : GNEChange) (s : Store) :
    c.undo s = (c, s) ∧ c.redo s = (c, s) ∧
    (c.undo s).1.myForward = c.myForward ∧ (c.redo s).1.myForward = c.myForward ∧
    (∀ k, (c.undo s).1.myParent k = c.myParent k ∧ (c.undo s).1.myChild k = c.myChild k) ∧
    (∀ k, (c.redo s).1.myParent k = c.myParent k ∧ (c.redo s).1.myChild k = c.myChild k) ∧
    (∀ e k, (c.undo s).2.parents e k = s.parents e k ∧
      (c.undo s).2.children e k = s.children e k) ∧
    (∀ e k, (c.redo s).2.parents e k = s.parents e k ∧
      (c.redo s).2.children e k = s.children e k) :=
  ⟨rfl, rfl, rfl, rfl, fun _ => ⟨rfl, rfl⟩, fun _ => ⟨rfl, rfl⟩, fun _ _ => ⟨rfl, rfl⟩,
    fun _ _ => ⟨rfl, rfl⟩⟩

/-- Claim C20: the calls of `linkAdd` and `linkRemove`, loop by loop. Every parent loop
calls `addChildElement` (`removeChildElement`); every child loop of `linkRemove` calls
the `removeParent` operation of the kind of `X`; a child loop of `linkAdd` calls the
`addParent` operation of the kind of `X`, except the GenericData-children loop for an
Additional, which calls `addChildElement`. -/
theorem one_asymmetric_child_loop (K : Kind) (c : GNEChange) (x : Nat) :
    linkAddCalls K c x =
      (parentTargets c).map (fun p => addChildElement p ⟨K, x⟩) ++
      (childTargets c).map (fun ch =>
        if K = .Additional ∧ ch.kind = .GenericData then addChildElement ch ⟨K, x⟩
        else ⟨ch, .addParent, ⟨K, x⟩⟩) ∧
    linkRemoveCalls K c x =
      (parentTargets c).map (fun p => removeChildElement p ⟨K, x⟩) ++
      (childTargets c).map (fun ch => ⟨ch, .removeParent, ⟨K, x⟩⟩) ∧
    (∀ (C : Kind) (l : List Nat),
      linkAddCalls K (GNEChange.childOnly C l) x =
        l.map (fun ch =>
          if K = .Additional ∧ C = .GenericData then addChildElement ⟨C, ch⟩ ⟨K, x⟩
          else ⟨⟨C, ch⟩, .addParent, ⟨K, x⟩⟩) ∧
      linkRemoveCalls K (GNEChange.childOnly C l) x =
        l.map (fun ch => ⟨⟨C, ch⟩, .removeParent, ⟨K, x⟩⟩)) ∧
    (∀ (C : Kind) (ch : Nat),
      (linkAddCalls K (GNEChange.childOnly C [ch]) x = [⟨⟨C, ch⟩, .addParent, ⟨K, x⟩⟩]
        ↔ ¬ (K = .Additional ∧ C = .GenericData)) ∧
      (linkAddCalls K (GNEChange.childOnly C [ch]) x = [addChildElement ⟨C, ch⟩ ⟨K, x⟩]
        ↔ (K = .Additional ∧ C = .GenericData))) := by
  have hadd : linkAddCalls K c x =
      (parentTargets c).map (fun p => addChildElement p ⟨K, x⟩) ++
      (childTargets c).map (fun ch =>
        if K = .Additional ∧ ch.kind = .GenericData then addChildElement ch ⟨K, x⟩
        else ⟨ch, .addParent, ⟨K, x⟩⟩) := by
    rw [linkAddCalls_eq]
    unfold addScript
    congr 1
    apply List.map_congr_left
    intro ch _
    unfold childAddOp addChildElement
    split <;> rfl
  have hrem : linkRemoveCalls K c x =
      (parentTargets c).map (fun p => removeChildElement p ⟨K, x⟩) ++
      (childTargets c).map (fun ch => ⟨ch, .removeParent, ⟨K, x⟩⟩) := by
    rw [linkRemoveCalls_eq]
    rfl
  have hone : ∀ (C : Kind) (l : List Nat),
      linkAddCalls K (GNEChange.childOnly C l) x =
        l.map (fun ch =>
          if K = .Additional ∧ C = .GenericData then addChildElement ⟨C, ch⟩ ⟨K, x⟩
          else ⟨⟨C, ch⟩, .addParent, ⟨K, x⟩⟩) ∧
      linkRemoveCalls K (GNEChange.childOnly C l) x =
        l.map (fun ch => ⟨⟨C, ch⟩, .removeParent, ⟨K, x⟩⟩) := by
    intro C l
    rw [linkAddCalls_eq, linkRemoveCalls_eq]
    cases C <;>
      simp [addScript, removeScript, parentTargets, childTargets, GNEChange.childOnly,
        GNEChange.ofForward, childAddOp, addChildElement]
    intro a _
    split <;> rfl
  refine ⟨hadd, hrem, hone, ?_⟩
  intro C ch
  rw [(hone C [ch]).1]
  by_cases hs : K = .Additional ∧ C = .GenericData
  · simp [hs, addChildElement]
  · simp [hs, addChildElement]

/-- Claim C17: `canParse<T>(s)` returns true when `parse<T>(s)` returns a value and
only then, returns false when `parse<T>(s)` throws `NumberFormatException`, `EmptyData`
or `BoolFormatException`, and never throws one of these three itself. -/
theorem canParse_spec {T : Type} (parse : String → Except Thrown T) (s : String) :
    (∀ v, parse s = .ok v → canParse parse s = .ok true) ∧
    (parse s = .error .NumberFormatException → canParse parse s = .ok false) ∧
    (parse s = .error .EmptyData → canParse parse s = .ok false) ∧
    (parse s = .error .BoolFormatException → canParse parse s = .ok false) ∧
    canParse parse s ≠ .error .NumberFormatException ∧
    canParse parse s ≠ .error .EmptyData ∧
    canParse parse s ≠ .error .BoolFormatException ∧
    (canParse parse s = .ok true ↔ ∃ v, parse s = .ok v) := by
  unfold canParse
  cases h : parse s with
  | ok v => simp
  | error e => cases e <;> simp

/-- Claim C18: `isPositive<T>(s)` is `canParse<T>(s) && parse<T>(s) > 0`; it is true
exactly when `parse<T>(s)` returns a value greater than 0, and it is false, without
failing, when `parse<T>(s)` throws one of the three exceptions that `canParse` catches,
returns 0, or returns a negative value. The order of `T` is only assumed to be
asymmetric, as the orders of `int` and `double` are. -/
theorem isPositive_spec {T : Type} [Zero T] [LT T] [DecidableRel (fun a b : T => a < b)]
    (hasymm : ∀ a b : T, a < b → ¬ b < a)
    (parse : String → Except Thrown T) (s : String) :
    isPositive parse s =
      (canParse parse s).bind
        (fun b => if b then (parse s).map (fun v => decide (v > 0)) else .ok false) ∧
    (isPositive parse s = .ok true ↔ ∃ v, parse s = .ok v ∧ v > 0) ∧
    (canParse parse s = .ok false → isPositive parse s = .ok false) ∧
    (parse s = .error .NumberFormatException → isPositive parse s = .ok false) ∧
    (parse s = .error .EmptyData → isPositive parse s = .ok false) ∧
    (parse s = .error .BoolFormatException → isPositive parse s = .ok false) ∧
    (parse s = .ok 0 → isPositive parse s = .ok false) ∧
    (∀ v, parse s = .ok v → v < 0 → isPositive parse s = .ok false) := by
  unfold isPositive canParse
  cases h : parse s with
  | ok v =>
    have h0 : ¬ ((0 : T) < 0) := fun h0 => hasymm 0 0 h0 h0
    refine ⟨rfl, ?_, ?_, ?_, ?_, ?_, ?_, ?_⟩
    · simp
    · intro hc
      cases hc
    · intro hc
      cases hc
    · intro hc
      cases hc
    · intro hc
      cases hc
    · intro hv
      have hv' : v = 0 := by
        injection hv
      subst hv'
      simp [h0]
    · intro w hw hneg
      have hw' : v = w := by
        injection hw
      subst hw'
      have : ¬ (0 : T) < v := fun hp => hasymm _ _ hp hneg
      simp [this]
  | error e =>
    cases e <;> simp [Except.bind, Except.map]

/-- Witness of claim C18: `isPositive<int>` on the strings of the example parser. -/
theorem isPositive_spec_witness :
    (∀ a b : Int, a < b → ¬ b < a) ∧
    isPositive demoParseInt "7" = .ok true ∧
    isPositive demoParseInt "0" = .ok false ∧
    isPositive demoParseInt "-3" = .ok false ∧
    isPositive demoParseInt "abc" = .ok false ∧
    (isPositive demoParseInt "7" =
      (canParse demoParseInt "7").bind
        (fun b => if b then (demoParseInt "7").map (fun v => decide (v > 0)) else .ok false) ∧
    (isPositive demoParseInt "7" = .ok true ↔ ∃ v, demoParseInt "7" = .ok v ∧ v > 0) ∧
    (canParse demoParseInt "7" = .ok false → isPositive demoParseInt "7" = .ok false) ∧
    (demoParseInt "7" = .error .NumberFormatException → isPositive demoParseInt "7" = .ok false) ∧
    (demoParseInt "7" = .error .EmptyData → isPositive demoParseInt "7" = .ok false) ∧
    (demoParseInt "7" = .error .BoolFormatException → isPositive demoParseInt "7" = .ok false) ∧
    (demoParseInt "7" = .ok 0 → isPositive demoParseInt "7" = .ok false) ∧
    (∀ v, demoParseInt "7" = .ok v → v < 0 → isPositive demoParseInt "7" = .ok false)) :=
  ⟨fun _ _ h => lt_asymm h, by rfl, by rfl, by rfl, by rfl,
    isPositive_spec (fun _ _ h => lt_asymm h) demoParseInt "7"⟩

/-- Claim C19: for an attribute of the tag that the XML does not contain and that is
not the block-movement attribute of a tag that can block movement: when the attribute
has a default value, `abort` is left as passed in and the result is `parse<T>` of the
string form of the default value; when it has none, `abort` is true afterwards, one
warning is written and the result is `parse<T>` of the fallback string ("0" for a
numerical attribute, else "BLACK" for a color attribute, else the empty string). -/
theorem parseAttributeFromXML_missing {T Dbl RGB : Type} (env : Collaborators T Dbl RGB)
    (attrs : SUMOSAXAttributes) (objectID : String) (tag : SumoXMLTag) (attr : SumoXMLAttr)
    (abort : Bool) (av : AttributeValues)
    (hav : env.allowedAttributes tag attr = some av)
    (hmiss : attrs.hasAttribute attr = false)
    (hblock : ¬ ((env.getTagProperties tag).canBlockMovement = true ∧
      attr = .GNE_ATTR_BLOCK_MOVEMENT)) :
    (env.hasDefaultValue tag attr = true →
      (parseAttributeFromXML env attrs objectID tag attr abort).abort = abort ∧
      (parseAttributeFromXML env attrs objectID tag attr abort).warnings = [] ∧
      (parseAttributeFromXML env attrs objectID tag attr abort).result
        = env.parse (env.toStringValue (env.getDefaultValue tag attr))) ∧
    (env.hasDefaultValue tag attr = false →
      (parseAttributeFromXML env attrs objectID tag attr abort).abort = true ∧
      (parseAttributeFromXML env attrs objectID tag attr abort).warnings.length = 1 ∧
      (parseAttributeFromXML env attrs objectID tag attr abort).result
        = env.parse (if av.isNumerical then "0" else if av.isColor then "BLACK" else "")) ∧
    ((parseAttributeFromXML env attrs objectID tag attr abort).abort
      = (abort || !env.hasDefaultValue tag attr)) := by
  have hb : ((env.getTagProperties tag).canBlockMovement
      && decide (attr = .GNE_ATTR_BLOCK_MOVEMENT)) = false := by
    cases h1 : (env.getTagProperties tag).canBlockMovement
    · rfl
    · by_cases h2 : attr = .GNE_ATTR_BLOCK_MOVEMENT
      · exact absurd ⟨h1, h2⟩ hblock
      · simp [h2]
  unfold parseAttributeFromXML
  rw [hav]
  simp only [hmiss, Bool.false_eq_true, if_false]
  unfold resolveMissing
  rw [hb]
  cases hd : env.hasDefaultValue tag attr
  · simp [fallbackValue]
  · simp

/-- Witness of claim C19: with the example collaborators and no attribute in the XML,
attribute `other 1` has a default and `abort` stays false, attribute `other 2` has none
and `abort` becomes true. -/
theorem parseAttributeFromXML_missing_witness :
    (parseAttributeFromXML demoCollaborators demoNoAttributes "id" ⟨0⟩ (.other 1) false).abort
        = false ∧
    (parseAttributeFromXML demoCollaborators demoNoAttributes "id" ⟨0⟩ (.other 1) false).result
        = .ok 7 ∧
    (parseAttributeFromXML demoCollaborators demoNoAttributes "id" ⟨0⟩ (.other 2) false).abort
        = true ∧
    (parseAttributeFromXML demoCollaborators demoNoAttributes "id" ⟨0⟩ (.other 2) false).result
        = .ok 0 ∧
    ((demoCollaborators.hasDefaultValue ⟨0⟩ (.other 2) = true →
      (parseAttributeFromXML demoCollaborators demoNoAttributes "id" ⟨0⟩ (.other 2) false).abort
          = false ∧
      (parseAttributeFromXML demoCollaborators demoNoAttributes "id" ⟨0⟩ (.other 2)
          false).warnings = [] ∧
      (parseAttributeFromXML demoCollaborators demoNoAttributes "id" ⟨0⟩ (.other 2) false).result
        = demoCollaborators.parse
            (demoCollaborators.toStringValue (demoCollaborators.getDefaultValue ⟨0⟩ (.other 2)))) ∧
    (demoCollaborators.hasDefaultValue ⟨0⟩ (.other 2) = false →
      (parseAttributeFromXML demoCollaborators demoNoAttributes "id" ⟨0⟩ (.other 2) false).abort
          = true ∧
      (parseAttributeFromXML demoCollaborators demoNoAttributes "id" ⟨0⟩ (.other 2)
          false).warnings.length = 1 ∧
      (parseAttributeFromXML demoCollaborators demoNoAttributes "id" ⟨0⟩ (.other 2) false).result
        = demoCollaborators.parse
            (if demoIntAttribute.isNumerical then "0"
              else if demoIntAttribute.isColor then "BLACK" else "")) ∧
    ((parseAttributeFromXML demoCollaborators demoNoAttributes "id" ⟨0⟩ (.other 2) false).abort
      = (false || !demoCollaborators.hasDefaultValue ⟨0⟩ (.other 2)))) :=
  ⟨by rfl, by rfl, by rfl, by rfl,
    parseAttributeFromXML_missing demoCollaborators demoNoAttributes "id" ⟨0⟩ (.other 2) false
      demoIntAttribute rfl rfl (by decide)⟩

/-! ## Order of the calls, frame of the operations, and the command with members as
references -/

theorem addHits_pos_child (K : Kind) (c : GNEChange) (e : Elem) (kd : Kind)
    (h : addHits K c .child e kd ≠ 0) :
    kd = K ∧ (e ∈ parentTargets c ∨
      (K = .Additional ∧ e.kind = .GenericData ∧ e ∈ childTargets c)) := by
  unfold addHits at h
  by_cases hkd : kd = K
  · refine ⟨hkd, ?_⟩
    simp only [hkd, if_true] at h
    by_cases hp : e ∈ parentTargets c
    · exact Or.inl hp
    · right
      have h0 : (parentTargets c).count e = 0 := List.count_eq_zero.2 hp
      rw [h0, Nat.zero_add] at h
      by_cases hs : slipTarget K e = true
      · rw [if_pos hs] at h
        simp only [slipTarget, decide_eq_true_eq] at hs
        exact ⟨hs.1, hs.2, List.count_pos_iff.1 (Nat.pos_of_ne_zero h)⟩
      · rw [if_neg hs] at h
        exact absurd rfl h
  · simp [hkd] at h

theorem addHits_pos_parent (K : Kind) (c : GNEChange) (e : Elem) (kd : Kind)
    (h : addHits K c .parent e kd ≠ 0) : kd = K ∧ e ∈ childTargets c := by
  unfold addHits at h
  by_cases hkd : kd = K
  · refine ⟨hkd, ?_⟩
    simp only [hkd, if_true] at h
    by_cases hs : slipTarget K e = true
    · rw [if_pos hs] at h
      exact absurd rfl h
    · rw [if_neg hs] at h
      exact List.count_pos_iff.1 (Nat.pos_of_ne_zero h)
  · simp [hkd] at h

/-- An element that the command does not capture keeps all its sequences through
`linkAdd`. -/
theorem linkAdd_untouched (K : Kind) (c : GNEChange) (x : Nat) (s : Store) (e : Elem)
    (hp : e ∉ parentTargets c) (hc : e ∉ childTargets c) (sd : Side) (kd : Kind) :
    (linkAdd K c x s).seq sd e kd = s.seq sd e kd := by
  rw [linkAdd_seq]
  have h0 : addHits K c sd e kd = 0 := by
    by_contra h
    cases sd with
    | parent => exact hc (addHits_pos_parent K c e kd h).2
    | child =>
      rcases (addHits_pos_child K c e kd h).2 with h1 | h1
      · exact hp h1
      · exact hc h1.2.2
  rw [h0]
  simp

/-- An element that the command does not capture keeps all its sequences through
`linkRemove`. -/
theorem linkRemove_untouched (K : Kind) (c : GNEChange) (x : Nat) (s : Store) (e : Elem)
    (hp : e ∉ parentTargets c) (hc : e ∉ childTargets c) (sd : Side) (kd : Kind) :
    (linkRemove K c x s).seq sd e kd = s.seq sd e kd := by
  rw [linkRemove_seq]
  have h0 : removeHits K c sd e kd = 0 := by
    by_contra h
    cases sd with
    | parent => exact hc (removeHits_pos_parent K c e kd h).2
    | child => exact hp (removeHits_pos_child K c e kd h).2
  rw [h0]
  rfl

/-- Claim C21: for every kind and every command, the targets of the calls of `linkAdd`
and of `linkRemove`, in the order of the calls, are the captured parent sequences in the
kind order Edge, Lane, Additional, Shape, TAZElement, DemandElement, GenericData, each
front to back, followed by the captured child sequences in the same order; the number
of calls is the total length of the 14 sequences, and the calls do not depend on the
forward flag. -/
theorem link_iteration_order (K : Kind) (c : GNEChange) (x : Nat) :
    (linkAddCalls K c x).map Call.target =
      (c.myParentEdges.map (Elem.mk .Edge) ++ c.myParentLanes.map (Elem.mk .Lane) ++
        c.myParentAdditionals.map (Elem.mk .Additional) ++
        c.myParentShapes.map (Elem.mk .Shape) ++
        c.myParentTAZElements.map (Elem.mk .TAZElement) ++
        c.myParentDemandElements.map (Elem.mk .DemandElement) ++
        c.myParentGenericDatas.map (Elem.mk .GenericData)) ++
      (c.myChildEdges.map (Elem.mk .Edge) ++ c.myChildLanes.map (Elem.mk .Lane) ++
        c.myChildAdditionals.map (Elem.mk .Additional) ++
        c.myChildShapes.map (Elem.mk .Shape) ++
        c.myChildTAZElements.map (Elem.mk .TAZElement) ++
        c.myChildDemandElements.map (Elem.mk .DemandElement) ++
        c.myChildGenericDatas.map (Elem.mk .GenericData)) ∧
    (linkRemoveCalls K c x).map Call.target = (linkAddCalls K c x).map Call.target ∧
    (linkAddCalls K c x).length =
      (c.myParentEdges.length + c.myParentLanes.length + c.myParentAdditionals.length +
        c.myParentShapes.length + c.myParentTAZElements.length +
        c.myParentDemandElements.length + c.myParentGenericDatas.length) +
      (c.myChildEdges.length + c.myChildLanes.length + c.myChildAdditionals.length +
        c.myChildShapes.length + c.myChildTAZElements.length +
        c.myChildDemandElements.length + c.myChildGenericDatas.length) ∧
    (linkRemoveCalls K c x).length = (linkAddCalls K c x).length ∧
    (∀ k ∈ linkAddCalls K c x, k.arg = ⟨K, x⟩) ∧
    (∀ k ∈ linkRemoveCalls K c x, k.arg = ⟨K, x⟩) ∧
    (∀ forward, linkAddCalls K { c with myForward := forward } x = linkAddCalls K c x) ∧
    (∀ forward, linkRemoveCalls K { c with myForward := forward } x = linkRemoveCalls K c x) := by
  have hadd : (linkAddCalls K c x).map Call.target = parentTargets c ++ childTargets c := by
    rw [linkAddCalls_eq]
    simp [addScript, Function.comp_def]
  have hrem : (linkRemoveCalls K c x).map Call.target = parentTargets c ++ childTargets c := by
    rw [linkRemoveCalls_eq]
    simp [removeScript, Function.comp_def]
  have hlen : (linkAddCalls K c x).length = (parentTargets c ++ childTargets c).length := by
    rw [← hadd, List.length_map]
  have hlenr : (linkRemoveCalls K c x).length = (parentTargets c ++ childTargets c).length := by
    rw [← hrem, List.length_map]
  refine ⟨hadd, hrem.trans hadd.symm, ?_, hlenr.trans hlen.symm, ?_, ?_, ?_, ?_⟩
  · rw [hlen]
    simp only [parentTargets, childTargets, List.length_append, List.length_map]
  · intro k hk
    rw [linkAddCalls_eq] at hk
    exact (addScript_isAdd K c x k hk).2
  · intro k hk
    rw [linkRemoveCalls_eq] at hk
    exact (removeScript_isRemove K c x k hk).2
  · intro forward
    rw [linkAddCalls_eq, linkAddCalls_eq]
    rfl
  · intro forward
    rw [linkRemoveCalls_eq, linkRemoveCalls_eq]
    rfl

/-- Claim C23: `linkAdd` and `linkRemove` leave every sequence of every element that is
in no captured sequence as it is, in particular those of `X` when `X` is in none; a
sequence that changes is the child sequence of the kind of `X` of a captured parent or
the parent sequence of the kind of `X` of a captured child, or, in `linkAdd` for an
Additional, the Additional child sequence of a captured GenericData child. -/
theorem link_frame (K : Kind) (c : GNEChange) (x : Nat) (s : Store) :
    (∀ e : Elem, e.id ∉ c.myParent e.kind → e.id ∉ c.myChild e.kind → ∀ k,
      (linkAdd K c x s).parents e k = s.parents e k ∧
      (linkAdd K c x s).children e k = s.children e k ∧
      (linkRemove K c x s).parents e k = s.parents e k ∧
      (linkRemove K c x s).children e k = s.children e k) ∧
    (x ∉ c.myParent K → x ∉ c.myChild K → ∀ k,
      (linkAdd K c x s).parents ⟨K, x⟩ k = s.parents ⟨K, x⟩ k ∧
      (linkAdd K c x s).children ⟨K, x⟩ k = s.children ⟨K, x⟩ k ∧
      (linkRemove K c x s).parents ⟨K, x⟩ k = s.parents ⟨K, x⟩ k ∧
      (linkRemove K c x s).children ⟨K, x⟩ k = s.children ⟨K, x⟩ k) ∧
    (∀ (e : Elem) (k : Kind), (linkAdd K c x s).children e k ≠ s.children e k →
      k = K ∧ (e.id ∈ c.myParent e.kind ∨
        (K = .Additional ∧ e.kind = .GenericData ∧ e.id ∈ c.myChildGenericDatas))) ∧
    (∀ (e : Elem) (k : Kind), (linkAdd K c x s).parents e k ≠ s.parents e k →
      k = K ∧ e.id ∈ c.myChild e.kind) ∧
    (∀ (e : Elem) (k : Kind), (linkRemove K c x s).children e k ≠ s.children e k →
      k = K ∧ e.id ∈ c.myParent e.kind) ∧
    (∀ (e : Elem) (k : Kind), (linkRemove K c x s).parents e k ≠ s.parents e k →
      k = K ∧ e.id ∈ c.myChild e.kind) := by
  have hun : ∀ e : Elem, e.id ∉ c.myParent e.kind → e.id ∉ c.myChild e.kind → ∀ k,
      (linkAdd K c x s).parents e k = s.parents e k ∧
      (linkAdd K c x s).children e k = s.children e k ∧
      (linkRemove K c x s).parents e k = s.parents e k ∧
      (linkRemove K c x s).children e k = s.children e k := by
    intro e hp hc k
    have hp' : e ∉ parentTargets c := fun h => hp ((mem_parentTargets c e).1 h)
    have hc' : e ∉ childTargets c := fun h => hc ((mem_childTargets c e).1 h)
    exact ⟨linkAdd_untouched K c x s e hp' hc' .parent k,
      linkAdd_untouched K c x s e hp' hc' .child k,
      linkRemove_untouched K c x s e hp' hc' .parent k,
      linkRemove_untouched K c x s e hp' hc' .child k⟩
  refine ⟨hun, fun hp hc => hun ⟨K, x⟩ hp hc, ?_, ?_, ?_, ?_⟩
  · intro e k hne
    have hseq := linkAdd_seq K c x s .child e k
    simp only [Store.seq] at hseq
    have h0 : addHits K c .child e k ≠ 0 := by
      intro h0
      rw [h0] at hseq
      exact hne (by simpa using hseq)
    obtain ⟨hk, h1⟩ := addHits_pos_child K c e k h0
    refine ⟨hk, ?_⟩
    rcases h1 with h1 | ⟨h1, h2, h3⟩
    · exact Or.inl ((mem_parentTargets c e).1 h1)
    · right
      refine ⟨h1, h2, ?_⟩
      have := (mem_childTargets c e).1 h3
      rw [h2] at this
      exact this
  · intro e k hne
    have hseq := linkAdd_seq K c x s .parent e k
    simp only [Store.seq] at hseq
    have h0 : addHits K c .parent e k ≠ 0 := by
      intro h0
      rw [h0] at hseq
      exact hne (by simpa using hseq)
    obtain ⟨hk, h1⟩ := addHits_pos_parent K c e k h0
    exact ⟨hk, (mem_childTargets c e).1 h1⟩
  · intro e k hne
    have hseq := linkRemove_seq K c x s .child e k
    simp only [Store.seq] at hseq
    have h0 : removeHits K c .child e k ≠ 0 := by
      intro h0
      rw [h0] at hseq
      exact hne hseq
    obtain ⟨hk, h1⟩ := removeHits_pos_child K c e k h0
    exact ⟨hk, (mem_parentTargets c e).1 h1⟩
  · intro e k hne
    have hseq := linkRemove_seq K c x s .parent e k
    simp only [Store.seq] at hseq
    have h0 : removeHits K c .parent e k ≠ 0 := by
      intro h0
      rw [h0] at hseq
      exact hne hseq
    obtain ⟨hk, h1⟩ := removeHits_pos_parent K c e k h0
    exact ⟨hk, (mem_childTargets c e).1 h1⟩

theorem checkPresent_eq {T Dbl RGB : Type} (env : Collaborators T Dbl RGB)
    (attrs : SUMOSAXAttributes) (av : AttributeValues) (attr : SumoXMLAttr) :
    checkPresent env attrs av attr =
      (checkBeforeSVC env attrs av attr).map
        (fun st => checkRouteProbe env attr (checkVClassGuiShape attr (checkSVC env av st))) := by
  unfold checkPresent checkBeforeSVC
  simp only [bind, Except.bind, pure, Except.pure, Except.map]
  repeat' split
  all_goals rfl

theorem checkCanParse_parsedAttribute {T Dbl RGB : Type} (env : Collaborators T Dbl RGB)
    (av : AttributeValues) (hsvc : av.isSVC = true) (st st' : CheckState)
    (h : checkCanParse env av st = .ok st') : st'.parsedAttribute = st.parsedAttribute := by
  unfold checkCanParse at h
  simp only [bind, Except.bind, pure, Except.pure, hsvc] at h
  repeat' split at h
  all_goals first | (cases h; rfl) | (cases h; simp_all) | cases h

theorem checkID_parsedAttribute {T Dbl RGB : Type} (env : Collaborators T Dbl RGB)
    (attr : SumoXMLAttr) (st : CheckState) :
    (checkID env attr st).parsedAttribute = st.parsedAttribute := by
  unfold checkID
  repeat' split
  all_goals rfl

theorem checkInt_parsedAttribute {T Dbl RGB : Type} (env : Collaborators T Dbl RGB)
    (av : AttributeValues) (st st' : CheckState)
    (h : checkInt env av st = .ok st') : st'.parsedAttribute = st.parsedAttribute := by
  unfold checkInt at h
  simp only [bind, Except.bind, pure, Except.pure] at h
  repeat' split at h
  all_goals first | cases h; rfl | cases h

theorem checkFloat_parsedAttribute {T Dbl RGB : Type} (env : Collaborators T Dbl RGB)
    (av : AttributeValues) (st st' : CheckState)
    (h : checkFloat env av st = .ok st') : st'.parsedAttribute = st.parsedAttribute := by
  unfold checkFloat at h
  simp only [bind, Except.bind, pure, Except.pure] at h
  repeat' split at h
  all_goals first | cases h; rfl | cases h

theorem checkTime_parsedAttribute {T Dbl RGB : Type} (env : Collaborators T Dbl RGB)
    (av : AttributeValues) (st st' : CheckState)
    (h : checkTime env av st = .ok st') : st'.parsedAttribute = st.parsedAttribute := by
  unfold checkTime at h
  simp only [bind, Except.bind, pure, Except.pure] at h
  repeat' split at h
  all_goals first | cases h; rfl | cases h

theorem checkProbability_parsedAttribute {T Dbl RGB : Type} (env : Collaborators T Dbl RGB)
    (av : AttributeValues) (st st' : CheckState)
    (h : checkProbability env av st = .ok st') : st'.parsedAttribute = st.parsedAttribute := by
  unfold checkProbability at h
  simp only [bind, Except.bind, pure, Except.pure] at h
  repeat' split at h
  all_goals first | cases h; rfl | cases h

theorem checkColor_parsedAttribute {T Dbl RGB : Type} (env : Collaborators T Dbl RGB)
    (av : AttributeValues) (st st' : CheckState)
    (h : checkColor env av st = .ok st') : st'.parsedAttribute = st.parsedAttribute := by
  unfold checkColor at h
  simp only [bind, Except.bind, pure, Except.pure] at h
  repeat' split at h
  all_goals first | cases h; rfl | cases h

theorem checkFilename_parsedAttribute {T Dbl RGB : Type} (env : Collaborators T Dbl RGB)
    (av : AttributeValues) (st : CheckState) :
    (checkFilename env av st).parsedAttribute = st.parsedAttribute := by
  unfold checkFilename
  split <;> rfl

/-- For an SVC attribute, no check made before the SVC check changes the string read
from the XML. -/
theorem checkBeforeSVC_parsedAttribute {T Dbl RGB : Type} (env : Collaborators T Dbl RGB)
    (attrs : SUMOSAXAttributes) (av : AttributeValues) (attr : SumoXMLAttr)
    (hsvc : av.isSVC = true) (st : CheckState)
    (h : checkBeforeSVC env attrs av attr = .ok st) :
    st.parsedAttribute = attrs.getString attr := by
  unfold checkBeforeSVC at h
  simp only [bind, Except.bind, pure, Except.pure] at h
  split at h
  · cases h
  rename_i s1 h1
  split at h
  · cases h
  rename_i s2 h2
  split at h
  · cases h
  rename_i s3 h3
  split at h
  · cases h
  rename_i s4 h4
  split at h
  · cases h
  rename_i s5 h5
  split at h
  · cases h
  rename_i s6 h6
  cases h
  rw [checkFilename_parsedAttribute, checkColor_parsedAttribute env av _ _ h6,
    checkProbability_parsedAttribute env av _ _ h5, checkTime_parsedAttribute env av _ _ h4,
    checkFloat_parsedAttribute env av _ _ h3, checkInt_parsedAttribute env av _ _ h2,
    checkID_parsedAttribute, checkCanParse_parsedAttribute env av hsvc _ _ h1]

theorem checkVClassGuiShape_parsedOk (attr : SumoXMLAttr) (st : CheckState) :
    (checkVClassGuiShape attr st).parsedOk = st.parsedOk ∧
    (checkVClassGuiShape attr st).parsedAttribute = st.parsedAttribute := by
  unfold checkVClassGuiShape
  simp only
  repeat' split
  all_goals exact ⟨rfl, rfl⟩

theorem checkRouteProbe_of_ne {T Dbl RGB : Type} (env : Collaborators T Dbl RGB)
    (attr : SumoXMLAttr) (h : attr ≠ .SUMO_ATTR_ROUTEPROBE) (st : CheckState) :
    checkRouteProbe env attr st = st := by
  unfold checkRouteProbe
  simp [h]

theorem checkRouteProbe_of_not_ok {T Dbl RGB : Type} (env : Collaborators T Dbl RGB)
    (attr : SumoXMLAttr) (st : CheckState) (h : st.parsedOk = false) :
    (checkRouteProbe env attr st).parsedOk = false ∧
    (checkRouteProbe env attr st).parsedAttribute = st.parsedAttribute := by
  unfold checkRouteProbe
  split
  · exact ⟨rfl, rfl⟩
  · exact ⟨h, rfl⟩

/-- The outcome of `parseAttributeFromXML` for an attribute that exists in the XML, in
terms of the state left by the checks. -/
theorem parseAttributeFromXML_present {T Dbl RGB : Type} (env : Collaborators T Dbl RGB)
    (attrs : SUMOSAXAttributes) (objectID : String) (tag : SumoXMLTag) (attr : SumoXMLAttr)
    (abort : Bool) (av : AttributeValues) (st : CheckState)
    (hav : env.allowedAttributes tag attr = some av)
    (hpres : attrs.hasAttribute attr = true)
    (hst : checkPresent env attrs av attr = .ok st) :
    parseAttributeFromXML env attrs objectID tag attr abort =
      { abort := (resolveInvalid env av objectID tag attr abort st).abort
        warnings := (resolveInvalid env av objectID tag attr abort st).warnings
        result := env.parse (resolveInvalid env av objectID tag attr abort st).parsedAttribute } := by
  unfold parseAttributeFromXML
  simp only [hav, hpres, if_true, hst]

/-- Claim C24: for a tag that can block movement and the attribute
`GNE_ATTR_BLOCK_MOVEMENT`, when the attribute is missing from the XML, or present with
a value that the checks reject, the string parsed is "false": the result is
`parse<T>("false")`, `abort` is left as passed in and no warning is written, whether
or not the attribute has a default value. -/
theorem parseAttributeFromXML_blockMovement {T Dbl RGB : Type}
    (env : Collaborators T Dbl RGB) (attrs : SUMOSAXAttributes) (objectID : String)
    (tag : SumoXMLTag) (abort : Bool) (av : AttributeValues)
    (hav : env.allowedAttributes tag .GNE_ATTR_BLOCK_MOVEMENT = some av)
    (hblock : (env.getTagProperties tag).canBlockMovement = true) :
    (attrs.hasAttribute .GNE_ATTR_BLOCK_MOVEMENT = false →
      resolveMissing env av objectID tag .GNE_ATTR_BLOCK_MOVEMENT abort
        = { parsedAttribute := "false", abort := abort, warnings := [] } ∧
      parseAttributeFromXML env attrs objectID tag .GNE_ATTR_BLOCK_MOVEMENT abort
        = { abort := abort, warnings := [], result := env.parse "false" }) ∧
    (∀ st, attrs.hasAttribute .GNE_ATTR_BLOCK_MOVEMENT = true →
      checkPresent env attrs av .GNE_ATTR_BLOCK_MOVEMENT = .ok st → st.parsedOk = false →
      resolveInvalid env av objectID tag .GNE_ATTR_BLOCK_MOVEMENT abort st
        = { parsedAttribute := "false", abort := abort, warnings := [] } ∧
      parseAttributeFromXML env attrs objectID tag .GNE_ATTR_BLOCK_MOVEMENT abort
        = { abort := abort, warnings := [], result := env.parse "false" }) := by
  constructor
  · intro hmiss
    have hr : resolveMissing env av objectID tag .GNE_ATTR_BLOCK_MOVEMENT abort
        = { parsedAttribute := "false", abort := abort, warnings := [] } := by
      unfold resolveMissing
      simp [hblock]
    refine ⟨hr, ?_⟩
    unfold parseAttributeFromXML
    simp only [hav, hmiss, Bool.false_eq_true, if_false, hr]
  · intro st hpres hst hok
    have hr : resolveInvalid env av objectID tag .GNE_ATTR_BLOCK_MOVEMENT abort st
        = { parsedAttribute := "false", abort := abort, warnings := [] } := by
      unfold resolveInvalid
      simp [hblock, hok]
    refine ⟨hr, ?_⟩
    rw [parseAttributeFromXML_present env attrs objectID tag _ abort av st hav hpres hst, hr]

/-- Witness of claim C24: with the example collaborators, in which every tag can block
movement and no attribute has a default value: the block-movement attribute missing,
and present with the value "maybe", which the checks reject. -/
theorem parseAttributeFromXML_blockMovement_witness :
    (parseAttributeFromXML demoBlockCollaborators demoNoAttributes "id" ⟨0⟩
        .GNE_ATTR_BLOCK_MOVEMENT false).result = .ok false ∧
    (parseAttributeFromXML demoBlockCollaborators demoNoAttributes "id" ⟨0⟩
        .GNE_ATTR_BLOCK_MOVEMENT false).abort = false ∧
    checkPresent demoBlockCollaborators demoMaybeAttributes demoFlagAttribute
        .GNE_ATTR_BLOCK_MOVEMENT
      = .ok { parsedOk := false, parsedAttribute := "", errorFormat := "" } ∧
    (parseAttributeFromXML demoBlockCollaborators demoMaybeAttributes "id" ⟨0⟩
        .GNE_ATTR_BLOCK_MOVEMENT false).result = .ok false ∧
    (parseAttributeFromXML demoBlockCollaborators demoMaybeAttributes "id" ⟨0⟩
        .GNE_ATTR_BLOCK_MOVEMENT false).abort = false ∧
    ((demoMaybeAttributes.hasAttribute .GNE_ATTR_BLOCK_MOVEMENT = false →
      resolveMissing demoBlockCollaborators demoFlagAttribute "id" ⟨0⟩
          .GNE_ATTR_BLOCK_MOVEMENT false
        = { parsedAttribute := "false", abort := false, warnings := [] } ∧
      parseAttributeFromXML demoBlockCollaborators demoMaybeAttributes "id" ⟨0⟩
          .GNE_ATTR_BLOCK_MOVEMENT false
        = { abort := false, warnings := [], result := demoBlockCollaborators.parse "false" }) ∧
    (∀ st, demoMaybeAttributes.hasAttribute .GNE_ATTR_BLOCK_MOVEMENT = true →
      checkPresent demoBlockCollaborators demoMaybeAttributes demoFlagAttribute
          .GNE_ATTR_BLOCK_MOVEMENT = .ok st → st.parsedOk = false →
      resolveInvalid demoBlockCollaborators demoFlagAttribute "id" ⟨0⟩
          .GNE_ATTR_BLOCK_MOVEMENT false st
        = { parsedAttribute := "false", abort := false, warnings := [] } ∧
      parseAttributeFromXML demoBlockCollaborators demoMaybeAttributes "id" ⟨0⟩
          .GNE_ATTR_BLOCK_MOVEMENT false
        = { abort := false, warnings := [], result := demoBlockCollaborators.parse "false" })) :=
  ⟨by rfl, by rfl, by rfl, by rfl, by rfl,
    parseAttributeFromXML_blockMovement demoBlockCollaborators demoMaybeAttributes "id" ⟨0⟩ false
      demoFlagAttribute rfl rfl⟩

theorem parseAttributeFromXML_abort_eq {T Dbl RGB : Type} (env : Collaborators T Dbl RGB)
    (attrs : SUMOSAXAttributes) (objectID : String) (tag : SumoXMLTag) (attr : SumoXMLAttr)
    (abort : Bool) :
    (parseAttributeFromXML env attrs objectID tag attr abort).abort
      = (abort || (parseAttributeFromXML env attrs objectID tag attr false).abort) := by
  unfold parseAttributeFromXML resolveInvalid resolveMissing
  cases abort <;> simp only [Bool.false_or, Bool.true_or]
  all_goals repeat' split
  all_goals rfl

theorem abortAfter_eq {T Dbl RGB : Type} (env : Collaborators T Dbl RGB)
    (calls : List (SUMOSAXAttributes × String × SumoXMLTag × SumoXMLAttr)) (abort : Bool) :
    abortAfter env calls abort
      = (abort || calls.any
          (fun c => (parseAttributeFromXML env c.1 c.2.1 c.2.2.1 c.2.2.2 false).abort)) := by
  unfold abortAfter
  induction calls generalizing abort with
  | nil => simp
  | cons c t ih =>
    rw [List.foldl_cons, ih, parseAttributeFromXML_abort_eq, List.any_cons, Bool.or_assoc]

/-- Claim C25: the call never resets `abort`: if it is true before the call it is true
after it, the value after the call is the value before it OR-ed with what the call
itself decides, and after a sequence of calls that share the flag, starting from
false, the flag is true exactly when one of the calls sets it. -/
theorem parseAttributeFromXML_abort_monotone {T Dbl RGB : Type}
    (env : Collaborators T Dbl RGB) (attrs : SUMOSAXAttributes) (objectID : String)
    (tag : SumoXMLTag) (attr : SumoXMLAttr) (abort : Bool)
    (calls : List (SUMOSAXAttributes × String × SumoXMLTag × SumoXMLAttr)) :
    (abort = true → (parseAttributeFromXML env attrs objectID tag attr abort).abort = true) ∧
    ((parseAttributeFromXML env attrs objectID tag attr abort).abort = false → abort = false) ∧
    ((parseAttributeFromXML env attrs objectID tag attr abort).abort
      = (abort || (parseAttributeFromXML env attrs objectID tag attr false).abort)) ∧
    (abortAfter env calls abort
      = (abort || calls.any
          (fun c => (parseAttributeFromXML env c.1 c.2.1 c.2.2.1 c.2.2.2 false).abort))) ∧
    (abortAfter env calls false = true ↔
      ∃ c ∈ calls, (parseAttributeFromXML env c.1 c.2.1 c.2.2.1 c.2.2.2 false).abort = true) := by
  have h := parseAttributeFromXML_abort_eq env attrs objectID tag attr abort
  refine ⟨?_, ?_, h, abortAfter_eq env calls abort, ?_⟩
  · intro ha
    rw [h, ha]
    rfl
  · intro hf
    rw [h] at hf
    cases abort
    · rfl
    · simp at hf
  · rw [abortAfter_eq]
    simp

/-- Claim C27: for an SVC attribute that exists in the XML, whatever state `st` the
earlier checks have left (`parsedOk` false included), the string tested by the SVC check
is the string read from the XML. If `canParseVehicleClasses` holds of it, the check
sets `parsedOk` to true and replaces the string by the canonical string of the classes,
which is then what `parse<T>` is given, `abort` being left as passed in (for an
attribute other than `SUMO_ATTR_ROUTEPROBE`, to which one more check applies). If it
does not hold, the string is replaced by the fallback string, `parsedOk` is false and
the invalid-format branch is taken. -/
theorem parseAttributeFromXML_svc {T Dbl RGB : Type} (env : Collaborators T Dbl RGB)
    (attrs : SUMOSAXAttributes) (objectID : String) (tag : SumoXMLTag) (attr : SumoXMLAttr)
    (abort : Bool) (av : AttributeValues) (st : CheckState)
    (hav : env.allowedAttributes tag attr = some av)
    (hsvc : av.isSVC = true)
    (hpres : attrs.hasAttribute attr = true)
    (hst : checkBeforeSVC env attrs av attr = .ok st) :
    st.parsedAttribute = attrs.getString attr ∧
    (env.canParseVehicleClasses (attrs.getString attr) = true →
      checkSVC env av st =
        { st with
          parsedOk := true
          parsedAttribute := env.vehicleClassesString (attrs.getString attr) } ∧
      (attr ≠ .SUMO_ATTR_ROUTEPROBE →
        parseAttributeFromXML env attrs objectID tag attr abort =
          { abort := abort
            warnings := []
            result := env.parse (env.vehicleClassesString (attrs.getString attr)) })) ∧
    (env.canParseVehicleClasses (attrs.getString attr) = false →
      (checkSVC env av st).parsedOk = false ∧
      (checkSVC env av st).parsedAttribute = fallbackValue av ∧
      (∃ st', checkPresent env attrs av attr = .ok st' ∧ st'.parsedOk = false ∧
        st'.parsedAttribute = fallbackValue av ∧
        parseAttributeFromXML env attrs objectID tag attr abort =
          { abort := (resolveInvalid env av objectID tag attr abort st').abort
            warnings := (resolveInvalid env av objectID tag attr abort st').warnings
            result :=
              env.parse (resolveInvalid env av objectID tag attr abort st').parsedAttribute }) ∧
      (parseAttributeFromXML env attrs objectID tag attr abort).result =
        env.parse
          (if (env.getTagProperties tag).canBlockMovement = true ∧
              attr = .GNE_ATTR_BLOCK_MOVEMENT then "false"
            else if env.hasDefaultValue tag attr = true then
              env.toStringValue (env.getDefaultValue tag attr)
            else fallbackValue av)) := by
  have hraw := checkBeforeSVC_parsedAttribute env attrs av attr hsvc st hst
  have hcp : checkPresent env attrs av attr
      = .ok (checkRouteProbe env attr (checkVClassGuiShape attr (checkSVC env av st))) := by
    rw [checkPresent_eq, hst]
    rfl
  refine ⟨hraw, ?_, ?_⟩
  · intro hcan
    have hs : checkSVC env av st =
        { st with
          parsedOk := true
          parsedAttribute := env.vehicleClassesString (attrs.getString attr) } := by
      unfold checkSVC
      simp [hsvc, hraw, hcan]
    refine ⟨hs, ?_⟩
    intro hne
    rw [checkRouteProbe_of_ne env attr hne] at hcp
    rw [parseAttributeFromXML_present env attrs objectID tag attr abort av _ hav hpres hcp]
    have hok : (checkVClassGuiShape attr (checkSVC env av st)).parsedOk = true := by
      rw [(checkVClassGuiShape_parsedOk attr (checkSVC env av st)).1, hs]
    have hpa : (checkVClassGuiShape attr (checkSVC env av st)).parsedAttribute
        = env.vehicleClassesString (attrs.getString attr) := by
      rw [(checkVClassGuiShape_parsedOk attr (checkSVC env av st)).2, hs]
    have hr : resolveInvalid env av objectID tag attr abort
        (checkVClassGuiShape attr (checkSVC env av st))
        = { parsedAttribute := env.vehicleClassesString (attrs.getString attr)
            abort := abort
            warnings := [] } := by
      unfold resolveInvalid
      simp [hok, hpa]
    rw [hr]
  · intro hcan
    have hs1 : (checkSVC env av st).parsedOk = false := by
      unfold checkSVC
      simp [hsvc, hraw, hcan]
    have hs2 : (checkSVC env av st).parsedAttribute = fallbackValue av := by
      unfold checkSVC
      simp [hsvc, hraw, hcan]
    have hv := checkVClassGuiShape_parsedOk attr (checkSVC env av st)
    have hr := checkRouteProbe_of_not_ok env attr (checkVClassGuiShape attr (checkSVC env av st))
      (by rw [hv.1, hs1])
    have hfin := parseAttributeFromXML_present env attrs objectID tag attr abort av _ hav hpres hcp
    refine ⟨hs1, hs2, ⟨_, hcp, hr.1, ?_, hfin⟩, ?_⟩
    · rw [hr.2, hv.2, hs2]
    · rw [hfin]
      simp only
      congr 1
      unfold resolveInvalid
      simp only [hr.1, Bool.not_false, if_true]
      by_cases hb : (env.getTagProperties tag).canBlockMovement = true ∧
          attr = .GNE_ATTR_BLOCK_MOVEMENT
      · simp [hb.1, hb.2]
      · have hb' : ((env.getTagProperties tag).canBlockMovement
            && decide (attr = .GNE_ATTR_BLOCK_MOVEMENT)) = false := by
          cases h1 : (env.getTagProperties tag).canBlockMovement
          · rfl
          · by_cases h2 : attr = .GNE_ATTR_BLOCK_MOVEMENT
            · exact absurd ⟨h1, h2⟩ hb
            · simp [h2]
        rw [hb', if_neg hb]
        simp only [Bool.false_eq_true, if_false]
        split <;> rfl

/-- Witness of claim C27: an SVC attribute read with `T = int` and the value
"passenger bus": `canParse<int>` fails on it and `parsedOk` is false before the SVC
check, the check accepts it, and `parse<int>` is given the canonical string. -/
theorem parseAttributeFromXML_svc_witness :
    checkBeforeSVC demoSVCCollaborators demoClassesAttributes demoSVCAttribute (.other 3)
      = .ok { parsedOk := false, parsedAttribute := "passenger bus", errorFormat := "" } ∧
    (parseAttributeFromXML demoSVCCollaborators demoClassesAttributes "id" ⟨0⟩ (.other 3)
        false).result = .error .NumberFormatException ∧
    (parseAttributeFromXML demoSVCCollaborators demoClassesAttributes "id" ⟨0⟩ (.other 3)
        false).abort = false ∧
    (({ parsedOk := false, parsedAttribute := "passenger bus", errorFormat := "" } : CheckState)
        |>.parsedAttribute) = demoClassesAttributes.getString (.other 3) ∧
    (demoSVCCollaborators.canParseVehicleClasses (demoClassesAttributes.getString (.other 3))
        = true →
      checkSVC demoSVCCollaborators demoSVCAttribute
          { parsedOk := false, parsedAttribute := "passenger bus", errorFormat := "" } =
        { parsedOk := true
          parsedAttribute :=
            demoSVCCollaborators.vehicleClassesString (demoClassesAttributes.getString (.other 3))
          errorFormat := "" } ∧
      ((SumoXMLAttr.other 3) ≠ .SUMO_ATTR_ROUTEPROBE →
        parseAttributeFromXML demoSVCCollaborators demoClassesAttributes "id" ⟨0⟩ (.other 3)
            false =
          { abort := false
            warnings := []
            result := demoSVCCollaborators.parse
              (demoSVCCollaborators.vehicleClassesString
                (demoClassesAttributes.getString (.other 3))) })) :=
  have h := parseAttributeFromXML_svc demoSVCCollaborators demoClassesAttributes "id" ⟨0⟩
    (.other 3) false demoSVCAttribute
    { parsedOk := false, parsedAttribute := "passenger bus", errorFormat := "" } rfl rfl rfl
    (by rfl)
  ⟨by rfl, by rfl, by rfl, h.1, h.2.1⟩

theorem foldl_or_testBit {α : Type} (bit : α → Nat) (toInt : α → Nat)
    (hpow : ∀ a, toInt a = 2 ^ bit a) (flags : List α) (acc j : Nat) :
    (flags.foldl (fun acc f => acc ||| toInt f) acc).testBit j
      = (acc.testBit j || flags.any (fun f => decide (bit f = j))) := by
  induction flags generalizing acc with
  | nil => simp
  | cons a t ih =>
    rw [List.foldl_cons, ih, Nat.testBit_or, hpow, Nat.testBit_two_pow, List.any_cons,
      Bool.or_assoc]

/-- Flags that are distinct powers of two can be tested one by one in the OR of a set
of them. -/
theorem orFlags_and_ne_zero {α : Type} (bit : α → Nat) (toInt : α → Nat)
    (hpow : ∀ a, toInt a = 2 ^ bit a) (hinj : ∀ a b, bit a = bit b → a = b)
    (flags : List α) (f : α) :
    orFlags toInt flags &&& toInt f ≠ 0 ↔ f ∈ flags := by
  have htest : (orFlags toInt flags).testBit (bit f) = true ↔ f ∈ flags := by
    unfold orFlags
    rw [foldl_or_testBit bit toInt hpow]
    simp only [Nat.zero_testBit, Bool.false_or, List.any_eq_true, decide_eq_true_eq]
    constructor
    · rintro ⟨g, hg, hb⟩
      rw [← hinj g f hb]
      exact hg
    · intro hf
      exact ⟨f, hf, rfl⟩
  rw [hpow f, Nat.and_two_pow, ← htest]
  cases (orFlags toInt flags).testBit (bit f)
  · simp
  · simp

theorem tagProperty_toInt_eq (e : TAGProperty) : e.toInt = 2 ^ e.bit := by
  cases e <;> rfl

theorem attrProperty_toInt_eq (e : AttrProperty) : e.toInt = 2 ^ e.bit := by
  cases e <;> rfl

theorem tagProperty_bit_inj (a b : TAGProperty) (h : a.bit = b.bit) : a = b := by
  cases a <;> cases b <;> first | rfl | (exact absurd h (by decide))

theorem attrProperty_bit_inj (a b : AttrProperty) (h : a.bit = b.bit) : a = b := by
  cases a <;> cases b <;> first | rfl | (exact absurd h (by decide))

/-- Claim C28: every enumerator of `TAGProperty` and of `AttrProperty` is a power of
two, two distinct enumerators of the same enum have bitwise AND 0, and in the OR of any
set of flags the bitwise AND with a flag is non-zero exactly when the flag is in the
set. -/
theorem property_flags_independent :
    (∀ e : TAGProperty, ∃ k, e.toInt = 2 ^ k) ∧
    (∀ e : AttrProperty, ∃ k, e.toInt = 2 ^ k) ∧
    (∀ a b : TAGProperty, a ≠ b → a.toInt &&& b.toInt = 0) ∧
    (∀ a b : AttrProperty, a ≠ b → a.toInt &&& b.toInt = 0) ∧
    (∀ (flags : List TAGProperty) (f : TAGProperty),
      orFlags TAGProperty.toInt flags &&& f.toInt ≠ 0 ↔ f ∈ flags) ∧
    (∀ (flags : List AttrProperty) (f : AttrProperty),
      orFlags AttrProperty.toInt flags &&& f.toInt ≠ 0 ↔ f ∈ flags) := by
  refine ⟨fun e => ⟨e.bit, tagProperty_toInt_eq e⟩, fun e => ⟨e.bit, attrProperty_toInt_eq e⟩,
    ?_, ?_, ?_, ?_⟩
  · intro a b hab
    have h := orFlags_and_ne_zero TAGProperty.bit TAGProperty.toInt tagProperty_toInt_eq
      tagProperty_bit_inj [a] b
    have h1 : orFlags TAGProperty.toInt [a] = a.toInt := by
      simp [orFlags]
    rw [h1] at h
    by_contra hne
    have := h.1 hne
    simp at this
    exact hab this.symm
  · intro a b hab
    have h := orFlags_and_ne_zero AttrProperty.bit AttrProperty.toInt attrProperty_toInt_eq
      attrProperty_bit_inj [a] b
    have h1 : orFlags AttrProperty.toInt [a] = a.toInt := by
      simp [orFlags]
    rw [h1] at h
    by_contra hne
    have := h.1 hne
    simp at this
    exact hab this.symm
  · exact orFlags_and_ne_zero TAGProperty.bit TAGProperty.toInt tagProperty_toInt_eq
      tagProperty_bit_inj
  · exact orFlags_and_ne_zero AttrProperty.bit AttrProperty.toInt attrProperty_toInt_eq
      attrProperty_bit_inj

end Netedit
